import Mathlib

/-!
KagenouBot: the dispatch core of `index.js`

A shallow embedding of the message dispatch engine of `index.js`
(role resolution, command registry, cooldown tracker, reply correlation and
`handleMessage`), followed by the properties proved about it.

Conventions of the embedding

* JavaScript strings are Lean `String`s; the text primitives below work on the
  list of characters of a string.
* A user id is a JavaScript value that is either a string or a non-negative
  safe integer (`JsId`); `String(id)` is `jsString`.
* `Date.now()` is a natural number of milliseconds handed to the function that
  reads the clock.
* The process-wide tables (`global.commands`, `global.userCooldowns`, ...) are
  fields of `World`; a function that mutates them returns the new `World`.
* A call on the transport or into a command module is recorded as an `Effect`
  in the order in which the code performs it.
* `toLowerCase` and `toUpperCase` are the default case conversions of
  Unicode 14.0, which the language prescribes without regard to a locale.
* The Numbers of `rpg.js` are whole-valued doubles, held as integers; a sum or
  a difference is rounded to the nearest double by `roundToDouble`.
-/

namespace KagenouBot

/-! ## JavaScript text primitives -/

/-- The space character U+0020, the only separator of the pattern `/ +/`. -/
def space : Char := Char.ofNat 32

/-- The lower-case mappings of the code points from U+0080 on (Unicode 14.0),
as runs `(first, last, step, image of first)`: the code points `first`,
`first + step`, ... up to `last` map to the image of `first` plus their distance
from `first`. U+0130 and U+03A3 are handled by `toLowerCase`. -/
def lowerCaseRuns : List (Nat × Nat × Nat × Nat) :=
  [
    (0xC0, 0xD6, 1, 0xE0), (0xD8, 0xDE, 1, 0xF8), (0x100, 0x12E, 2, 0x101),
    (0x132, 0x136, 2, 0x133), (0x139, 0x147, 2, 0x13A), (0x14A, 0x176, 2, 0x14B),
    (0x178, 0x178, 1, 0xFF), (0x179, 0x17D, 2, 0x17A), (0x181, 0x181, 1, 0x253),
    (0x182, 0x184, 2, 0x183), (0x186, 0x186, 1, 0x254), (0x187, 0x187, 1, 0x188),
    (0x189, 0x18A, 1, 0x256), (0x18B, 0x18B, 1, 0x18C), (0x18E, 0x18E, 1, 0x1DD),
    (0x18F, 0x18F, 1, 0x259), (0x190, 0x190, 1, 0x25B), (0x191, 0x191, 1, 0x192),
    (0x193, 0x193, 1, 0x260), (0x194, 0x194, 1, 0x263), (0x196, 0x196, 1, 0x269),
    (0x197, 0x197, 1, 0x268), (0x198, 0x198, 1, 0x199), (0x19C, 0x19C, 1, 0x26F),
    (0x19D, 0x19D, 1, 0x272), (0x19F, 0x19F, 1, 0x275), (0x1A0, 0x1A4, 2, 0x1A1),
    (0x1A6, 0x1A6, 1, 0x280), (0x1A7, 0x1A7, 1, 0x1A8), (0x1A9, 0x1A9, 1, 0x283),
    (0x1AC, 0x1AC, 1, 0x1AD), (0x1AE, 0x1AE, 1, 0x288), (0x1AF, 0x1AF, 1, 0x1B0),
    (0x1B1, 0x1B2, 1, 0x28A), (0x1B3, 0x1B5, 2, 0x1B4), (0x1B7, 0x1B7, 1, 0x292),
    (0x1B8, 0x1B8, 1, 0x1B9), (0x1BC, 0x1BC, 1, 0x1BD), (0x1C4, 0x1C4, 1, 0x1C6),
    (0x1C5, 0x1C5, 1, 0x1C6), (0x1C7, 0x1C7, 1, 0x1C9), (0x1C8, 0x1C8, 1, 0x1C9),
    (0x1CA, 0x1CA, 1, 0x1CC), (0x1CB, 0x1DB, 2, 0x1CC), (0x1DE, 0x1EE, 2, 0x1DF),
    (0x1F1, 0x1F1, 1, 0x1F3), (0x1F2, 0x1F4, 2, 0x1F3), (0x1F6, 0x1F6, 1, 0x195),
    (0x1F7, 0x1F7, 1, 0x1BF), (0x1F8, 0x21E, 2, 0x1F9), (0x220, 0x220, 1, 0x19E),
    (0x222, 0x232, 2, 0x223), (0x23A, 0x23A, 1, 0x2C65), (0x23B, 0x23B, 1, 0x23C),
    (0x23D, 0x23D, 1, 0x19A), (0x23E, 0x23E, 1, 0x2C66), (0x241, 0x241, 1, 0x242),
    (0x243, 0x243, 1, 0x180), (0x244, 0x244, 1, 0x289), (0x245, 0x245, 1, 0x28C),
    (0x246, 0x24E, 2, 0x247), (0x370, 0x372, 2, 0x371), (0x376, 0x376, 1, 0x377),
    (0x37F, 0x37F, 1, 0x3F3), (0x386, 0x386, 1, 0x3AC), (0x388, 0x38A, 1, 0x3AD),
    (0x38C, 0x38C, 1, 0x3CC), (0x38E, 0x38F, 1, 0x3CD), (0x391, 0x3A1, 1, 0x3B1),
    (0x3A3, 0x3AB, 1, 0x3C3), (0x3CF, 0x3CF, 1, 0x3D7), (0x3D8, 0x3EE, 2, 0x3D9),
    (0x3F4, 0x3F4, 1, 0x3B8), (0x3F7, 0x3F7, 1, 0x3F8), (0x3F9, 0x3F9, 1, 0x3F2),
    (0x3FA, 0x3FA, 1, 0x3FB), (0x3FD, 0x3FF, 1, 0x37B), (0x400, 0x40F, 1, 0x450),
    (0x410, 0x42F, 1, 0x430), (0x460, 0x480, 2, 0x461), (0x48A, 0x4BE, 2, 0x48B),
    (0x4C0, 0x4C0, 1, 0x4CF), (0x4C1, 0x4CD, 2, 0x4C2), (0x4D0, 0x52E, 2, 0x4D1),
    (0x531, 0x556, 1, 0x561), (0x10A0, 0x10C5, 1, 0x2D00), (0x10C7, 0x10C7, 1, 0x2D27),
    (0x10CD, 0x10CD, 1, 0x2D2D), (0x13A0, 0x13EF, 1, 0xAB70), (0x13F0, 0x13F5, 1, 0x13F8),
    (0x1C90, 0x1CBA, 1, 0x10D0), (0x1CBD, 0x1CBF, 1, 0x10FD), (0x1E00, 0x1E94, 2, 0x1E01),
    (0x1E9E, 0x1E9E, 1, 0xDF), (0x1EA0, 0x1EFE, 2, 0x1EA1), (0x1F08, 0x1F0F, 1, 0x1F00),
    (0x1F18, 0x1F1D, 1, 0x1F10), (0x1F28, 0x1F2F, 1, 0x1F20), (0x1F38, 0x1F3F, 1, 0x1F30),
    (0x1F48, 0x1F4D, 1, 0x1F40), (0x1F59, 0x1F5F, 2, 0x1F51), (0x1F68, 0x1F6F, 1, 0x1F60),
    (0x1F88, 0x1F8F, 1, 0x1F80), (0x1F98, 0x1F9F, 1, 0x1F90), (0x1FA8, 0x1FAF, 1, 0x1FA0),
    (0x1FB8, 0x1FB9, 1, 0x1FB0), (0x1FBA, 0x1FBB, 1, 0x1F70), (0x1FBC, 0x1FBC, 1, 0x1FB3),
    (0x1FC8, 0x1FCB, 1, 0x1F72), (0x1FCC, 0x1FCC, 1, 0x1FC3), (0x1FD8, 0x1FD9, 1, 0x1FD0),
    (0x1FDA, 0x1FDB, 1, 0x1F76), (0x1FE8, 0x1FE9, 1, 0x1FE0), (0x1FEA, 0x1FEB, 1, 0x1F7A),
    (0x1FEC, 0x1FEC, 1, 0x1FE5), (0x1FF8, 0x1FF9, 1, 0x1F78), (0x1FFA, 0x1FFB, 1, 0x1F7C),
    (0x1FFC, 0x1FFC, 1, 0x1FF3), (0x2126, 0x2126, 1, 0x3C9), (0x212A, 0x212A, 1, 0x6B),
    (0x212B, 0x212B, 1, 0xE5), (0x2132, 0x2132, 1, 0x214E), (0x2160, 0x216F, 1, 0x2170),
    (0x2183, 0x2183, 1, 0x2184), (0x24B6, 0x24CF, 1, 0x24D0), (0x2C00, 0x2C2F, 1, 0x2C30),
    (0x2C60, 0x2C60, 1, 0x2C61), (0x2C62, 0x2C62, 1, 0x26B), (0x2C63, 0x2C63, 1, 0x1D7D),
    (0x2C64, 0x2C64, 1, 0x27D), (0x2C67, 0x2C6B, 2, 0x2C68), (0x2C6D, 0x2C6D, 1, 0x251),
    (0x2C6E, 0x2C6E, 1, 0x271), (0x2C6F, 0x2C6F, 1, 0x250), (0x2C70, 0x2C70, 1, 0x252),
    (0x2C72, 0x2C72, 1, 0x2C73), (0x2C75, 0x2C75, 1, 0x2C76), (0x2C7E, 0x2C7F, 1, 0x23F),
    (0x2C80, 0x2CE2, 2, 0x2C81), (0x2CEB, 0x2CED, 2, 0x2CEC), (0x2CF2, 0x2CF2, 1, 0x2CF3),
    (0xA640, 0xA66C, 2, 0xA641), (0xA680, 0xA69A, 2, 0xA681), (0xA722, 0xA72E, 2, 0xA723),
    (0xA732, 0xA76E, 2, 0xA733), (0xA779, 0xA77B, 2, 0xA77A), (0xA77D, 0xA77D, 1, 0x1D79),
    (0xA77E, 0xA786, 2, 0xA77F), (0xA78B, 0xA78B, 1, 0xA78C), (0xA78D, 0xA78D, 1, 0x265),
    (0xA790, 0xA792, 2, 0xA791), (0xA796, 0xA7A8, 2, 0xA797), (0xA7AA, 0xA7AA, 1, 0x266),
    (0xA7AB, 0xA7AB, 1, 0x25C), (0xA7AC, 0xA7AC, 1, 0x261), (0xA7AD, 0xA7AD, 1, 0x26C),
    (0xA7AE, 0xA7AE, 1, 0x26A), (0xA7B0, 0xA7B0, 1, 0x29E), (0xA7B1, 0xA7B1, 1, 0x287),
    (0xA7B2, 0xA7B2, 1, 0x29D), (0xA7B3, 0xA7B3, 1, 0xAB53), (0xA7B4, 0xA7C2, 2, 0xA7B5),
    (0xA7C4, 0xA7C4, 1, 0xA794), (0xA7C5, 0xA7C5, 1, 0x282), (0xA7C6, 0xA7C6, 1, 0x1D8E),
    (0xA7C7, 0xA7C9, 2, 0xA7C8), (0xA7D0, 0xA7D0, 1, 0xA7D1), (0xA7D6, 0xA7D8, 2, 0xA7D7),
    (0xA7F5, 0xA7F5, 1, 0xA7F6), (0xFF21, 0xFF3A, 1, 0xFF41), (0x10400, 0x10427, 1, 0x10428),
    (0x104B0, 0x104D3, 1, 0x104D8), (0x10570, 0x1057A, 1, 0x10597),
    (0x1057C, 0x1058A, 1, 0x105A3), (0x1058C, 0x10592, 1, 0x105B3),
    (0x10594, 0x10595, 1, 0x105BB), (0x10C80, 0x10CB2, 1, 0x10CC0),
    (0x118A0, 0x118BF, 1, 0x118C0), (0x16E40, 0x16E5F, 1, 0x16E60),
    (0x1E900, 0x1E921, 1, 0x1E922)]

/-- The ranges `(first, last)` of the code points with the property `Cased`
(Unicode 14.0). -/
def casedRanges : List (Nat × Nat) :=
  [
    (0x41, 0x5A), (0x61, 0x7A), (0xAA, 0xAA), (0xB5, 0xB5), (0xBA, 0xBA), (0xC0, 0xD6),
    (0xD8, 0xF6), (0xF8, 0x1BA), (0x1BC, 0x1BF), (0x1C4, 0x293), (0x295, 0x2B8), (0x2C0, 0x2C1),
    (0x2E0, 0x2E4), (0x345, 0x345), (0x370, 0x373), (0x376, 0x377), (0x37A, 0x37D),
    (0x37F, 0x37F), (0x386, 0x386), (0x388, 0x38A), (0x38C, 0x38C), (0x38E, 0x3A1),
    (0x3A3, 0x3F5), (0x3F7, 0x481), (0x48A, 0x52F), (0x531, 0x556), (0x560, 0x588),
    (0x10A0, 0x10C5), (0x10C7, 0x10C7), (0x10CD, 0x10CD), (0x10D0, 0x10FA), (0x10FD, 0x10FF),
    (0x13A0, 0x13F5), (0x13F8, 0x13FD), (0x1C80, 0x1C88), (0x1C90, 0x1CBA), (0x1CBD, 0x1CBF),
    (0x1D00, 0x1DBF), (0x1E00, 0x1F15), (0x1F18, 0x1F1D), (0x1F20, 0x1F45), (0x1F48, 0x1F4D),
    (0x1F50, 0x1F57), (0x1F59, 0x1F59), (0x1F5B, 0x1F5B), (0x1F5D, 0x1F5D), (0x1F5F, 0x1F7D),
    (0x1F80, 0x1FB4), (0x1FB6, 0x1FBC), (0x1FBE, 0x1FBE), (0x1FC2, 0x1FC4), (0x1FC6, 0x1FCC),
    (0x1FD0, 0x1FD3), (0x1FD6, 0x1FDB), (0x1FE0, 0x1FEC), (0x1FF2, 0x1FF4), (0x1FF6, 0x1FFC),
    (0x2071, 0x2071), (0x207F, 0x207F), (0x2090, 0x209C), (0x2102, 0x2102), (0x2107, 0x2107),
    (0x210A, 0x2113), (0x2115, 0x2115), (0x2119, 0x211D), (0x2124, 0x2124), (0x2126, 0x2126),
    (0x2128, 0x2128), (0x212A, 0x212D), (0x212F, 0x2134), (0x2139, 0x2139), (0x213C, 0x213F),
    (0x2145, 0x2149), (0x214E, 0x214E), (0x2160, 0x217F), (0x2183, 0x2184), (0x24B6, 0x24E9),
    (0x2C00, 0x2CE4), (0x2CEB, 0x2CEE), (0x2CF2, 0x2CF3), (0x2D00, 0x2D25), (0x2D27, 0x2D27),
    (0x2D2D, 0x2D2D), (0xA640, 0xA66D), (0xA680, 0xA69D), (0xA722, 0xA787), (0xA78B, 0xA78E),
    (0xA790, 0xA7CA), (0xA7D0, 0xA7D1), (0xA7D3, 0xA7D3), (0xA7D5, 0xA7D9), (0xA7F5, 0xA7F6),
    (0xA7F8, 0xA7FA), (0xAB30, 0xAB5A), (0xAB5C, 0xAB68), (0xAB70, 0xABBF), (0xFB00, 0xFB06),
    (0xFB13, 0xFB17), (0xFF21, 0xFF3A), (0xFF41, 0xFF5A), (0x10400, 0x1044F), (0x104B0, 0x104D3),
    (0x104D8, 0x104FB), (0x10570, 0x1057A), (0x1057C, 0x1058A), (0x1058C, 0x10592),
    (0x10594, 0x10595), (0x10597, 0x105A1), (0x105A3, 0x105B1), (0x105B3, 0x105B9),
    (0x105BB, 0x105BC), (0x10780, 0x10780), (0x10783, 0x10785), (0x10787, 0x107B0),
    (0x107B2, 0x107BA), (0x10C80, 0x10CB2), (0x10CC0, 0x10CF2), (0x118A0, 0x118DF),
    (0x16E40, 0x16E7F), (0x1D400, 0x1D454), (0x1D456, 0x1D49C), (0x1D49E, 0x1D49F),
    (0x1D4A2, 0x1D4A2), (0x1D4A5, 0x1D4A6), (0x1D4A9, 0x1D4AC), (0x1D4AE, 0x1D4B9),
    (0x1D4BB, 0x1D4BB), (0x1D4BD, 0x1D4C3), (0x1D4C5, 0x1D505), (0x1D507, 0x1D50A),
    (0x1D50D, 0x1D514), (0x1D516, 0x1D51C), (0x1D51E, 0x1D539), (0x1D53B, 0x1D53E),
    (0x1D540, 0x1D544), (0x1D546, 0x1D546), (0x1D54A, 0x1D550), (0x1D552, 0x1D6A5),
    (0x1D6A8, 0x1D6C0), (0x1D6C2, 0x1D6DA), (0x1D6DC, 0x1D6FA), (0x1D6FC, 0x1D714),
    (0x1D716, 0x1D734), (0x1D736, 0x1D74E), (0x1D750, 0x1D76E), (0x1D770, 0x1D788),
    (0x1D78A, 0x1D7A8), (0x1D7AA, 0x1D7C2), (0x1D7C4, 0x1D7CB), (0x1DF00, 0x1DF09),
    (0x1DF0B, 0x1DF1E), (0x1E900, 0x1E943), (0x1F130, 0x1F149), (0x1F150, 0x1F169),
    (0x1F170, 0x1F189)]

/-- The ranges `(first, last)` of the code points with the property
`Case_Ignorable` (Unicode 14.0). -/
def caseIgnorableRanges : List (Nat × Nat) :=
  [
    (0x27, 0x27), (0x2E, 0x2E), (0x3A, 0x3A), (0x5E, 0x5E), (0x60, 0x60), (0xA8, 0xA8),
    (0xAD, 0xAD), (0xAF, 0xAF), (0xB4, 0xB4), (0xB7, 0xB8), (0x2B0, 0x36F), (0x374, 0x375),
    (0x37A, 0x37A), (0x384, 0x385), (0x387, 0x387), (0x483, 0x489), (0x559, 0x559),
    (0x55F, 0x55F), (0x591, 0x5BD), (0x5BF, 0x5BF), (0x5C1, 0x5C2), (0x5C4, 0x5C5),
    (0x5C7, 0x5C7), (0x5F4, 0x5F4), (0x600, 0x605), (0x610, 0x61A), (0x61C, 0x61C),
    (0x640, 0x640), (0x64B, 0x65F), (0x670, 0x670), (0x6D6, 0x6DD), (0x6DF, 0x6E8),
    (0x6EA, 0x6ED), (0x70F, 0x70F), (0x711, 0x711), (0x730, 0x74A), (0x7A6, 0x7B0),
    (0x7EB, 0x7F5), (0x7FA, 0x7FA), (0x7FD, 0x7FD), (0x816, 0x82D), (0x859, 0x85B),
    (0x888, 0x888), (0x890, 0x891), (0x898, 0x89F), (0x8C9, 0x902), (0x93A, 0x93A),
    (0x93C, 0x93C), (0x941, 0x948), (0x94D, 0x94D), (0x951, 0x957), (0x962, 0x963),
    (0x971, 0x971), (0x981, 0x981), (0x9BC, 0x9BC), (0x9C1, 0x9C4), (0x9CD, 0x9CD),
    (0x9E2, 0x9E3), (0x9FE, 0x9FE), (0xA01, 0xA02), (0xA3C, 0xA3C), (0xA41, 0xA42),
    (0xA47, 0xA48), (0xA4B, 0xA4D), (0xA51, 0xA51), (0xA70, 0xA71), (0xA75, 0xA75),
    (0xA81, 0xA82), (0xABC, 0xABC), (0xAC1, 0xAC5), (0xAC7, 0xAC8), (0xACD, 0xACD),
    (0xAE2, 0xAE3), (0xAFA, 0xAFF), (0xB01, 0xB01), (0xB3C, 0xB3C), (0xB3F, 0xB3F),
    (0xB41, 0xB44), (0xB4D, 0xB4D), (0xB55, 0xB56), (0xB62, 0xB63), (0xB82, 0xB82),
    (0xBC0, 0xBC0), (0xBCD, 0xBCD), (0xC00, 0xC00), (0xC04, 0xC04), (0xC3C, 0xC3C),
    (0xC3E, 0xC40), (0xC46, 0xC48), (0xC4A, 0xC4D), (0xC55, 0xC56), (0xC62, 0xC63),
    (0xC81, 0xC81), (0xCBC, 0xCBC), (0xCBF, 0xCBF), (0xCC6, 0xCC6), (0xCCC, 0xCCD),
    (0xCE2, 0xCE3), (0xD00, 0xD01), (0xD3B, 0xD3C), (0xD41, 0xD44), (0xD4D, 0xD4D),
    (0xD62, 0xD63), (0xD81, 0xD81), (0xDCA, 0xDCA), (0xDD2, 0xDD4), (0xDD6, 0xDD6),
    (0xE31, 0xE31), (0xE34, 0xE3A), (0xE46, 0xE4E), (0xEB1, 0xEB1), (0xEB4, 0xEBC),
    (0xEC6, 0xEC6), (0xEC8, 0xECD), (0xF18, 0xF19), (0xF35, 0xF35), (0xF37, 0xF37),
    (0xF39, 0xF39), (0xF71, 0xF7E), (0xF80, 0xF84), (0xF86, 0xF87), (0xF8D, 0xF97),
    (0xF99, 0xFBC), (0xFC6, 0xFC6), (0x102D, 0x1030), (0x1032, 0x1037), (0x1039, 0x103A),
    (0x103D, 0x103E), (0x1058, 0x1059), (0x105E, 0x1060), (0x1071, 0x1074), (0x1082, 0x1082),
    (0x1085, 0x1086), (0x108D, 0x108D), (0x109D, 0x109D), (0x10FC, 0x10FC), (0x135D, 0x135F),
    (0x1712, 0x1714), (0x1732, 0x1733), (0x1752, 0x1753), (0x1772, 0x1773), (0x17B4, 0x17B5),
    (0x17B7, 0x17BD), (0x17C6, 0x17C6), (0x17C9, 0x17D3), (0x17D7, 0x17D7), (0x17DD, 0x17DD),
    (0x180B, 0x180F), (0x1843, 0x1843), (0x1885, 0x1886), (0x18A9, 0x18A9), (0x1920, 0x1922),
    (0x1927, 0x1928), (0x1932, 0x1932), (0x1939, 0x193B), (0x1A17, 0x1A18), (0x1A1B, 0x1A1B),
    (0x1A56, 0x1A56), (0x1A58, 0x1A5E), (0x1A60, 0x1A60), (0x1A62, 0x1A62), (0x1A65, 0x1A6C),
    (0x1A73, 0x1A7C), (0x1A7F, 0x1A7F), (0x1AA7, 0x1AA7), (0x1AB0, 0x1ACE), (0x1B00, 0x1B03),
    (0x1B34, 0x1B34), (0x1B36, 0x1B3A), (0x1B3C, 0x1B3C), (0x1B42, 0x1B42), (0x1B6B, 0x1B73),
    (0x1B80, 0x1B81), (0x1BA2, 0x1BA5), (0x1BA8, 0x1BA9), (0x1BAB, 0x1BAD), (0x1BE6, 0x1BE6),
    (0x1BE8, 0x1BE9), (0x1BED, 0x1BED), (0x1BEF, 0x1BF1), (0x1C2C, 0x1C33), (0x1C36, 0x1C37),
    (0x1C78, 0x1C7D), (0x1CD0, 0x1CD2), (0x1CD4, 0x1CE0), (0x1CE2, 0x1CE8), (0x1CED, 0x1CED),
    (0x1CF4, 0x1CF4), (0x1CF8, 0x1CF9), (0x1D2C, 0x1D6A), (0x1D78, 0x1D78), (0x1D9B, 0x1DFF),
    (0x1FBD, 0x1FBD), (0x1FBF, 0x1FC1), (0x1FCD, 0x1FCF), (0x1FDD, 0x1FDF), (0x1FED, 0x1FEF),
    (0x1FFD, 0x1FFE), (0x200B, 0x200F), (0x2018, 0x2019), (0x2024, 0x2024), (0x2027, 0x2027),
    (0x202A, 0x202E), (0x2060, 0x2064), (0x2066, 0x206F), (0x2071, 0x2071), (0x207F, 0x207F),
    (0x2090, 0x209C), (0x20D0, 0x20F0), (0x2C7C, 0x2C7D), (0x2CEF, 0x2CF1), (0x2D6F, 0x2D6F),
    (0x2D7F, 0x2D7F), (0x2DE0, 0x2DFF), (0x2E2F, 0x2E2F), (0x3005, 0x3005), (0x302A, 0x302D),
    (0x3031, 0x3035), (0x303B, 0x303B), (0x3099, 0x309E), (0x30FC, 0x30FE), (0xA015, 0xA015),
    (0xA4F8, 0xA4FD), (0xA60C, 0xA60C), (0xA66F, 0xA672), (0xA674, 0xA67D), (0xA67F, 0xA67F),
    (0xA69C, 0xA69F), (0xA6F0, 0xA6F1), (0xA700, 0xA721), (0xA770, 0xA770), (0xA788, 0xA78A),
    (0xA7F2, 0xA7F4), (0xA7F8, 0xA7F9), (0xA802, 0xA802), (0xA806, 0xA806), (0xA80B, 0xA80B),
    (0xA825, 0xA826), (0xA82C, 0xA82C), (0xA8C4, 0xA8C5), (0xA8E0, 0xA8F1), (0xA8FF, 0xA8FF),
    (0xA926, 0xA92D), (0xA947, 0xA951), (0xA980, 0xA982), (0xA9B3, 0xA9B3), (0xA9B6, 0xA9B9),
    (0xA9BC, 0xA9BD), (0xA9CF, 0xA9CF), (0xA9E5, 0xA9E6), (0xAA29, 0xAA2E), (0xAA31, 0xAA32),
    (0xAA35, 0xAA36), (0xAA43, 0xAA43), (0xAA4C, 0xAA4C), (0xAA70, 0xAA70), (0xAA7C, 0xAA7C),
    (0xAAB0, 0xAAB0), (0xAAB2, 0xAAB4), (0xAAB7, 0xAAB8), (0xAABE, 0xAABF), (0xAAC1, 0xAAC1),
    (0xAADD, 0xAADD), (0xAAEC, 0xAAED), (0xAAF3, 0xAAF4), (0xAAF6, 0xAAF6), (0xAB5B, 0xAB5F),
    (0xAB69, 0xAB6B), (0xABE5, 0xABE5), (0xABE8, 0xABE8), (0xABED, 0xABED), (0xFB1E, 0xFB1E),
    (0xFBB2, 0xFBC2), (0xFE00, 0xFE0F), (0xFE13, 0xFE13), (0xFE20, 0xFE2F), (0xFE52, 0xFE52),
    (0xFE55, 0xFE55), (0xFEFF, 0xFEFF), (0xFF07, 0xFF07), (0xFF0E, 0xFF0E), (0xFF1A, 0xFF1A),
    (0xFF3E, 0xFF3E), (0xFF40, 0xFF40), (0xFF70, 0xFF70), (0xFF9E, 0xFF9F), (0xFFE3, 0xFFE3),
    (0xFFF9, 0xFFFB), (0x101FD, 0x101FD), (0x102E0, 0x102E0), (0x10376, 0x1037A),
    (0x10780, 0x10785), (0x10787, 0x107B0), (0x107B2, 0x107BA), (0x10A01, 0x10A03),
    (0x10A05, 0x10A06), (0x10A0C, 0x10A0F), (0x10A38, 0x10A3A), (0x10A3F, 0x10A3F),
    (0x10AE5, 0x10AE6), (0x10D24, 0x10D27), (0x10EAB, 0x10EAC), (0x10F46, 0x10F50),
    (0x10F82, 0x10F85), (0x11001, 0x11001), (0x11038, 0x11046), (0x11070, 0x11070),
    (0x11073, 0x11074), (0x1107F, 0x11081), (0x110B3, 0x110B6), (0x110B9, 0x110BA),
    (0x110BD, 0x110BD), (0x110C2, 0x110C2), (0x110CD, 0x110CD), (0x11100, 0x11102),
    (0x11127, 0x1112B), (0x1112D, 0x11134), (0x11173, 0x11173), (0x11180, 0x11181),
    (0x111B6, 0x111BE), (0x111C9, 0x111CC), (0x111CF, 0x111CF), (0x1122F, 0x11231),
    (0x11234, 0x11234), (0x11236, 0x11237), (0x1123E, 0x1123E), (0x112DF, 0x112DF),
    (0x112E3, 0x112EA), (0x11300, 0x11301), (0x1133B, 0x1133C), (0x11340, 0x11340),
    (0x11366, 0x1136C), (0x11370, 0x11374), (0x11438, 0x1143F), (0x11442, 0x11444),
    (0x11446, 0x11446), (0x1145E, 0x1145E), (0x114B3, 0x114B8), (0x114BA, 0x114BA),
    (0x114BF, 0x114C0), (0x114C2, 0x114C3), (0x115B2, 0x115B5), (0x115BC, 0x115BD),
    (0x115BF, 0x115C0), (0x115DC, 0x115DD), (0x11633, 0x1163A), (0x1163D, 0x1163D),
    (0x1163F, 0x11640), (0x116AB, 0x116AB), (0x116AD, 0x116AD), (0x116B0, 0x116B5),
    (0x116B7, 0x116B7), (0x1171D, 0x1171F), (0x11722, 0x11725), (0x11727, 0x1172B),
    (0x1182F, 0x11837), (0x11839, 0x1183A), (0x1193B, 0x1193C), (0x1193E, 0x1193E),
    (0x11943, 0x11943), (0x119D4, 0x119D7), (0x119DA, 0x119DB), (0x119E0, 0x119E0),
    (0x11A01, 0x11A0A), (0x11A33, 0x11A38), (0x11A3B, 0x11A3E), (0x11A47, 0x11A47),
    (0x11A51, 0x11A56), (0x11A59, 0x11A5B), (0x11A8A, 0x11A96), (0x11A98, 0x11A99),
    (0x11C30, 0x11C36), (0x11C38, 0x11C3D), (0x11C3F, 0x11C3F), (0x11C92, 0x11CA7),
    (0x11CAA, 0x11CB0), (0x11CB2, 0x11CB3), (0x11CB5, 0x11CB6), (0x11D31, 0x11D36),
    (0x11D3A, 0x11D3A), (0x11D3C, 0x11D3D), (0x11D3F, 0x11D45), (0x11D47, 0x11D47),
    (0x11D90, 0x11D91), (0x11D95, 0x11D95), (0x11D97, 0x11D97), (0x11EF3, 0x11EF4),
    (0x13430, 0x13438), (0x16AF0, 0x16AF4), (0x16B30, 0x16B36), (0x16B40, 0x16B43),
    (0x16F4F, 0x16F4F), (0x16F8F, 0x16F9F), (0x16FE0, 0x16FE1), (0x16FE3, 0x16FE4),
    (0x1AFF0, 0x1AFF3), (0x1AFF5, 0x1AFFB), (0x1AFFD, 0x1AFFE), (0x1BC9D, 0x1BC9E),
    (0x1BCA0, 0x1BCA3), (0x1CF00, 0x1CF2D), (0x1CF30, 0x1CF46), (0x1D167, 0x1D169),
    (0x1D173, 0x1D182), (0x1D185, 0x1D18B), (0x1D1AA, 0x1D1AD), (0x1D242, 0x1D244),
    (0x1DA00, 0x1DA36), (0x1DA3B, 0x1DA6C), (0x1DA75, 0x1DA75), (0x1DA84, 0x1DA84),
    (0x1DA9B, 0x1DA9F), (0x1DAA1, 0x1DAAF), (0x1E000, 0x1E006), (0x1E008, 0x1E018),
    (0x1E01B, 0x1E021), (0x1E023, 0x1E024), (0x1E026, 0x1E02A), (0x1E130, 0x1E13D),
    (0x1E2AE, 0x1E2AE), (0x1E2EC, 0x1E2EF), (0x1E8D0, 0x1E8D6), (0x1E944, 0x1E94B),
    (0x1F3FB, 0x1F3FF), (0xE0001, 0xE0001), (0xE0020, 0xE007F), (0xE0100, 0xE01EF)]

/-- Membership of a code point in a list of ranges. -/
def inRanges (ranges : List (Nat × Nat)) (n : Nat) : Bool :=
  ranges.any (fun r => decide (r.1 ≤ n) && decide (n ≤ r.2))

/-- The property `Cased` of a character. -/
def isCased (c : Char) : Bool := inRanges casedRanges c.toNat

/-- The property `Case_Ignorable` of a character. -/
def isCaseIgnorable (c : Char) : Bool := inRanges caseIgnorableRanges c.toNat

/-- The lower-case image of a character from U+0080 on that maps to one
character. -/
def simpleLowerCase (c : Char) : Char :=
  match lowerCaseRuns.find? (fun r =>
      decide (r.1 ≤ c.toNat) && decide (c.toNat ≤ r.2.1)
        && decide ((c.toNat - r.1) % r.2.2.1 = 0)) with
  | some r => Char.ofNat (r.2.2.2 + (c.toNat - r.1))
  | none => c

/-- The condition `Final_Sigma` for a capital sigma: `before` holds the
characters in front of it, the nearest first, and `after` those behind it. A
cased letter comes before it and none after it, case-ignorable characters
between them being skipped. -/
def finalSigma (before after : List Char) : Bool :=
  (match before.dropWhile isCaseIgnorable with
    | c :: _ => isCased c
    | [] => false)
    && (match after.dropWhile isCaseIgnorable with
      | c :: _ => !isCased c
      | [] => true)

/-- Worker of `toLowerCase`: `before` holds the characters already passed, the
nearest first. -/
def toLowerCaseAux (before : List Char) : List Char → List Char
  | [] => []
  | c :: rest =>
    (if c.toNat < 0x80 then [c.toLower]
      else if c.toNat = 0x3A3 then
        [Char.ofNat (if finalSigma before rest then 0x3C2 else 0x3C3)]
      else if c.toNat = 0x130 then [Char.ofNat 0x69, Char.ofNat 0x307]
      else [simpleLowerCase c])
      ++ toLowerCaseAux (c :: before) rest

/-- Value of `s.toLowerCase()`: the lower-case mapping of the Unicode Default
Case Conversion, without regard to a locale. -/
def toLowerCase (s : String) : String := ⟨toLowerCaseAux [] s.data⟩

/-- The upper-case mappings to one character of the code points from U+0080 on
(Unicode 14.0), as runs `(first, last, step, image of first)`. -/
def upperCaseRuns : List (Nat × Nat × Nat × Nat) :=
  [
    (0xB5, 0xB5, 1, 0x39C), (0xE0, 0xF6, 1, 0xC0), (0xF8, 0xFE, 1, 0xD8), (0xFF, 0xFF, 1, 0x178),
    (0x101, 0x12F, 2, 0x100), (0x131, 0x131, 1, 0x49), (0x133, 0x137, 2, 0x132),
    (0x13A, 0x148, 2, 0x139), (0x14B, 0x177, 2, 0x14A), (0x17A, 0x17E, 2, 0x179),
    (0x17F, 0x17F, 1, 0x53), (0x180, 0x180, 1, 0x243), (0x183, 0x185, 2, 0x182),
    (0x188, 0x188, 1, 0x187), (0x18C, 0x18C, 1, 0x18B), (0x192, 0x192, 1, 0x191),
    (0x195, 0x195, 1, 0x1F6), (0x199, 0x199, 1, 0x198), (0x19A, 0x19A, 1, 0x23D),
    (0x19E, 0x19E, 1, 0x220), (0x1A1, 0x1A5, 2, 0x1A0), (0x1A8, 0x1A8, 1, 0x1A7),
    (0x1AD, 0x1AD, 1, 0x1AC), (0x1B0, 0x1B0, 1, 0x1AF), (0x1B4, 0x1B6, 2, 0x1B3),
    (0x1B9, 0x1B9, 1, 0x1B8), (0x1BD, 0x1BD, 1, 0x1BC), (0x1BF, 0x1BF, 1, 0x1F7),
    (0x1C5, 0x1C5, 1, 0x1C4), (0x1C6, 0x1C6, 1, 0x1C4), (0x1C8, 0x1C8, 1, 0x1C7),
    (0x1C9, 0x1C9, 1, 0x1C7), (0x1CB, 0x1CB, 1, 0x1CA), (0x1CC, 0x1CC, 1, 0x1CA),
    (0x1CE, 0x1DC, 2, 0x1CD), (0x1DD, 0x1DD, 1, 0x18E), (0x1DF, 0x1EF, 2, 0x1DE),
    (0x1F2, 0x1F2, 1, 0x1F1), (0x1F3, 0x1F3, 1, 0x1F1), (0x1F5, 0x1F5, 1, 0x1F4),
    (0x1F9, 0x21F, 2, 0x1F8), (0x223, 0x233, 2, 0x222), (0x23C, 0x23C, 1, 0x23B),
    (0x23F, 0x240, 1, 0x2C7E), (0x242, 0x242, 1, 0x241), (0x247, 0x24F, 2, 0x246),
    (0x250, 0x250, 1, 0x2C6F), (0x251, 0x251, 1, 0x2C6D), (0x252, 0x252, 1, 0x2C70),
    (0x253, 0x253, 1, 0x181), (0x254, 0x254, 1, 0x186), (0x256, 0x257, 1, 0x189),
    (0x259, 0x259, 1, 0x18F), (0x25B, 0x25B, 1, 0x190), (0x25C, 0x25C, 1, 0xA7AB),
    (0x260, 0x260, 1, 0x193), (0x261, 0x261, 1, 0xA7AC), (0x263, 0x263, 1, 0x194),
    (0x265, 0x265, 1, 0xA78D), (0x266, 0x266, 1, 0xA7AA), (0x268, 0x268, 1, 0x197),
    (0x269, 0x269, 1, 0x196), (0x26A, 0x26A, 1, 0xA7AE), (0x26B, 0x26B, 1, 0x2C62),
    (0x26C, 0x26C, 1, 0xA7AD), (0x26F, 0x26F, 1, 0x19C), (0x271, 0x271, 1, 0x2C6E),
    (0x272, 0x272, 1, 0x19D), (0x275, 0x275, 1, 0x19F), (0x27D, 0x27D, 1, 0x2C64),
    (0x280, 0x280, 1, 0x1A6), (0x282, 0x282, 1, 0xA7C5), (0x283, 0x283, 1, 0x1A9),
    (0x287, 0x287, 1, 0xA7B1), (0x288, 0x288, 1, 0x1AE), (0x289, 0x289, 1, 0x244),
    (0x28A, 0x28B, 1, 0x1B1), (0x28C, 0x28C, 1, 0x245), (0x292, 0x292, 1, 0x1B7),
    (0x29D, 0x29D, 1, 0xA7B2), (0x29E, 0x29E, 1, 0xA7B0), (0x345, 0x345, 1, 0x399),
    (0x371, 0x373, 2, 0x370), (0x377, 0x377, 1, 0x376), (0x37B, 0x37D, 1, 0x3FD),
    (0x3AC, 0x3AC, 1, 0x386), (0x3AD, 0x3AF, 1, 0x388), (0x3B1, 0x3C1, 1, 0x391),
    (0x3C2, 0x3C2, 1, 0x3A3), (0x3C3, 0x3CB, 1, 0x3A3), (0x3CC, 0x3CC, 1, 0x38C),
    (0x3CD, 0x3CE, 1, 0x38E), (0x3D0, 0x3D0, 1, 0x392), (0x3D1, 0x3D1, 1, 0x398),
    (0x3D5, 0x3D5, 1, 0x3A6), (0x3D6, 0x3D6, 1, 0x3A0), (0x3D7, 0x3D7, 1, 0x3CF),
    (0x3D9, 0x3EF, 2, 0x3D8), (0x3F0, 0x3F0, 1, 0x39A), (0x3F1, 0x3F1, 1, 0x3A1),
    (0x3F2, 0x3F2, 1, 0x3F9), (0x3F3, 0x3F3, 1, 0x37F), (0x3F5, 0x3F5, 1, 0x395),
    (0x3F8, 0x3F8, 1, 0x3F7), (0x3FB, 0x3FB, 1, 0x3FA), (0x430, 0x44F, 1, 0x410),
    (0x450, 0x45F, 1, 0x400), (0x461, 0x481, 2, 0x460), (0x48B, 0x4BF, 2, 0x48A),
    (0x4C2, 0x4CE, 2, 0x4C1), (0x4CF, 0x4CF, 1, 0x4C0), (0x4D1, 0x52F, 2, 0x4D0),
    (0x561, 0x586, 1, 0x531), (0x10D0, 0x10FA, 1, 0x1C90), (0x10FD, 0x10FF, 1, 0x1CBD),
    (0x13F8, 0x13FD, 1, 0x13F0), (0x1C80, 0x1C80, 1, 0x412), (0x1C81, 0x1C81, 1, 0x414),
    (0x1C82, 0x1C82, 1, 0x41E), (0x1C83, 0x1C84, 1, 0x421), (0x1C85, 0x1C85, 1, 0x422),
    (0x1C86, 0x1C86, 1, 0x42A), (0x1C87, 0x1C87, 1, 0x462), (0x1C88, 0x1C88, 1, 0xA64A),
    (0x1D79, 0x1D79, 1, 0xA77D), (0x1D7D, 0x1D7D, 1, 0x2C63), (0x1D8E, 0x1D8E, 1, 0xA7C6),
    (0x1E01, 0x1E95, 2, 0x1E00), (0x1E9B, 0x1E9B, 1, 0x1E60), (0x1EA1, 0x1EFF, 2, 0x1EA0),
    (0x1F00, 0x1F07, 1, 0x1F08), (0x1F10, 0x1F15, 1, 0x1F18), (0x1F20, 0x1F27, 1, 0x1F28),
    (0x1F30, 0x1F37, 1, 0x1F38), (0x1F40, 0x1F45, 1, 0x1F48), (0x1F51, 0x1F57, 2, 0x1F59),
    (0x1F60, 0x1F67, 1, 0x1F68), (0x1F70, 0x1F71, 1, 0x1FBA), (0x1F72, 0x1F75, 1, 0x1FC8),
    (0x1F76, 0x1F77, 1, 0x1FDA), (0x1F78, 0x1F79, 1, 0x1FF8), (0x1F7A, 0x1F7B, 1, 0x1FEA),
    (0x1F7C, 0x1F7D, 1, 0x1FFA), (0x1FB0, 0x1FB1, 1, 0x1FB8), (0x1FBE, 0x1FBE, 1, 0x399),
    (0x1FD0, 0x1FD1, 1, 0x1FD8), (0x1FE0, 0x1FE1, 1, 0x1FE8), (0x1FE5, 0x1FE5, 1, 0x1FEC),
    (0x214E, 0x214E, 1, 0x2132), (0x2170, 0x217F, 1, 0x2160), (0x2184, 0x2184, 1, 0x2183),
    (0x24D0, 0x24E9, 1, 0x24B6), (0x2C30, 0x2C5F, 1, 0x2C00), (0x2C61, 0x2C61, 1, 0x2C60),
    (0x2C65, 0x2C65, 1, 0x23A), (0x2C66, 0x2C66, 1, 0x23E), (0x2C68, 0x2C6C, 2, 0x2C67),
    (0x2C73, 0x2C73, 1, 0x2C72), (0x2C76, 0x2C76, 1, 0x2C75), (0x2C81, 0x2CE3, 2, 0x2C80),
    (0x2CEC, 0x2CEE, 2, 0x2CEB), (0x2CF3, 0x2CF3, 1, 0x2CF2), (0x2D00, 0x2D25, 1, 0x10A0),
    (0x2D27, 0x2D27, 1, 0x10C7), (0x2D2D, 0x2D2D, 1, 0x10CD), (0xA641, 0xA66D, 2, 0xA640),
    (0xA681, 0xA69B, 2, 0xA680), (0xA723, 0xA72F, 2, 0xA722), (0xA733, 0xA76F, 2, 0xA732),
    (0xA77A, 0xA77C, 2, 0xA779), (0xA77F, 0xA787, 2, 0xA77E), (0xA78C, 0xA78C, 1, 0xA78B),
    (0xA791, 0xA793, 2, 0xA790), (0xA794, 0xA794, 1, 0xA7C4), (0xA797, 0xA7A9, 2, 0xA796),
    (0xA7B5, 0xA7C3, 2, 0xA7B4), (0xA7C8, 0xA7CA, 2, 0xA7C7), (0xA7D1, 0xA7D1, 1, 0xA7D0),
    (0xA7D7, 0xA7D9, 2, 0xA7D6), (0xA7F6, 0xA7F6, 1, 0xA7F5), (0xAB53, 0xAB53, 1, 0xA7B3),
    (0xAB70, 0xABBF, 1, 0x13A0), (0xFF41, 0xFF5A, 1, 0xFF21), (0x10428, 0x1044F, 1, 0x10400),
    (0x104D8, 0x104FB, 1, 0x104B0), (0x10597, 0x105A1, 1, 0x10570),
    (0x105A3, 0x105B1, 1, 0x1057C), (0x105B3, 0x105B9, 1, 0x1058C),
    (0x105BB, 0x105BC, 1, 0x10594), (0x10CC0, 0x10CF2, 1, 0x10C80),
    (0x118C0, 0x118DF, 1, 0x118A0), (0x16E60, 0x16E7F, 1, 0x16E40),
    (0x1E922, 0x1E943, 1, 0x1E900)]

/-- The code points whose upper-case mapping has more than one character
(Unicode 14.0), with the mapping. -/
def upperCaseSpecial : List (Nat × List Nat) :=
  [
    (0xDF, [0x53, 0x53]), (0x149, [0x2BC, 0x4E]), (0x1F0, [0x4A, 0x30C]),
    (0x390, [0x399, 0x308, 0x301]), (0x3B0, [0x3A5, 0x308, 0x301]), (0x587, [0x535, 0x552]),
    (0x1E96, [0x48, 0x331]), (0x1E97, [0x54, 0x308]), (0x1E98, [0x57, 0x30A]),
    (0x1E99, [0x59, 0x30A]), (0x1E9A, [0x41, 0x2BE]), (0x1F50, [0x3A5, 0x313]),
    (0x1F52, [0x3A5, 0x313, 0x300]), (0x1F54, [0x3A5, 0x313, 0x301]),
    (0x1F56, [0x3A5, 0x313, 0x342]), (0x1F80, [0x1F08, 0x399]), (0x1F81, [0x1F09, 0x399]),
    (0x1F82, [0x1F0A, 0x399]), (0x1F83, [0x1F0B, 0x399]), (0x1F84, [0x1F0C, 0x399]),
    (0x1F85, [0x1F0D, 0x399]), (0x1F86, [0x1F0E, 0x399]), (0x1F87, [0x1F0F, 0x399]),
    (0x1F88, [0x1F08, 0x399]), (0x1F89, [0x1F09, 0x399]), (0x1F8A, [0x1F0A, 0x399]),
    (0x1F8B, [0x1F0B, 0x399]), (0x1F8C, [0x1F0C, 0x399]), (0x1F8D, [0x1F0D, 0x399]),
    (0x1F8E, [0x1F0E, 0x399]), (0x1F8F, [0x1F0F, 0x399]), (0x1F90, [0x1F28, 0x399]),
    (0x1F91, [0x1F29, 0x399]), (0x1F92, [0x1F2A, 0x399]), (0x1F93, [0x1F2B, 0x399]),
    (0x1F94, [0x1F2C, 0x399]), (0x1F95, [0x1F2D, 0x399]), (0x1F96, [0x1F2E, 0x399]),
    (0x1F97, [0x1F2F, 0x399]), (0x1F98, [0x1F28, 0x399]), (0x1F99, [0x1F29, 0x399]),
    (0x1F9A, [0x1F2A, 0x399]), (0x1F9B, [0x1F2B, 0x399]), (0x1F9C, [0x1F2C, 0x399]),
    (0x1F9D, [0x1F2D, 0x399]), (0x1F9E, [0x1F2E, 0x399]), (0x1F9F, [0x1F2F, 0x399]),
    (0x1FA0, [0x1F68, 0x399]), (0x1FA1, [0x1F69, 0x399]), (0x1FA2, [0x1F6A, 0x399]),
    (0x1FA3, [0x1F6B, 0x399]), (0x1FA4, [0x1F6C, 0x399]), (0x1FA5, [0x1F6D, 0x399]),
    (0x1FA6, [0x1F6E, 0x399]), (0x1FA7, [0x1F6F, 0x399]), (0x1FA8, [0x1F68, 0x399]),
    (0x1FA9, [0x1F69, 0x399]), (0x1FAA, [0x1F6A, 0x399]), (0x1FAB, [0x1F6B, 0x399]),
    (0x1FAC, [0x1F6C, 0x399]), (0x1FAD, [0x1F6D, 0x399]), (0x1FAE, [0x1F6E, 0x399]),
    (0x1FAF, [0x1F6F, 0x399]), (0x1FB2, [0x1FBA, 0x399]), (0x1FB3, [0x391, 0x399]),
    (0x1FB4, [0x386, 0x399]), (0x1FB6, [0x391, 0x342]), (0x1FB7, [0x391, 0x342, 0x399]),
    (0x1FBC, [0x391, 0x399]), (0x1FC2, [0x1FCA, 0x399]), (0x1FC3, [0x397, 0x399]),
    (0x1FC4, [0x389, 0x399]), (0x1FC6, [0x397, 0x342]), (0x1FC7, [0x397, 0x342, 0x399]),
    (0x1FCC, [0x397, 0x399]), (0x1FD2, [0x399, 0x308, 0x300]), (0x1FD3, [0x399, 0x308, 0x301]),
    (0x1FD6, [0x399, 0x342]), (0x1FD7, [0x399, 0x308, 0x342]), (0x1FE2, [0x3A5, 0x308, 0x300]),
    (0x1FE3, [0x3A5, 0x308, 0x301]), (0x1FE4, [0x3A1, 0x313]), (0x1FE6, [0x3A5, 0x342]),
    (0x1FE7, [0x3A5, 0x308, 0x342]), (0x1FF2, [0x1FFA, 0x399]), (0x1FF3, [0x3A9, 0x399]),
    (0x1FF4, [0x38F, 0x399]), (0x1FF6, [0x3A9, 0x342]), (0x1FF7, [0x3A9, 0x342, 0x399]),
    (0x1FFC, [0x3A9, 0x399]), (0xFB00, [0x46, 0x46]), (0xFB01, [0x46, 0x49]),
    (0xFB02, [0x46, 0x4C]), (0xFB03, [0x46, 0x46, 0x49]), (0xFB04, [0x46, 0x46, 0x4C]),
    (0xFB05, [0x53, 0x54]), (0xFB06, [0x53, 0x54]), (0xFB13, [0x544, 0x546]),
    (0xFB14, [0x544, 0x535]), (0xFB15, [0x544, 0x53B]), (0xFB16, [0x54E, 0x546]),
    (0xFB17, [0x544, 0x53D])]

/-- The upper-case mapping of a character. -/
def upperCase (c : Char) : List Char :=
  if c.toNat < 0x80 then [c.toUpper]
  else
    match upperCaseSpecial.find? (fun r => r.1 = c.toNat) with
    | some r => r.2.map Char.ofNat
    | none =>
      match upperCaseRuns.find? (fun r =>
          decide (r.1 ≤ c.toNat) && decide (c.toNat ≤ r.2.1)
            && decide ((c.toNat - r.1) % r.2.2.1 = 0)) with
      | some r => [Char.ofNat (r.2.2.2 + (c.toNat - r.1))]
      | none => [c]

/-- Value of `s.toUpperCase()`: the upper-case mapping of the Unicode Default
Case Conversion, without regard to a locale. -/
def toUpperCase (s : String) : String := ⟨s.data.flatMap upperCase⟩

/-- Value of `s.startsWith(p)`. -/
def startsWith (s p : String) : Bool := p.data.isPrefixOf s.data

/-- Value of `s.endsWith(p)`. -/
def endsWith (s p : String) : Bool := p.data.reverse.isPrefixOf s.data.reverse

/-- Value of `s.slice(p.length)` for a string `s` that starts with `p`. -/
def sliceFrom (s p : String) : String := ⟨s.data.drop p.data.length⟩

/-- Characters removed by `trim()`: the WhiteSpace and LineTerminator code points. -/
def isTrimChar (c : Char) : Bool :=
  [0x09, 0x0A, 0x0B, 0x0C, 0x0D, 0x20, 0xA0, 0x1680, 0x2028, 0x2029, 0x202F, 0x205F,
    0x3000, 0xFEFF].contains c.toNat || (decide (0x2000 ≤ c.toNat) && decide (c.toNat ≤ 0x200A))

/-- Value of `s.trim()`. -/
def trim (s : String) : String :=
  ⟨((s.data.dropWhile isTrimChar).reverse.dropWhile isTrimChar).reverse⟩

/-- Worker of `split(/ +/)`: `cur` is the current piece, reversed, and `inRun`
tells that the previous character belonged to a run of spaces. -/
def splitSpacesAux : List Char → List Char → Bool → List String
  | [], cur, _ => [⟨cur.reverse⟩]
  | c :: cs, cur, inRun =>
    if c = space then
      if inRun then splitSpacesAux cs cur true
      else ⟨cur.reverse⟩ :: splitSpacesAux cs [] true
    else splitSpacesAux cs (c :: cur) false

/-- Value of `s.split(/ +/)`: the pieces between maximal runs of spaces. -/
def splitSpaces (s : String) : List String := splitSpacesAux s.data [] false

/-- Reference for the splitting, after the words "splits the rest at the runs
of spaces": the pieces of `s` between single spaces, as `List.splitOn` gives
them, without the empty pieces that a run of two or more spaces leaves after
the first piece. -/
def tokensBetweenSpaces (s : String) : List String :=
  match s.data.splitOn space with
  | [] => []
  | first :: more => ⟨first⟩ :: (more.filter (fun piece => piece ≠ [])).map String.mk

/-! ## Identifiers and configuration -/

/-- A user id as the transport or the configuration file delivers it: a string
or a number (a non-negative safe integer). -/
inductive JsId where
  | str (s : String)
  | num (n : Nat)
  deriving DecidableEq, Repr

/-- Value of `String(id)`. -/
def jsString : JsId → String
  | .str s => s
  | .num n => toString n

/-- Truthiness of an id: the empty string and the number 0 are falsy. -/
def JsId.truthy : JsId → Bool
  | .str s => s != ""
  | .num n => n != 0

/-- The object `global.config`, restricted to the fields the dispatcher reads.
A role list is `none` when the property is missing. -/
structure Config where
  admins : Option (List JsId)
  moderators : Option (List JsId)
  developers : Option (List JsId)
  Prefix : List String
  deriving DecidableEq, Repr

/-- Function `getUserRole(uid)` of `index.js`; `config` is `global.config`. -/
def getUserRole (config : Option Config) (uid : JsId) : Nat :=
  let uid := jsString uid
  match config with
  | none => 0
  | some cfg =>
    match cfg.developers, cfg.moderators, cfg.admins with
    | some devs, some mods, some adms =>
      let developers := devs.map jsString
      let moderators := mods.map jsString
      let admins := adms.map jsString
      if developers.contains uid then 3
      else if moderators.contains uid then 2
      else if admins.contains uid then 1
      else 0
    | _, _, _ => 0

/-- The role rule in the words of the specification: the highest ordinal among
the lists (developer = 3, moderator = 2, admin = 1) that contain `String(u)`,
and 0 when no list contains it. -/
def highestListedOrdinal (developers moderators admins : List JsId) (u : JsId) : Nat :=
  ((([(3, developers), (2, moderators), (1, admins)] : List (Nat × List JsId)).filter
      (fun p => (p.2.map jsString).contains (jsString u))).map Prod.fst).foldr max 0

/-! ## Tables

`Map` objects and plain objects used as dictionaries are lists of entries in
insertion order. -/

/-- Value of `map.get(k)` (and of the property read `obj[k]`): `none` is `undefined`. -/
def tableGet {κ α : Type} [DecidableEq κ] : List (κ × α) → κ → Option α
  | [], _ => none
  | (k', v) :: rest, k => if k' = k then some v else tableGet rest k

/-- Effect of `map.set(k, v)`: an existing entry is updated in place, a new one is appended. -/
def tableSet {κ α : Type} [DecidableEq κ] : List (κ × α) → κ → α → List (κ × α)
  | [], k, v => [(k, v)]
  | (k', v') :: rest, k, v =>
    if k' = k then (k', v) :: rest else (k', v') :: tableSet rest k v

/-! ## Command modules and the registry -/

/-- The `config` object of a command module of the `config`/`run` shape. -/
structure CommandConfig where
  name : Option String
  aliases : Option (List String)
  nonPrefix : Bool
  role : Option Int
  cooldown : Option Int
  deriving DecidableEq, Repr

/-- The object a command module exports. `ref` is the identity of the object;
`run`, `execute` and `handleEvent` tell whether the property is present (what
the function does is given by a `Behaviour`). A missing property is `none`
or `false`. -/
structure Command where
  ref : Nat
  config : Option CommandConfig
  name : Option String
  aliases : Option (List String)
  nonPrefix : Bool
  role : Option Int
  cooldown : Option Int
  run : Bool
  execute : Bool
  handleEvent : Bool
  deriving DecidableEq, Repr

/-- One entry of the commands directory: the file name and what `require`
gives for it (`none` when loading the module throws). -/
structure CommandFile where
  file : String
  module : Option Command
  deriving DecidableEq, Repr

/-- A stored reply continuation, `{ callback, author }` (line 190). The
callback is named; what it does is given by a `Behaviour`. -/
structure ReplyData where
  callback : String
  author : Option JsId
  deriving DecidableEq, Repr

/-- An entry of `bannedUsers.json`. -/
structure BanRecord where
  reason : String
  deriving DecidableEq, Repr

/-- The mutable state of the process that the dispatcher reads and writes. -/
structure World where
  config : Config
  /-- parsed content of `bannedUsers.json`; `none` when it cannot be read or parsed -/
  bannedUsersFile : Option (List (String × BanRecord))
  /-- the module variable `bannedUsers` -/
  bannedUsers : List (String × BanRecord)
  commands : List (String × Command)
  nonPrefixCommands : List (String × Command)
  eventCommands : List Command
  userCooldowns : List (String × Int)
  /-- the object `global.Kagenou.replies` -/
  replies : List (String × ReplyData)
  /-- value of `global.disabledCommands.get("disabled")` -/
  disabledCommands : Option (List String)
  /-- whether `global.db` is set -/
  db : Bool
  /-- keys of `global.usersData` -/
  usersData : List JsId
  deriving DecidableEq, Repr

/-- A string property that is present and not empty (a truthy string). -/
def truthyString : Option String → Option String
  | some s => if s = "" then none else some s
  | none => none

/-- The statements shared by the two branches of lines 100–108: register `command`
under `name`, under each alias, and as prefix-free when `nonPrefix` is set. -/
def registerAs (w : World) (command : Command) (name : String)
    (aliases : Option (List String)) (nonPrefix : Bool) : World :=
  let commands := tableSet w.commands (toLowerCase name) command
  let commands :=
    match aliases with
    | some al => al.foldl (fun m a => tableSet m (toLowerCase a) command) commands
    | none => commands
  let nonPrefixCommands :=
    if nonPrefix then tableSet w.nonPrefixCommands (toLowerCase name) command
    else w.nonPrefixCommands
  { w with commands := commands, nonPrefixCommands := nonPrefixCommands }

/-- The name, the aliases and the prefix-free flag under which lines 100–108
register a module: those of `config` when `config.name` and `run` are present
(line 100), else the top-level ones when `name` is present (line 104), else
nothing. -/
def registration (command : Command) : Option (String × Option (List String) × Bool) :=
  let flat : Option (String × Option (List String) × Bool) :=
    match truthyString command.name with
    | some name => some (name, command.aliases, command.nonPrefix)
    | none => none
  match command.config with
  | some cfg =>
    match truthyString cfg.name with
    | some name => if command.run then some (name, cfg.aliases, cfg.nonPrefix) else flat
    | none => flat
  | none => flat

/-- Body of the loop of `loadCommands` for a module that loaded (lines 99–109). -/
def loadModule (w : World) (command : Command) : World :=
  let w :=
    match registration command with
    | some (name, aliases, nonPrefix) => registerAs w command name aliases nonPrefix
    | none => w
  if command.handleEvent then { w with eventCommands := w.eventCommands ++ [command] } else w

/-- The keys of `global.commands` that lines 100–108 write for a module: its
lower-cased name and lower-cased aliases. -/
def registeredKeys (command : Command) : List String :=
  match registration command with
  | some (name, aliases, _) => toLowerCase name :: (aliases.getD []).map toLowerCase
  | none => []

/-- The file names `loadCommands` keeps (line 93). -/
def isCommandFile (f : CommandFile) : Bool := endsWith f.file ".js" || endsWith f.file ".ts"

/-- Order of two file names as `strcmp` compares them: at the first difference
the lower code point comes first, and a name comes before its extensions. -/
def nameBefore : List Char → List Char → Bool
  | [], [] => false
  | [], _ :: _ => true
  | _ :: _, [] => false
  | c :: cs, d :: ds => decide (c.toNat < d.toNat) || (c == d && nameBefore cs ds)

/-- The order in which `fs.readdirSync` (line 93) lists a directory: by file
name, each name once. -/
def listedByName : List CommandFile → Bool
  | f :: g :: rest => nameBefore f.file.data g.file.data && listedByName (g :: rest)
  | _ => true

/-- Function `loadCommands` (lines 91–113) over the listing `dir` of the commands
directory: a module whose loading throws is skipped by the `catch`. -/
def loadCommands (w : World) (dir : List CommandFile) : World :=
  let commandFiles := dir.filter isCommandFile
  commandFiles.foldl
    (fun w f =>
      match f.module with
      | some command => loadModule w command
      | none => w)
    w

/-- Function `reloadCommands` (lines 37–42). -/
def reloadCommands (w : World) (dir : List CommandFile) : World :=
  loadCommands { w with commands := [], nonPrefixCommands := [], eventCommands := [] } dir

/-- Function `loadBannedUsers` (lines 56–62). -/
def loadBannedUsers (w : World) : World :=
  { w with bannedUsers := w.bannedUsersFile.getD [] }

/-! ## Cooldown tracker -/

/-- The key built by the template `${userID}:${commandName}`. -/
def cooldownKey (userID : JsId) (commandName : String) : String :=
  jsString userID ++ ":" ++ commandName

/-- Function `setCooldown` (lines 164–167), run when the clock reads `now`. -/
def setCooldown (cooldowns : List (String × Int)) (userID : JsId) (commandName : String)
    (cooldown : Int) (now : Nat) : List (String × Int) :=
  let key := cooldownKey userID commandName
  tableSet cooldowns key ((now : Int) + cooldown * 1000)

/-- Value of `Math.ceil(d / 1000)` for an integer `d`. -/
def ceilSeconds (d : Int) : Int := -((-d) / 1000)

/-- The text returned by `checkCooldown` for a live entry (line 173). -/
def waitMessage (remaining : Int) (commandName : String) : String :=
  "Please wait " ++ toString remaining ++ " second(s) before using \x27" ++ commandName
    ++ "\x27 again."

/-- Function `checkCooldown` (lines 168–176), run when the clock reads `now`;
`none` is `null`. The parameter `cooldown` is not used by the code. -/
def checkCooldown (cooldowns : List (String × Int)) (userID : JsId) (commandName : String)
    (_cooldown : Int) (now : Nat) : Option String :=
  let key := cooldownKey userID commandName
  match tableGet cooldowns key with
  | some expiry =>
    if expiry ≠ 0 ∧ (now : Int) < expiry then
      let remaining := ceilSeconds (expiry - now)
      some (waitMessage remaining commandName)
    else none
  | none => none

/-! ## Events and effects -/

/-- The `messageReply` property of an inbound event. -/
structure MessageReply where
  messageID : String
  deriving DecidableEq, Repr

/-- An inbound event of the transport, restricted to the properties read by
`handleMessage` and `handleReply`. -/
structure Event where
  type : String
  threadID : String
  senderID : JsId
  messageID : String
  body : Option String
  attachments : Option (List String)
  messageReply : Option MessageReply
  deriving DecidableEq, Repr

/-- The entry point of a command module that the dispatcher calls. -/
inductive EntryPoint where
  | execute
  | run
  deriving DecidableEq, Repr

/-- What the dispatcher does to the outside, in the order of the calls. -/
inductive Effect where
  /-- a call `api.sendMessage(body, threadID, ..., replyTo)` -/
  | apiSendMessage (body : String) (threadID : String) (replyTo : Option String)
  /-- a call of `command.execute(...)` or `command.run(...)` -/
  | invoke (entry : EntryPoint) (command : Command) (args : List String) (pfx : Option String)
  /-- a call of the continuation stored for a message id -/
  | replyCallback (messageID : String) (data : ReplyData)
  /-- a call `usersCollection.updateOne(...)` for a user id -/
  | updateOne (userId : JsId)
  deriving DecidableEq, Repr

/-- What a call into a command module does, as far as the dispatcher can see:
the calls it makes on the transport, the reply continuations it registers
through `sendMessage`, the user ids it stores a record for with
`usersData.set`, and the message of the error it throws, if any. The
modules under `commands/` do not touch the registry, the cooldown table or the
ban table. -/
structure HandlerResult where
  effects : List Effect
  registered : List (String × ReplyData)
  usersSet : List JsId
  thrown : Option String
  deriving DecidableEq, Repr

/-- The code outside the dispatcher: command entry points, reply continuations
and the users collection of the database. -/
structure Behaviour where
  command : World → Command → EntryPoint → Event → List String → HandlerResult
  reply : World → ReplyData → Event → HandlerResult
  /-- the message of the error `updateOne` throws for a user id, if it fails -/
  updateOne : JsId → Option String

/-- The result of one dispatcher call: the state afterwards, the calls made, and
the message of the error the returned promise is rejected with, if any. -/
structure Outcome where
  world : World
  effects : List Effect
  error : Option String
  deriving DecidableEq, Repr

/-- The state after a call into a command module: its reply continuations are
in `global.Kagenou.replies` and the records it stored are in `global.usersData`. -/
def applyHandler (w : World) (r : HandlerResult) : World :=
  { w with
    replies := r.registered.foldl (fun t e => tableSet t e.1 e.2) w.replies
    usersData := w.usersData ++ r.usersSet.filter (fun u => !w.usersData.contains u) }

/-! ## The dispatcher -/

/-- The argument of the helper `sendMessage` as `handleMessage` builds it. -/
structure MessageData where
  threadID : String
  message : String
  messageID : Option String
  deriving DecidableEq, Repr

/-- Function `sendMessage(api, messageData)` (lines 177–199), called without a
`replyHandler`: an empty thread id makes it throw, a blank message makes it
return without sending, otherwise it calls `api.sendMessage` with
`messageID || null` as the message replied to. -/
def sendMessage (messageData : MessageData) : Except String (List Effect) :=
  if messageData.threadID = "" then
    .error "ThreadID must be a number, string, or array and cannot be undefined."
  else if messageData.message = "" ∨ trim messageData.message = "" then .ok []
  else
    .ok [Effect.apiSendMessage messageData.message messageData.threadID
      (truthyString messageData.messageID)]

/-- The fixed text of line 82. -/
def onlyOriginalSenderText : String := "Only the original sender can reply to this message."

/-- Function `handleReply(api, event)` (lines 78–89). -/
def handleReply (beh : Behaviour) (w : World) (event : Event) : Outcome :=
  let key :=
    match event.messageReply with
    | some mr => mr.messageID
    | none => "undefined"
  match tableGet w.replies key with
  | none => ⟨w, [], none⟩
  | some replyData =>
    if (replyData.author.map JsId.truthy).getD false ∧ some event.senderID ≠ replyData.author then
      ⟨w, [Effect.apiSendMessage onlyOriginalSenderText event.threadID (some event.messageID)],
        none⟩
    else
      let r := beh.reply w replyData event
      let notice :=
        match r.thrown with
        | some m =>
          [Effect.apiSendMessage ("An error occurred while processing your reply: " ++ m)
            event.threadID (some event.messageID)]
        | none => []
      ⟨applyHandler w r, Effect.replyCallback key replyData :: r.effects ++ notice, none⟩

/-- What lines 210–228 of `handleMessage` compute from the trimmed message. -/
structure Resolution where
  commandName : String
  args : List String
  command : Option Command
  isCommandAttempt : Bool
  deriving DecidableEq, Repr

/-- Value of `command.config?.nonPrefix` as a condition. -/
def configNonPrefix (command : Command) : Bool :=
  (command.config.map (fun c => c.nonPrefix)).getD false

/-- Lines 204 and 210–228 of `handleMessage`: the invoked name, the arguments
and the command looked up for `message`. -/
def resolveCommand (w : World) (message : String) : Resolution :=
  let words := splitSpaces message
  let commandName := toLowerCase (words.headD "")
  let args := words.drop 1
  let r : Resolution :=
    match w.config.Prefix.find? (fun p => startsWith message p) with
    | some p =>
      let commandName := toLowerCase ((splitSpaces (sliceFrom message p)).headD "")
      let args := (splitSpaces (sliceFrom message p)).drop 1
      let command :=
        match tableGet w.commands commandName with
        | some c => if configNonPrefix c && message == commandName then none else some c
        | none => none
      ⟨commandName, args, command, true⟩
    | none => ⟨commandName, args, none, false⟩
  match r.command with
  | some _ => r
  | none =>
    match tableGet w.nonPrefixCommands r.commandName with
    | some c => { r with command := some c, isCommandAttempt := true }
    | none => r

/-- Value of `command.config?.role ?? command.role ?? 0` (line 234). -/
def commandRole (command : Command) : Int :=
  match command.config.bind (fun c => c.role) with
  | some r => r
  | none => command.role.getD 0

/-- Value of `command.config?.cooldown ?? command.cooldown ?? 0` (line 246). -/
def commandCooldown (command : Command) : Int :=
  match command.config.bind (fun c => c.cooldown) with
  | some c => c
  | none => command.cooldown.getD 0

/-- Value of `cooldown || 3` (lines 247 and 249). -/
def effectiveCooldown (command : Command) : Int :=
  if commandCooldown command = 0 then 3 else commandCooldown command

/-- The text of line 230. -/
def banNotice (reason : String) : String :=
  "You are banned from using bot commands.\nReason: " ++ reason

/-- The fixed text of line 237. -/
def moderatorsOnlyText : String := "🛡️ 𝙾𝚗𝚕𝚢 𝙼𝚘𝚍𝚎𝚛𝚊𝚝𝚘𝚛𝚜  𝚘𝚛  𝚑𝚒𝚐𝚑𝚎𝚛 𝚌𝚊𝚗 𝚞𝚜𝚎 𝚝𝚑𝚒𝚜 𝚌𝚘𝚖𝚖𝚊𝚗𝚍."

/-- Value of `s.charAt(0).toUpperCase() + s.slice(1)`. The first code unit of a
character from U+10000 on is half of a surrogate pair, which has no upper-case
mapping: such a string is returned as it is. -/
def upperFirst (s : String) : String :=
  match s.data with
  | c :: rest => if c.toNat < 0x10000 then toUpperCase ⟨[c]⟩ ++ ⟨rest⟩ else s
  | [] => ""

/-- The text of line 244. -/
def maintenanceText (commandName : String) : String :=
  upperFirst commandName ++ " Command is under maintenance please wait.."

/-- The text of line 266. -/
def errorNotice (commandName : String) (m : String) : String :=
  "Error executing command \x27" ++ commandName ++ "\x27: " ++ m

/-- The text of line 269. -/
def invalidCommandText (w : World) : String :=
  "Invalid Command!, Use " ++ w.config.Prefix.head?.getD "undefined"
    ++ "help for available commands."

/-- Lines 250–267 of `handleMessage`: the call of the entry point, the upsert of
the user record and the `catch` that turns an error into a notice. -/
def invokeCommand (beh : Behaviour) (w : World) (event : Event) (command : Command)
    (commandName : String) (args : List String) : Outcome :=
  let pfx := w.config.Prefix.head?
  let entry : Option EntryPoint :=
    if command.execute then some .execute else if command.run then some .run else none
  let called : World × List Effect × Option String :=
    match entry with
    | some e =>
      let r := beh.command w command e event args
      (applyHandler w r, Effect.invoke e command args pfx :: r.effects, r.thrown)
    | none => (w, [], none)
  let w := called.1
  let synced : List Effect × Option String :=
    match called.2.2 with
    | some m => (called.2.1, some m)
    | none =>
      if w.db ∧ w.usersData.contains event.senderID then
        (called.2.1 ++ [Effect.updateOne event.senderID], beh.updateOne event.senderID)
      else (called.2.1, none)
  match synced.2 with
  | some m =>
    let notice :=
      match sendMessage ⟨event.threadID, errorNotice commandName m, none⟩ with
      | .ok effs => effs
      | .error _ => []
    ⟨w, synced.1 ++ notice, none⟩
  | none => ⟨w, synced.1, none⟩

/-- Value of `body ? body.trim() : ""` (line 203). -/
def messageText (event : Event) : String :=
  match truthyString event.body with
  | some body => trim body
  | none => ""

/-- Function `handleMessage(api, event)` (lines 200–271), run when the clock
reads `now`. -/
def handleMessage (beh : Behaviour) (w : World) (event : Event) (now : Nat) : Outcome :=
  if (truthyString event.body).isNone ∧ event.attachments.isNone then ⟨w, [], none⟩
  else
    let message := messageText event
    let w := loadBannedUsers w
    if (event.messageReply.bind (fun mr => tableGet w.replies mr.messageID)).isSome then
      handleReply beh w event
    else
      let r := resolveCommand w message
      match (if r.isCommandAttempt then tableGet w.bannedUsers (jsString event.senderID)
          else none) with
      | some ban =>
        ⟨w, [Effect.apiSendMessage (banNotice ban.reason) event.threadID (some event.messageID)],
          none⟩
      | none =>
        match r.command with
        | some command =>
          let userRole := getUserRole (some w.config) event.senderID
          if (userRole : Int) < commandRole command then
            ⟨w, [Effect.apiSendMessage moderatorsOnlyText event.threadID
              (some event.messageID)], none⟩
          else
            let disabledCommandsList := w.disabledCommands.getD []
            if disabledCommandsList.contains r.commandName then
              ⟨w, [Effect.apiSendMessage (maintenanceText r.commandName) event.threadID
                (some event.messageID)], none⟩
            else
              match checkCooldown w.userCooldowns event.senderID r.commandName
                  (effectiveCooldown command) now with
              | some cooldownMessage =>
                match sendMessage ⟨event.threadID, cooldownMessage, some event.messageID⟩ with
                | .ok effs => ⟨w, effs, none⟩
                | .error e => ⟨w, [], some e⟩
              | none =>
                let w :=
                  { w with
                    userCooldowns := setCooldown w.userCooldowns event.senderID r.commandName
                      (effectiveCooldown command) now }
                invokeCommand beh w event command r.commandName r.args
        | none =>
          if r.isCommandAttempt then
            let notice :=
              match sendMessage ⟨event.threadID, invalidCommandText w, some event.messageID⟩ with
              | .ok effs => effs
              | .error _ => []
            ⟨w, notice, none⟩
          else ⟨w, [], none⟩

/-- The conditions under which `handleMessage` arrives at the cooldown check of
line 247 with `command` resolved under the invoked name `commandName`: the
event is not ignored by line 202 and not handed to `handleReply` by line 207,
lines 210–228 resolve `command` under `commandName`, the sender has no ban
entry (line 229), has the role the command requires (line 235) and the name is
not under maintenance (line 243). -/
def reachesCooldownGate (w : World) (event : Event) (command : Command)
    (commandName : String) : Prop :=
  ((truthyString event.body).isSome ∨ event.attachments.isSome)
    ∧ event.messageReply.bind (fun mr => tableGet w.replies mr.messageID) = none
    ∧ (resolveCommand w (messageText event)).command = some command
    ∧ (resolveCommand w (messageText event)).commandName = commandName
    ∧ tableGet (w.bannedUsersFile.getD []) (jsString event.senderID) = none
    ∧ ¬ ((getUserRole (some w.config) event.senderID : Int) < commandRole command)
    ∧ (w.disabledCommands.getD []).contains commandName = false

instance (w : World) (event : Event) (command : Command) (commandName : String) :
    Decidable (reachesCooldownGate w event command commandName) := by
  unfold reachesCooldownGate
  infer_instance

/-- The outcome of `handleMessage` when the cooldown gate rejects the call
(line 248): the wait message is the only call made, in reply to the event. -/
def cooldownRejection (w : World) (event : Event) (commandName : String) (remaining : Int) :
    Outcome :=
  ⟨loadBannedUsers w,
    [Effect.apiSendMessage (waitMessage remaining commandName) event.threadID
      (truthyString (some event.messageID))],
    none⟩

/-! ## Reply registration and expiry -/

/-- Effect of `map.delete(k)` (and of `delete obj[k]`). -/
def tableDelete {κ α : Type} [DecidableEq κ] (t : List (κ × α)) (k : κ) : List (κ × α) :=
  t.filter (fun e => e.1 ≠ k)

/-- Line 190, in the send callback of `sendMessage`: the `replyHandler` is
stored under the id of the message that was sent, with `senderID` as author. -/
def registerReplyHandler (w : World) (infoMessageID : String) (replyHandler : String)
    (senderID : Option JsId) : World :=
  { w with replies := tableSet w.replies infoMessageID ⟨replyHandler, senderID⟩ }

/-- Line 191: the timer set at registration fires after 300 000 ms and deletes
the entry of the message id. -/
def replyTimeout (w : World) (infoMessageID : String) : World :=
  { w with replies := tableDelete w.replies infoMessageID }

/-! ## The listener -/

/-- Modelled from the spec: the value stored in `global.reactionData` for a
message id. `index.js` reads only `callback` and the code that stores the
entries is not part of the sources; the specification gives a correlation a
continuation and the id of the user allowed to trigger it, which is absent when
anyone may. -/
structure ReactionInfo where
  callback : String
  author : Option JsId
  deriving DecidableEq, Repr

/-- An entry of `global.Kagenou.replyListeners`; `callback` is `none` when
`typeof listener.callback` is not `"function"`. -/
structure ReplyListener where
  callback : Option String
  deriving DecidableEq, Repr

/-- The keys of the three maps of `global.threadState`. -/
structure ThreadState where
  active : List String
  approved : List String
  pending : List String
  deriving DecidableEq, Repr

/-- The state read and written by the listener: the state of the dispatcher
and the tables that only the listener uses. -/
structure ListenerState where
  world : World
  threadState : ThreadState
  reactionData : List (String × ReactionInfo)
  /-- the map `global.Kagenou.replyListeners`, `none` while it is not set -/
  replyListeners : Option (List (String × ReplyListener))
  /-- value of `global.config.botName` -/
  botName : String
  /-- value of `api.getCurrentUserID()` -/
  currentUserID : JsId
  deriving DecidableEq, Repr

/-- The property `logMessageData` of a membership event; `addedParticipants`
lists the `userFbId` of the added users and is `none` when missing. -/
structure LogMessageData where
  addedParticipants : Option (List JsId)
  deriving DecidableEq, Repr

/-- An inbound event as the listener reads it: the properties of `Event` and
those of reactions and membership events. -/
structure ListenerEvent where
  event : Event
  reaction : Option String
  logMessageType : Option String
  logMessageData : Option LogMessageData
  deriving DecidableEq, Repr

/-- What the listener does to the outside, in the order of the calls. -/
inductive ListenerEffect where
  /-- the lookup `bannedThreadsCollection.findOne` of line 303 -/
  | findBannedThread (threadID : String)
  /-- a call of `command.handleEvent` (line 286) and the calls it made -/
  | subscriber (command : Command) (effects : List Effect)
  /-- a call made inside `handleReply` or `handleMessage` -/
  | dispatch (effect : Effect)
  /-- a call of `listener.callback` (line 319) and the calls it made -/
  | replyListenerCallback (messageID : String) (effects : List Effect)
  /-- the call of `handleAuroraCommand` (line 333) and the calls it made -/
  | auroraCommand (effects : List Effect)
  /-- a call of `reactionInfo.callback` (line 279) and the calls it made -/
  | reactionCallback (messageID : String) (info : ReactionInfo) (effects : List Effect)
  /-- the call `api.getThreadInfo(threadID)` of line 345 -/
  | getThreadInfo (threadID : String)
  /-- the upsert of line 347 -/
  | threadsUpdateOne (threadID : String) (name : String)
  /-- a call `api.sendMessage(body, threadID)` made by the listener itself -/
  | apiSendMessage (body : String) (threadID : String)
  /-- the call `api.changeNickname(name, threadID, userID)` of line 363 -/
  | changeNickname (name : String) (threadID : String) (userID : JsId)
  deriving DecidableEq, Repr

/-- The code outside the listener: what the dispatcher calls, the database, the
event subscribers, the continuations and the transport calls that can fail. -/
structure ListenerBehaviour where
  core : Behaviour
  /-- result of `findOne` on the banned threads: a record was found or not, or
  the message of the error it throws -/
  findBannedThread : String → Except String Bool
  handleEvent : World → Command → ListenerEvent → HandlerResult
  replyListener : World → String → ListenerEvent → HandlerResult
  aurora : World → Event → HandlerResult
  reaction : World → ReactionInfo → ListenerEvent → HandlerResult
  /-- result of `api.getThreadInfo`: the `name` of the thread, or an error -/
  getThreadInfo : String → Except String (Option String)
  /-- the message of the error `api.changeNickname` throws, if it fails -/
  changeNickname : String → String → Option String

/-- How a statement of the listener ends. -/
inductive Completion where
  /-- control goes on to the next statement -/
  | next
  /-- a `return` ended the callback -/
  | returned
  /-- an error reached the `catch` of line 390 -/
  | threw (message : String)
  deriving DecidableEq, Repr

/-- The result of a statement of the listener. -/
structure StepOutcome where
  state : ListenerState
  effects : List ListenerEffect
  completion : Completion
  deriving DecidableEq, Repr

/-- Sequencing of two statements: the second runs when the first ends normally. -/
def StepOutcome.andThen (o : StepOutcome) (f : ListenerState → StepOutcome) : StepOutcome :=
  match o.completion with
  | .next =>
    let o2 := f o.state
    ⟨o2.state, o.effects ++ o2.effects, o2.completion⟩
  | _ => o

/-- Value of `map.has(k)` on the keys of a map. -/
def keyHas (m : List String) (k : String) : Bool := m.contains k

/-- Effect of `map.set(k, v)` on the keys of a map. -/
def keySet (m : List String) (k : String) : List String := if m.contains k then m else m ++ [k]

/-- Effect of `map.delete(k)` on the keys of a map. -/
def keyDelete (m : List String) (k : String) : List String := m.filter (fun x => x ≠ k)

/-- Function `handleEvent(api, event)` (lines 283–290): every event subscriber
is called in turn; an error it throws is swallowed by the `catch`. -/
def handleEvent (lb : ListenerBehaviour) (s : ListenerState) (ev : ListenerEvent) :
    ListenerState × List ListenerEffect :=
  s.world.eventCommands.foldl
    (fun acc command =>
      if command.handleEvent then
        let r := lb.handleEvent acc.1.world command ev
        ({ acc.1 with world := applyHandler acc.1.world r },
          acc.2 ++ [ListenerEffect.subscriber command r.effects])
      else acc)
    (s, [])

/-- Function `handleReaction(api, event)` (lines 273–281): without an entry for
the message id it returns; otherwise the continuation is awaited and then the
entry is deleted. An error of the continuation leaves the function before the
`delete` of line 280. -/
def handleReaction (lb : ListenerBehaviour) (s : ListenerState) (ev : ListenerEvent) :
    StepOutcome :=
  let messageID := ev.event.messageID
  match tableGet s.reactionData messageID with
  | none => ⟨s, [], .next⟩
  | some reactionInfo =>
    let r := lb.reaction s.world reactionInfo ev
    let s := { s with world := applyHandler s.world r }
    match r.thrown with
    | some m => ⟨s, [ListenerEffect.reactionCallback messageID reactionInfo r.effects], .threw m⟩
    | none =>
      ⟨{ s with reactionData := tableDelete s.reactionData messageID },
        [ListenerEffect.reactionCallback messageID reactionInfo r.effects], .next⟩

/-- Lines 310–329 of the listener: a reply to a message with a stored reply
continuation goes to `handleReply`, a reply to a message with a reply listener
goes to that listener, which is then deleted; both end the callback. -/
def replyStep (lb : ListenerBehaviour) (s : ListenerState) (ev : ListenerEvent) : StepOutcome :=
  if ev.event.type = "message_reply" then
    match ev.event.messageReply with
    | some mr =>
      let replyMessageID := mr.messageID
      if (tableGet s.world.replies replyMessageID).isSome then
        let o := handleReply lb.core s.world ev.event
        match o.error with
        | some m => ⟨{ s with world := o.world }, o.effects.map ListenerEffect.dispatch, .threw m⟩
        | none => ⟨{ s with world := o.world }, o.effects.map ListenerEffect.dispatch, .returned⟩
      else
        match s.replyListeners.bind (fun m => tableGet m replyMessageID) with
        | some listener =>
          match listener.callback with
          | some callback =>
            let r := lb.replyListener s.world callback ev
            let s := { s with world := applyHandler s.world r }
            match r.thrown with
            | some m =>
              ⟨s, [ListenerEffect.replyListenerCallback replyMessageID r.effects], .threw m⟩
            | none =>
              ⟨{ s with
                  replyListeners := s.replyListeners.map (fun m => tableDelete m replyMessageID) },
                [ListenerEffect.replyListenerCallback replyMessageID r.effects], .returned⟩
          | none => ⟨s, [], .returned⟩
        | none => ⟨s, [], .next⟩
    | none => ⟨s, [], .next⟩
  else ⟨s, [], .next⟩

/-- Lines 330–334 of the listener: a message or a reply gets an `attachments`
array, goes through `handleMessage` and is then handed to `handleAuroraCommand`. -/
def messageStep (lb : ListenerBehaviour) (now : Nat) (s : ListenerState) (ev : ListenerEvent) :
    StepOutcome :=
  if ev.event.type = "message" ∨ ev.event.type = "message_reply" then
    let event := { ev.event with attachments := some (ev.event.attachments.getD []) }
    let o := handleMessage lb.core s.world event now
    match o.error with
    | some m => ⟨{ s with world := o.world }, o.effects.map ListenerEffect.dispatch, .threw m⟩
    | none =>
      let r := lb.aurora o.world event
      ⟨{ s with world := applyHandler o.world r },
        o.effects.map ListenerEffect.dispatch ++ [ListenerEffect.auroraCommand r.effects],
        match r.thrown with
        | some m => .threw m
        | none => .next⟩
  else ⟨s, [], .next⟩

/-- Lines 335–337 of the listener. -/
def reactionStep (lb : ListenerBehaviour) (s : ListenerState) (ev : ListenerEvent) : StepOutcome :=
  if ev.event.type = "message_reaction" then handleReaction lb s ev else ⟨s, [], .next⟩

/-- The text of line 361. -/
def greetingText (threadID : String) : String :=
  "Thank you for inviting me here! ThreadID: " ++ threadID

/-- Lines 343–354 of the listener, run when `global.db` is set: the thread name
is fetched and stored; an error of either call is swallowed. -/
def recordThread (lb : ListenerBehaviour) (threadID : String) : List ListenerEffect :=
  ListenerEffect.getThreadInfo threadID ::
    match lb.getThreadInfo threadID with
    | .ok name =>
      [ListenerEffect.threadsUpdateOne threadID
        ((truthyString name).getD ("Unnamed Thread (ID: " ++ threadID ++ ")"))]
    | .error _ => []

/-- Lines 338–368 of the listener: when a `log:subscribe` event names the bot
among the added participants and the thread has no active, approved or pending
record, the thread becomes pending, the greeting is sent and the nickname
change is attempted; an error of the nickname change is swallowed. -/
def membershipStep (lb : ListenerBehaviour) (s : ListenerState) (ev : ListenerEvent) :
    StepOutcome :=
  if ev.event.type = "event" ∧ ev.logMessageType = some "log:subscribe" then
    let threadID := ev.event.threadID
    match ev.logMessageData with
    | none => ⟨s, [], .threw "TypeError"⟩
    | some logMessageData =>
      let addedUsers := logMessageData.addedParticipants.getD []
      let botWasAdded := addedUsers.any (fun userFbId => userFbId = s.currentUserID)
      if botWasAdded then
        let recorded := if s.world.db then recordThread lb threadID else []
        if !keyHas s.threadState.active threadID ∧ !keyHas s.threadState.approved threadID
            ∧ !keyHas s.threadState.pending threadID then
          let s' :=
            { s with
              threadState :=
                { s.threadState with pending := keySet s.threadState.pending threadID } }
          let sent :=
            recorded ++ [ListenerEffect.apiSendMessage (greetingText threadID) threadID,
              ListenerEffect.changeNickname s.botName threadID s.currentUserID]
          match lb.changeNickname s.botName threadID with
          | some _ => ⟨s', sent, .next⟩
          | none => ⟨s', sent, .next⟩
        else ⟨s, recorded, .next⟩
      else ⟨s, [], .next⟩
  else ⟨s, [], .next⟩

/-- Value of `/^\d+$/.test(t)`. -/
def matchesDigits (t : String) : Bool :=
  !t.data.isEmpty && t.data.all (fun c => decide (48 ≤ c.toNat) && decide (c.toNat ≤ 57))

/-- Value of `/^-?\d+$/.test(t)`. -/
def matchesSignedDigits (t : String) : Bool :=
  matchesDigits t || (t.data.head? == some (Char.ofNat 45) && matchesDigits ⟨t.data.tail⟩)

/-- The text of lines 381 and 384. -/
def approvedText (targetThreadID : String) : String :=
  "Thread " ++ targetThreadID ++ " has been approved."

/-- Lines 369–389 of the listener: the inline `approve` action. -/
def approveStep (s : ListenerState) (ev : ListenerEvent) : StepOutcome :=
  match truthyString ev.event.body with
  | none => ⟨s, [], .next⟩
  | some body =>
    if ev.event.type = "message" then
      match s.world.config.Prefix.head? with
      | none => if startsWith body "undefined" then ⟨s, [], .threw "TypeError"⟩ else ⟨s, [], .next⟩
      | some p =>
        if startsWith body p then
          let words := splitSpaces (trim body)
          let commandName := toLowerCase (sliceFrom (words.headD "") p)
          let args := words.drop 1
          if commandName = "approve" then
            match s.world.config.admins with
            | none => ⟨s, [], .threw "TypeError"⟩
            | some admins =>
              if admins.contains ev.event.senderID then
                match args.head? with
                | none => ⟨s, [], .next⟩
                | some arg =>
                  if arg ≠ "" ∧ toLowerCase arg = "pending" then ⟨s, [], .returned⟩
                  else
                    let targetThreadID := trim arg
                    if matchesDigits targetThreadID || matchesSignedDigits targetThreadID then
                      if keyHas s.threadState.pending targetThreadID then
                        ⟨{ s with
                            threadState :=
                              { s.threadState with
                                pending := keyDelete s.threadState.pending targetThreadID
                                approved := keySet s.threadState.approved targetThreadID } },
                          [ListenerEffect.apiSendMessage (approvedText targetThreadID)
                            ev.event.threadID], .next⟩
                      else if !keyHas s.threadState.approved targetThreadID then
                        ⟨{ s with
                            threadState :=
                              { s.threadState with
                                approved := keySet s.threadState.approved targetThreadID } },
                          [ListenerEffect.apiSendMessage (approvedText targetThreadID)
                            ev.event.threadID], .next⟩
                      else ⟨s, [], .next⟩
                    else ⟨s, [], .next⟩
              else ⟨s, [], .next⟩
          else ⟨s, [], .next⟩
        else ⟨s, [], .next⟩
    else ⟨s, [], .next⟩

/-- The callback that `startListeningForMessages` gives to `api.listenMqtt`
(lines 295–393), for an event delivered without `err`, run when the clock reads
`now`. The source never closes the block that `if (proceed)` opens on line 308;
here the block is taken to end with the `try` block on line 390, so that a
banned thread skips every statement of the callback.
`startListeningForMessagesIndented` is the other reading. -/
def startListeningForMessages (lb : ListenerBehaviour) (s : ListenerState) (ev : ListenerEvent)
    (now : Nat) : StepOutcome :=
  let gate : StepOutcome :=
    if s.world.db then
      match lb.findBannedThread ev.event.threadID with
      | .ok true => ⟨s, [ListenerEffect.findBannedThread ev.event.threadID], .returned⟩
      | .ok false => ⟨s, [ListenerEffect.findBannedThread ev.event.threadID], .next⟩
      | .error m => ⟨s, [ListenerEffect.findBannedThread ev.event.threadID], .threw m⟩
    else ⟨s, [], .next⟩
  ((((((gate.andThen fun s => ⟨(handleEvent lb s ev).1, (handleEvent lb s ev).2, .next⟩).andThen
    fun s => replyStep lb s ev).andThen
    fun s => messageStep lb now s ev).andThen
    fun s => reactionStep lb s ev).andThen
    fun s => membershipStep lb s ev).andThen
    fun s => approveStep s ev)

/-- The same callback when the block that `if (proceed)` opens on line 308 is
taken to end after line 309, where the indentation of the source puts its end:
a banned thread skips the event subscribers only, and the statements from line
310 on run for it as for any thread. -/
def startListeningForMessagesIndented (lb : ListenerBehaviour) (s : ListenerState)
    (ev : ListenerEvent) (now : Nat) : StepOutcome :=
  let gate : StepOutcome × Bool :=
    if s.world.db then
      match lb.findBannedThread ev.event.threadID with
      | .ok true => (⟨s, [ListenerEffect.findBannedThread ev.event.threadID], .next⟩, false)
      | .ok false => (⟨s, [ListenerEffect.findBannedThread ev.event.threadID], .next⟩, true)
      | .error m => (⟨s, [ListenerEffect.findBannedThread ev.event.threadID], .threw m⟩, true)
    else (⟨s, [], .next⟩, true)
  ((((((gate.1.andThen fun s =>
      if gate.2 then ⟨(handleEvent lb s ev).1, (handleEvent lb s ev).2, .next⟩
      else ⟨s, [], .next⟩).andThen
    fun s => replyStep lb s ev).andThen
    fun s => messageStep lb now s ev).andThen
    fun s => reactionStep lb s ev).andThen
    fun s => membershipStep lb s ev).andThen
    fun s => approveStep s ev)

/-- The part of the listener state that a call into a command module, an event
subscriber or a continuation leaves alone: such a call changes only the reply
table and the user records. -/
def sameOutsideHandlers (s s' : ListenerState) : Prop :=
  s'.threadState = s.threadState
    ∧ s'.world.config = s.world.config
    ∧ s'.world.commands = s.world.commands
    ∧ s'.world.nonPrefixCommands = s.world.nonPrefixCommands
    ∧ s'.world.bannedUsersFile = s.world.bannedUsersFile
    ∧ s'.world.userCooldowns = s.world.userCooldowns

/-- No thread id is both pending and approved. -/
def pendingApprovedExclusive (ts : ThreadState) : Prop :=
  ∀ t, ¬(keyHas ts.pending t = true ∧ keyHas ts.approved t = true)

/-! ## The modules `gagstock.ts` and `sendmessage.js` -/

/-- The object exported by `gagstock.ts`: a `config` with the name `gagstock`
and `role: 4`, which the source comments with `Restrict to admins`, and `run`. -/
def gagstockCommand : Command :=
  ⟨10, some ⟨some "gagstock", none, false, some 4, none⟩, none, none, false, none, none, true,
    false, false⟩

/-- The object exported by `sendmessage.js`: the name `sendmessage` and `execute`. -/
def sendmessageCommand : Command :=
  ⟨11, none, some "sendmessage", none, false, none, none, false, true, false⟩

/-- A decimal digit. -/
def isDecimalDigit (c : Char) : Bool := decide (48 ≤ c.toNat) && decide (c.toNat ≤ 57)

/-- An optional exponent part, `e` or `E`, an optional sign and digits, then the
end of the text. -/
def isExponentOrEnd : List Char → Bool
  | [] => true
  | e :: rest =>
    (e == Char.ofNat 101 || e == Char.ofNat 69)
      && (let digits :=
            match rest with
            | sign :: more =>
              if sign == Char.ofNat 43 || sign == Char.ofNat 45 then more else rest
            | [] => []
          !digits.isEmpty && digits.all isDecimalDigit)

/-- An unsigned decimal literal of a numeric string: `Infinity`, or digits with
an optional fraction and an optional exponent, with at least one digit before
the exponent. -/
def isUnsignedDecimalLiteral (cs : List Char) : Bool :=
  cs == ("Infinity" : String).data
    || (let whole := cs.takeWhile isDecimalDigit
        match cs.dropWhile isDecimalDigit with
        | [] => !whole.isEmpty
        | dot :: more =>
          if dot == Char.ofNat 46 then
            (!whole.isEmpty || !(more.takeWhile isDecimalDigit).isEmpty)
              && isExponentOrEnd (more.dropWhile isDecimalDigit)
          else !whole.isEmpty && isExponentOrEnd (dot :: more))

/-- A binary, octal or hexadecimal integer literal of a numeric string. -/
def isNonDecimalIntegerLiteral : List Char → Bool
  | zero :: x :: digits =>
    zero == Char.ofNat 48 && !digits.isEmpty
      && (((x == Char.ofNat 120 || x == Char.ofNat 88)
            && digits.all (fun c => isDecimalDigit c
              || (decide (97 ≤ c.toNat) && decide (c.toNat ≤ 102))
              || (decide (65 ≤ c.toNat) && decide (c.toNat ≤ 70))))
          || ((x == Char.ofNat 111 || x == Char.ofNat 79)
            && digits.all (fun c => decide (48 ≤ c.toNat) && decide (c.toNat ≤ 55)))
          || ((x == Char.ofNat 98 || x == Char.ofNat 66)
            && digits.all (fun c => decide (48 ≤ c.toNat) && decide (c.toNat ≤ 49))))
  | _ => false

/-- Value of the global `isNaN(s)` for a string `s`: the string is converted to
a number, which is `NaN` unless the trimmed string is empty or a numeric
literal. -/
def jsIsNaN (s : String) : Bool :=
  let t := (trim s).data
  !(t.isEmpty || isNonDecimalIntegerLiteral t
    || (match t with
        | sign :: rest =>
          if sign == Char.ofNat 43 || sign == Char.ofNat 45 then isUnsignedDecimalLiteral rest
          else isUnsignedDecimalLiteral t
        | [] => false))

/-- A call `return sendMessage(api, messageData)` inside a command: the calls
made, or the error the helper throws. -/
def returnSendMessage (threadID message : String) : HandlerResult :=
  match sendMessage ⟨threadID, message, none⟩ with
  | .ok effs => ⟨effs, [], [], none⟩
  | .error e => ⟨[], [], [], some e⟩

/-- The text built on line 28 of `sendmessage.js`. -/
def anonymousMessage (messageContent : String) : String :=
  "📩 | Message from an anonymous person\n\n" ++ messageContent
    ++ "\n\n___________________________________________________\n📒: *This bot is for educational purposes only.*"

/-- Function `execute` of `sendmessage.js` (lines 7–39), called with
`global.config.admins` as `admins`; `delivery` is the error of the transport
for the message to the user, if it fails. -/
def sendmessageExecute (admins : Option (List JsId)) (event : Event) (args : List String)
    (delivery : Option String) : HandlerResult :=
  let threadID := event.threadID
  match admins with
  | none => ⟨[], [], [], some "TypeError"⟩
  | some admins =>
    if !admins.contains event.senderID then
      returnSendMessage threadID "❌ | You do not have permission to use this command."
    else
      let userID := args.get? 1
      let messageContent := " ".intercalate (args.drop 1)
      match truthyString userID with
      | none => returnSendMessage threadID "⚠️ | Please provide a valid **User ID (UID)**."
      | some userID =>
        if jsIsNaN userID then
          returnSendMessage threadID "⚠️ | Please provide a valid **User ID (UID)**."
        else if messageContent = "" then
          returnSendMessage threadID "⚠️ | Please provide a **message** to send."
        else
          let notify (message : String) : List Effect :=
            match sendMessage ⟨threadID, message, none⟩ with
            | .ok effs => effs
            | .error _ => []
          match sendMessage ⟨userID, anonymousMessage messageContent, none⟩, delivery with
          | .ok effs, none =>
            ⟨effs ++ notify ("✅ | Your message has been sent to **" ++ userID ++ "**."), [], [],
              none⟩
          | .ok effs, some _ =>
            ⟨effs ++ notify "❌ | Failed to send the message. Please check the UID and try again.",
              [], [], none⟩
          | .error _, _ =>
            ⟨notify "❌ | Failed to send the message. Please check the UID and try again.", [],
              [], none⟩

/-! ## Sessions of `gagstock.ts` -/

/-- A socket made by `new WebSocket(...)` on line 174, with the thread of the
closure that made it; its id is its position in `GagState.sockets`. -/
structure GagSocket where
  threadID : String
  terminated : Bool
  closeEmitted : Bool
deriving DecidableEq, Repr

/-- A value of the map `activeSessions` (line 18); the keep-alive interval is
left out. -/
structure GagSession where
  ws : Nat
  closed : Bool
deriving DecidableEq, Repr

/-- The module state of `gagstock.ts`: the sockets made so far, the map
`activeSessions`, the threads whose closure has a `setTimeout(connectWebSocket,
3000)` pending, and the body texts sent with their thread. -/
structure GagState where
  sockets : List GagSocket
  activeSessions : List (String × GagSession)
  reconnectTimers : List String
  sent : List (String × String)
deriving DecidableEq, Repr

/-- What can happen to the module: `run` with the action `on` or `off` in a
thread, the `close` event of a socket, and a pending reconnect timer of a
thread firing. -/
inductive GagEvent where
  | runOn (threadID : String)
  | runOff (threadID : String)
  | socketClose (ws : Nat)
  | reconnectTimer (threadID : String)
deriving DecidableEq, Repr

/-- Function `connectWebSocket` (lines 173–269) up to its return: a new socket
is made and line 268 stores a session with `closed: false` under the thread.
Nothing is tested before either step. -/
def connectWebSocket (s : GagState) (threadID : String) : GagState :=
  { s with
    sockets := s.sockets ++ [⟨threadID, false, false⟩]
    activeSessions := tableSet s.activeSessions threadID ⟨s.sockets.length, false⟩ }

/-- The `close` handler of a socket (lines 256–261): a reconnect is scheduled
when the thread has a session that is not marked closed. -/
def onSocketClose (s : GagState) (ws : Nat) : GagState :=
  match s.sockets.get? ws with
  | none => s
  | some socket =>
    if socket.closeEmitted then s
    else
      let s1 := { s with sockets := s.sockets.set ws { socket with closeEmitted := true } }
      match tableGet s1.activeSessions socket.threadID with
      | some session =>
        if !session.closed then
          { s1 with reconnectTimers := s1.reconnectTimers ++ [socket.threadID] }
        else s1
      | none => s1

/-- The branch `action === "off"` of `run` (lines 103–132). The session object
is marked closed and then removed from the map. -/
def runOff (s : GagState) (threadID : String) : GagState :=
  match tableGet s.activeSessions threadID with
  | some session =>
    { s with
      sockets :=
        match s.sockets.get? session.ws with
        | some socket => s.sockets.set session.ws { socket with terminated := true }
        | none => s.sockets
      activeSessions := tableDelete s.activeSessions threadID
      sent := s.sent ++ [("Gagstock tracking stopped for this thread.", threadID)] }
  | none =>
    { s with sent := s.sent ++ [("This thread is not currently tracking Gagstock.", threadID)] }

/-- The branch `action === "on"` of `run` (lines 147–271), taken as one step. -/
def runOn (s : GagState) (threadID : String) : GagState :=
  if (tableGet s.activeSessions threadID).isSome then
    { s with
      sent := s.sent ++
        [("This thread is already tracking Gagstock. Use /gagstock off to stop.", threadID)] }
  else
    connectWebSocket
      { s with
        sent := s.sent ++
          [("Gagstock tracking started for this thread via WebSocket!", threadID)] }
      threadID

/-- One event of the module. A reconnect timer that fires runs
`connectWebSocket`, the callback given to `setTimeout` on line 259. -/
def gagStep (s : GagState) : GagEvent → GagState
  | .runOn threadID => runOn s threadID
  | .runOff threadID => runOff s threadID
  | .socketClose ws => onSocketClose s ws
  | .reconnectTimer threadID =>
    if s.reconnectTimers.contains threadID then
      connectWebSocket { s with reconnectTimers := s.reconnectTimers.erase threadID } threadID
    else s

/-- A sequence of events, from the left. -/
def gagRun (s : GagState) (events : List GagEvent) : GagState :=
  events.foldl gagStep s

/-! ## The manager of `rpg.js` without a database -/

/-- Number of low bits that a whole number `n` loses when it is held as a
Number: the bits beyond the 53 of the significand. The first argument bounds
the recursion; `n` itself is enough. -/
def excessBits : Nat → Nat → Nat
  | 0, _ => 0
  | fuel + 1, n => if n < 2 ^ 53 then 0 else excessBits fuel (n / 2) + 1

/-- The Number nearest to the whole number `x`, ties going to the even
significand: the rounding that `+` and `-` apply to their exact result. Whole
numbers of magnitude `2 ^ 1024` and more, which round to `Infinity`, are
outside the model. -/
def roundToDouble (x : Int) : Int :=
  let n := x.natAbs
  let e := excessBits n n
  let q := n / 2 ^ e
  let r := n % 2 ^ e
  let up := decide (2 ^ e < 2 * r) || (decide (2 * r = 2 ^ e) && decide (q % 2 = 1))
  x.sign * (((if up then q + 1 else q) * 2 ^ e : Nat) : Int)

/-- Value of `Number.isSafeInteger(x)` for a whole number `x`: the magnitude is
at most `2 ^ 53 - 1`. -/
def isSafeInteger (x : Int) : Bool := decide (x.natAbs < 2 ^ 53)

/-- The data object of a user in `usersData`. A field is `none` when the object
has no such key; for the time stamps `none` also stands for `null`. The numbers
are whole-valued Numbers, held as integers; `roundToDouble` gives the result of
their sums and differences. -/
structure PlayerData where
  inventory : Option (List (String × Int))
  registered : Option Bool
  balance : Option Int
  exp : Option Int
  lastDaily : Option Nat
  lastClaim : Option Nat
  lastSpin : Option Nat
  lastWork : Option Nat
  lastQuest : Option Nat
  energy : Option Int
  maxEnergy : Option Int
  lastEnergyRestore : Option Nat
  pets : Option (List (String × Int))
  farm : Option (List (String × Int))
  garden : Option (List (String × Int))
  dailyStreak : Option Int
  lastStreakDate : Option Nat
deriving DecidableEq, Repr

/-- The object `{}`. -/
def emptyObject : PlayerData :=
  ⟨none, none, none, none, none, none, none, none, none, none, none, none, none, none, none, none,
    none⟩

/-- Effect of `if (!x) x = d` on a number field: a missing value and `0` are
falsy. -/
def numberOr (x : Option Int) (d : Int) : Option Int :=
  match x with
  | some v => if v = 0 then some d else some v
  | none => some d

/-- Effect of `if (!x) x = null` on a time stamp. -/
def stampOrNull (x : Option Nat) : Option Nat :=
  match x with
  | some v => if v = 0 then none else some v
  | none => none

/-- Lines 21–45 of `getPlayer`: the defaults, each written only over a falsy
field. -/
def withDefaults (u : PlayerData) : PlayerData :=
  { inventory := some (u.inventory.getD [])
    registered := some (u.registered.getD false)
    balance := numberOr u.balance 0
    exp := numberOr u.exp 0
    lastDaily := stampOrNull u.lastDaily
    lastClaim := stampOrNull u.lastClaim
    lastSpin := stampOrNull u.lastSpin
    lastWork := stampOrNull u.lastWork
    lastQuest := stampOrNull u.lastQuest
    energy := numberOr u.energy 100
    maxEnergy := numberOr u.maxEnergy 100
    lastEnergyRestore := stampOrNull u.lastEnergyRestore
    pets := some (u.pets.getD [])
    farm := some (u.farm.getD [])
    garden := some (u.garden.getD [])
    dailyStreak := numberOr u.dailyStreak 0
    lastStreakDate := stampOrNull u.lastStreakDate }

/-- A field of `{ ...a, ...b }`: the one of `b` when `b` has the key. -/
def spreadField {α : Type} (a b : Option α) : Option α :=
  match b with
  | some v => some v
  | none => a

/-- The object `{ ...userData, ...updates }` of line 88. -/
def spread (userData updates : PlayerData) : PlayerData :=
  { inventory := spreadField userData.inventory updates.inventory
    registered := spreadField userData.registered updates.registered
    balance := spreadField userData.balance updates.balance
    exp := spreadField userData.exp updates.exp
    lastDaily := spreadField userData.lastDaily updates.lastDaily
    lastClaim := spreadField userData.lastClaim updates.lastClaim
    lastSpin := spreadField userData.lastSpin updates.lastSpin
    lastWork := spreadField userData.lastWork updates.lastWork
    lastQuest := spreadField userData.lastQuest updates.lastQuest
    energy := spreadField userData.energy updates.energy
    maxEnergy := spreadField userData.maxEnergy updates.maxEnergy
    lastEnergyRestore := spreadField userData.lastEnergyRestore updates.lastEnergyRestore
    pets := spreadField userData.pets updates.pets
    farm := spreadField userData.farm updates.farm
    garden := spreadField userData.garden updates.garden
    dailyStreak := spreadField userData.dailyStreak updates.dailyStreak
    lastStreakDate := spreadField userData.lastStreakDate updates.lastStreakDate }

/-- The object a variable such as `fromData` refers to: the one stored in
`usersData` under a user id, which a write through the variable changes in the
map as well, or a fresh object that is in no map. -/
inductive PlayerRef where
  | stored (userId : JsId)
  | fresh (data : PlayerData)
deriving DecidableEq, Repr

/-- The object behind a reference. -/
def PlayerRef.read (usersData : List (JsId × PlayerData)) : PlayerRef → PlayerData
  | .stored userId => (tableGet usersData userId).getD emptyObject
  | .fresh data => data

/-- An assignment `ref.balance = b`. -/
def PlayerRef.assignBalance (usersData : List (JsId × PlayerData)) (b : Int) :
    PlayerRef → List (JsId × PlayerData) × PlayerRef
  | .stored userId =>
    (tableSet usersData userId { PlayerRef.read usersData (.stored userId) with balance := some b },
      .stored userId)
  | .fresh data => (usersData, .fresh { data with balance := some b })

/-- Method `getPlayer` (lines 9–48) when `this.db` is not set: the stored
object, or a fresh `{}` that is not put into the map, gets the defaults and is
returned. -/
def getPlayer (usersData : List (JsId × PlayerData)) (userId : JsId) :
    List (JsId × PlayerData) × PlayerRef :=
  match tableGet usersData userId with
  | some userData => (tableSet usersData userId (withDefaults userData), .stored userId)
  | none => (usersData, .fresh (withDefaults emptyObject))

/-- Method `updatePlayer` (lines 86–101) when `this.db` is not set. -/
def updatePlayer (usersData : List (JsId × PlayerData)) (userId : JsId) (updates : PlayerData) :
    List (JsId × PlayerData) :=
  let got := getPlayer usersData userId
  tableSet got.1 userId (spread (got.2.read got.1) updates)

/-- Method `transferBalance` (lines 144–155) when `this.db` is not set, for a
whole-valued `amount`: the map afterwards, and the returned balances or the
message of the error thrown. -/
def transferBalance (usersData : List (JsId × PlayerData)) (fromUserId toUserId : JsId)
    (amount : Int) : List (JsId × PlayerData) × Except String (Int × Int) :=
  let gotFrom := getPlayer usersData fromUserId
  let fromData := gotFrom.2
  let gotTo := getPlayer gotFrom.1 toUserId
  let toData := gotTo.2
  let u := gotTo.1
  if ((fromData.read u).balance.getD 0) < amount then (u, .error "Insufficient balance")
  else
    let wroteFrom :=
      fromData.assignBalance u (roundToDouble ((fromData.read u).balance.getD 0 - amount))
    let fromData := wroteFrom.2
    let u := wroteFrom.1
    let wroteTo :=
      toData.assignBalance u (roundToDouble ((toData.read u).balance.getD 0 + amount))
    let toData := wroteTo.2
    let u := wroteTo.1
    let fromBalance := (fromData.read u).balance
    let toBalance := (toData.read u).balance
    let u := updatePlayer u fromUserId { emptyObject with balance := fromBalance }
    let u := updatePlayer u toUserId { emptyObject with balance := toBalance }
    (u, .ok (fromBalance.getD 0, toBalance.getD 0))

/-- The balance the manager reads for a user: the stored `balance`, or `0`
when the user or the field is missing (`balance || 0`). -/
def playerBalance (usersData : List (JsId × PlayerData)) (userId : JsId) : Int :=
  ((tableGet usersData userId).bind (fun userData => userData.balance)).getD 0

/-! ## Sample inputs

Concrete configurations, modules and events on which the properties below are
evaluated. -/

/-- A configuration with the single prefix `/` and user `100` as a moderator. -/
def sampleConfig : Config := ⟨some [], some [JsId.str "100"], some [], ["/"]⟩

/-- A flat module `help` with alias `h` and no declared cooldown. -/
def sampleHelp : Command :=
  ⟨1, none, some "help", some ["h"], false, none, none, true, false, false⟩

/-- A `config`/`run` module `quick` that declares a cooldown of 1 second. -/
def sampleQuick : Command :=
  ⟨2, some ⟨some "quick", none, false, none, some 1⟩, none, none, false, none, none, true, false,
    false⟩

/-- A state without commands, bans, cooldowns or reply correlations. -/
def emptyWorld : World := ⟨sampleConfig, none, [], [], [], [], [], [], none, false, []⟩

/-- The state after loading `help.js` and `quick.ts`. -/
def sampleWorld : World :=
  loadCommands emptyWorld [⟨"help.js", some sampleHelp⟩, ⟨"quick.ts", some sampleQuick⟩]

/-- Handlers that return at once and a database that accepts every upsert. -/
def quietBehaviour : Behaviour :=
  ⟨fun _ _ _ _ _ => ⟨[], [], [], none⟩, fun _ _ _ => ⟨[], [], [], none⟩, fun _ => none⟩

/-- A plain message with text `body` from user `7` in thread `t1`. -/
def sampleEvent (body : String) : Event :=
  ⟨"message", "t1", JsId.str "7", "m1", some body, some [], none⟩

/-- A flat module whose name `élan` has a letter outside ASCII. -/
def sampleElan : Command :=
  ⟨8, none, some "élan", none, false, none, none, true, false, false⟩

/-- A flat module `a` that declares the alias `b`. -/
def sampleA : Command := ⟨3, none, some "a", some ["b"], false, none, none, true, false, false⟩

/-- A flat module `b`. -/
def sampleB : Command := ⟨7, none, some "b", none, false, none, none, true, false, false⟩

/-- A flat module with a name and neither `run` nor `execute`. -/
def sampleGhost : Command := ⟨4, none, some "ghost", none, false, none, none, false, false, false⟩

/-- A `config` module with a name and `execute`, without `run` and without a
top-level name. -/
def sampleExecOnly : Command :=
  ⟨5, some ⟨some "exec", none, false, none, none⟩, none, none, false, none, none, false, true,
    false⟩

/-- A state with one reply correlation, on message `m0`, registered for user `7`. -/
def sampleReplyWorld : World :=
  { emptyWorld with replies := [("m0", ⟨"onReply", some (JsId.str "7")⟩)] }

/-- A reply to message `m0` with text `body` sent by `sender`. -/
def sampleReplyEvent (sender : JsId) (body : String) : Event :=
  ⟨"message_reply", "t1", sender, "m2", some body, some [], some ⟨"m0"⟩⟩

/-- The sample state with ban entries for users `7` and `8` and a reply
correlation on message `m0` registered for user `7`. -/
def sampleBannedWorld : World :=
  { sampleWorld with
    bannedUsersFile := some [("8", ⟨"spam"⟩), ("7", ⟨"flood"⟩)]
    replies := [("m0", ⟨"onReply", some (JsId.str "7")⟩)] }

/-- A plain message with text `body` from `sender` in thread `t1`. -/
def sampleEventFrom (sender : JsId) (body : String) : Event :=
  ⟨"message", "t1", sender, "m1", some body, some [], none⟩

/-- A `config`/`run` module `purge` that requires role 2. -/
def samplePurge : Command :=
  ⟨6, some ⟨some "purge", none, false, some 2, none⟩, none, none, false, none, none, true, false,
    false⟩

/-- The state after loading `purge.js`. -/
def sampleGuardedWorld : World := loadCommands emptyWorld [⟨"purge.js", some samplePurge⟩]

/-- A configuration with the single prefix `/`, user `1` as an admin and user
`100` as a moderator. -/
def sampleAdminConfig : Config := ⟨some [JsId.str "1"], some [JsId.str "100"], some [], ["/"]⟩

/-- External code that returns at once: no thread is banned, no call fails. -/
def quietListener : ListenerBehaviour :=
  ⟨quietBehaviour, fun _ => .ok false, fun _ _ _ => ⟨[], [], [], none⟩,
    fun _ _ _ => ⟨[], [], [], none⟩, fun _ _ => ⟨[], [], [], none⟩,
    fun _ _ _ => ⟨[], [], [], none⟩, fun _ => .ok none, fun _ _ => none⟩

/-- External code whose reaction continuations throw `boom` and whose nickname
change fails. -/
def failingListener : ListenerBehaviour :=
  { quietListener with
    reaction := fun _ _ _ => ⟨[], [], [], some "boom"⟩
    changeNickname := fun _ _ => some "not allowed" }

/-- A listener state without registered commands: thread `123` is pending,
thread `456` is approved, message `r1` has a reaction correlation registered for
user `7`, and the bot is user `999`. -/
def sampleListenerState : ListenerState :=
  ⟨{ emptyWorld with config := sampleAdminConfig }, ⟨[], ["456"], ["123"]⟩,
    [("r1", ⟨"onReact", some (JsId.str "7")⟩)], none, "Shadow Garden Bot", JsId.str "999"⟩

/-- A plain message with text `body` from `sender` in thread `threadID`. -/
def sampleMessage (threadID : String) (sender : JsId) (body : String) : ListenerEvent :=
  ⟨⟨"message", threadID, sender, "m1", some body, none, none⟩, none, none, none⟩

/-- A reaction of `sender` on message `r1`. -/
def sampleReaction (sender : JsId) : ListenerEvent :=
  ⟨⟨"message_reaction", "t1", sender, "r1", none, none, none⟩, some "like", none, none⟩

/-- A `log:subscribe` event of thread `threadID` that adds the users `added`. -/
def sampleSubscribe (threadID : String) (added : List JsId) : ListenerEvent :=
  ⟨⟨"event", threadID, JsId.str "5", "m9", none, none, none⟩, none, some "log:subscribe",
    some ⟨some added⟩⟩

/-- Handlers that throw an error with the message `boom` at once. -/
def throwingBehaviour : Behaviour :=
  { quietBehaviour with command := fun _ _ _ _ _ => ⟨[], [], [], some "boom"⟩ }

/-- Handlers that return at once and a database whose upsert fails with the
message `db down`. -/
def failingUpsertBehaviour : Behaviour :=
  { quietBehaviour with updateOne := fun _ => some "db down" }

/-- The sample state with a database handle and a user record for user `7`. -/
def sampleDbWorld : World := { sampleWorld with db := true, usersData := [JsId.str "7"] }

/-- External code for which thread `t1` has a record in the banned threads. -/
def bannedThreadListener : ListenerBehaviour :=
  { quietListener with findBannedThread := fun t => .ok (t == "t1") }

/-- The sample listener state with a database handle, the commands of the
sample state and an event subscriber. -/
def sampleDbListenerState : ListenerState :=
  { sampleListenerState with
    world := { sampleDbWorld with eventCommands := [sampleHelp] } }

/-- The state after loading `gagstock.ts` and `sendmessage.js`, with user `1`
as an admin. -/
def sampleModulesWorld : World :=
  loadCommands { emptyWorld with config := sampleAdminConfig }
    [⟨"gagstock.ts", some gagstockCommand⟩, ⟨"sendmessage.js", some sendmessageCommand⟩]

/-- The entry point of `sendmessage.js` with a transport that delivers; every
other handler returns at once. -/
def sendmessageBehaviour : Behaviour :=
  { quietBehaviour with
    command := fun w _ _ event args => sendmessageExecute w.config.admins event args none }

/-- The module `gagstock.ts` after loading: no socket, no session, no timer. -/
def gagInitial : GagState := ⟨[], [], [], []⟩

/-- Thread `t1` starts tracking, its socket drops, and the thread stops
tracking before the reconnect timer fires. -/
def sampleGagStopped : GagState :=
  gagRun gagInitial [.runOn "t1", .socketClose 0, .runOff "t1"]

/-- The map `usersData` with user `1` holding 50 and user `2` stored without a
balance. -/
def sampleUsersData : List (JsId × PlayerData) :=
  [(JsId.str "1", { emptyObject with balance := some 50 }), (JsId.str "2", emptyObject)]

/-- The map `usersData` with users `1` and `2` holding `2 ^ 53` each. -/
def sampleLargeUsersData : List (JsId × PlayerData) :=
  [(JsId.str "1", { emptyObject with balance := some 9007199254740992 }),
    (JsId.str "2", { emptyObject with balance := some 9007199254740992 })]

/-! ## Properties -/

/-! ### Tables -/

theorem tableGet_tableSet_same {κ α : Type} [DecidableEq κ] (t : List (κ × α)) (k : κ) (v : α) :
    tableGet (tableSet t k v) k = some v := by
  induction t with
  | nil => simp [tableSet, tableGet]
  | cons e rest ih =>
    obtain ⟨k', v'⟩ := e
    by_cases h : k' = k
    · simp [tableSet, tableGet, h]
    · simp [tableSet, tableGet, h, ih]

theorem tableGet_tableSet_other {κ α : Type} [DecidableEq κ] (t : List (κ × α)) (k k' : κ)
    (v : α) (h : k' ≠ k) : tableGet (tableSet t k v) k' = tableGet t k' := by
  induction t with
  | nil => simp [tableSet, tableGet, Ne.symm h]
  | cons e rest ih =>
    obtain ⟨k₀, v₀⟩ := e
    by_cases h₀ : k₀ = k
    · subst h₀
      simp [tableSet, tableGet, Ne.symm h]
    · by_cases h₁ : k₀ = k'
      · subst h₁
        simp [tableSet, tableGet, h]
      · simp [tableSet, tableGet, h₀, h₁, ih]

/-! ### Resolution of the invoked command -/

theorem resolveCommand_loadBannedUsers (w : World) (m : String) :
    resolveCommand (loadBannedUsers w) m = resolveCommand w m := rfl

theorem isCommandAttempt_of_prefix (w : World) (m : String)
    (h : ∃ p ∈ w.config.Prefix, startsWith m p = true) :
    (resolveCommand w m).isCommandAttempt = true := by
  obtain ⟨p, hp, hs⟩ := h
  unfold resolveCommand
  cases hfind : w.config.Prefix.find? (fun p => startsWith m p) with
  | none =>
    rw [List.find?_eq_none] at hfind
    exact absurd hs (hfind p hp)
  | some q =>
    simp only
    split
    · rfl
    · split <;> rfl

theorem isCommandAttempt_of_nonPrefix (w : World) (m : String)
    (h : (tableGet w.nonPrefixCommands (toLowerCase ((splitSpaces m).headD ""))).isSome) :
    (resolveCommand w m).isCommandAttempt = true := by
  by_cases hp : ∃ p ∈ w.config.Prefix, startsWith m p = true
  · exact isCommandAttempt_of_prefix w m hp
  · have hfind : w.config.Prefix.find? (fun p => startsWith m p) = none := by
      rw [List.find?_eq_none]
      intro p hp' hs
      exact hp ⟨p, hp', hs⟩
    unfold resolveCommand
    simp only [hfind]
    cases hget : tableGet w.nonPrefixCommands (toLowerCase ((splitSpaces m).headD "")) with
    | none =>
      rw [hget] at h
      exact absurd h (by simp)
    | some c => rfl

/-! ### Role resolution -/

/-- C1: when the developers, moderators and admins lists are all present,
`getUserRole u` is the highest ordinal among the lists that contain `String(u)`
(developer 3, moderator 2, admin 1), and 0 when none contains it; membership is
decided on the string forms of the ids. -/
theorem getUserRole_highest_ordinal (cfg : Config) (ds ms ads : List JsId) (u : JsId) :
    getUserRole (some { cfg with developers := some ds, moderators := some ms, admins := some ads }) u
      = highestListedOrdinal ds ms ads u := by
  simp only [getUserRole, highestListedOrdinal, List.filter_cons, List.filter_nil]
  generalize (ds.map jsString).contains (jsString u) = b3
  generalize (ms.map jsString).contains (jsString u) = b2
  generalize (ads.map jsString).contains (jsString u) = b1
  cases b3 <;> cases b2 <;> cases b1 <;> simp

/-! ### The gates of `handleMessage` -/

/-- C2, as the code has it: a sender with an entry in the banned-users table
whose event carries a body or attachments, is not a reply to a message with a
live reply correlation, and is a command attempt (the message starts with a
configured prefix, or its first word is a registered prefix-free command) gets
exactly one message, the ban notice with the stored reason; no entry point is
called and the cooldown table is unchanged, whatever the roles, the cooldown
and the existence of the command. -/
theorem handleMessage_banned_attempt (beh : Behaviour) (w : World) (event : Event) (now : Nat)
    (ban : BanRecord)
    (hbody : (truthyString event.body).isSome ∨ event.attachments.isSome)
    (hreply : event.messageReply.bind (fun mr => tableGet w.replies mr.messageID) = none)
    (hban : tableGet (w.bannedUsersFile.getD []) (jsString event.senderID) = some ban)
    (hattempt : (∃ p ∈ w.config.Prefix, startsWith (messageText event) p = true) ∨
      (tableGet w.nonPrefixCommands
        (toLowerCase ((splitSpaces (messageText event)).headD ""))).isSome) :
    (handleMessage beh w event now).effects
        = [Effect.apiSendMessage (banNotice ban.reason) event.threadID (some event.messageID)]
      ∧ (∀ e c a p, Effect.invoke e c a p ∉ (handleMessage beh w event now).effects)
      ∧ (handleMessage beh w event now).world.userCooldowns = w.userCooldowns
      ∧ (handleMessage beh w event now).error = none := by
  have hatt : (resolveCommand w (messageText event)).isCommandAttempt = true := by
    rcases hattempt with h | h
    · exact isCommandAttempt_of_prefix w _ h
    · exact isCommandAttempt_of_nonPrefix w _ h
  have hguard : ¬((truthyString event.body).isNone = true ∧ event.attachments.isNone = true) := by
    rintro ⟨h1, h2⟩
    rcases hbody with h | h
    · simp [Option.isNone_iff_eq_none.mp h1] at h
    · simp [Option.isNone_iff_eq_none.mp h2] at h
  have hrun : handleMessage beh w event now
      = ⟨loadBannedUsers w,
          [Effect.apiSendMessage (banNotice ban.reason) event.threadID (some event.messageID)],
          none⟩ := by
    unfold handleMessage
    rw [if_neg hguard]
    simp only [loadBannedUsers, hreply, Option.isSome_none, resolveCommand_loadBannedUsers]
    have : resolveCommand { w with bannedUsers := w.bannedUsersFile.getD [] } (messageText event)
        = resolveCommand w (messageText event) := rfl
    simp [this, hatt, hban]
  rw [hrun]
  refine ⟨rfl, ?_, rfl, rfl⟩
  intro e c a p h
  simp at h

/-- C2 fails as stated: users `7` and `8` have ban entries and message `m0`
has a live reply correlation registered for user `7`. The command attempt
`/help` sent as a reply to `m0` is handed to `handleReply` before the ban gate:
from user `8` the only message is the notice that only the original sender can
reply, and from user `7` the continuation is called and no ban notice is sent. -/
theorem handleMessage_banned_reply_counterexample :
    tableGet (sampleBannedWorld.bannedUsersFile.getD []) "8" = some ⟨"spam"⟩
      ∧ tableGet (sampleBannedWorld.bannedUsersFile.getD []) "7" = some ⟨"flood"⟩
      ∧ startsWith (messageText (sampleReplyEvent (JsId.str "8") "/help")) "/" = true
      ∧ (handleMessage quietBehaviour sampleBannedWorld (sampleReplyEvent (JsId.str "8") "/help")
          10000).effects
        = [Effect.apiSendMessage "Only the original sender can reply to this message." "t1"
            (some "m2")]
      ∧ (handleMessage quietBehaviour sampleBannedWorld (sampleReplyEvent (JsId.str "7") "/help")
          10000).effects
        = [Effect.replyCallback "m0" ⟨"onReply", some (JsId.str "7")⟩] := by
  decide

/-- C2 at a concrete input: banned user `8` sends `/help` as a plain message. -/
theorem handleMessage_banned_attempt_witness :
    (handleMessage quietBehaviour sampleBannedWorld (sampleEventFrom (JsId.str "8") "/help")
        10000).effects
      = [Effect.apiSendMessage "You are banned from using bot commands.\nReason: spam" "t1"
          (some "m1")] :=
  (handleMessage_banned_attempt quietBehaviour sampleBannedWorld
    (sampleEventFrom (JsId.str "8") "/help") 10000 ⟨"spam"⟩ (Or.inl (by decide)) (by decide)
    (by decide) (Or.inl ⟨"/", by decide, by decide⟩)).1

theorem not_ignored_of_body_or_attachments (event : Event)
    (hbody : (truthyString event.body).isSome ∨ event.attachments.isSome) :
    ¬((truthyString event.body).isNone = true ∧ event.attachments.isNone = true) := by
  rintro ⟨h1, h2⟩
  rcases hbody with h | h
  · simp [Option.isNone_iff_eq_none.mp h1] at h
  · simp [Option.isNone_iff_eq_none.mp h2] at h

/-- What `handleMessage` does once the event has reached the cooldown check. -/
theorem handleMessage_at_cooldownGate (beh : Behaviour) (w : World) (event : Event) (now : Nat)
    (c : Command) (n : String) (h : reachesCooldownGate w event c n) :
    handleMessage beh w event now =
      match checkCooldown w.userCooldowns event.senderID n (effectiveCooldown c) now with
      | some cooldownMessage =>
        match sendMessage ⟨event.threadID, cooldownMessage, some event.messageID⟩ with
        | .ok effs => ⟨loadBannedUsers w, effs, none⟩
        | .error e => ⟨loadBannedUsers w, [], some e⟩
      | none =>
        invokeCommand beh
          { loadBannedUsers w with
            userCooldowns := setCooldown w.userCooldowns event.senderID n (effectiveCooldown c) now }
          event c n (resolveCommand w (messageText event)).args := by
  obtain ⟨hbody, hreply, hcmd, hname, hban, hrole, hdis⟩ := h
  have hres : resolveCommand { w with bannedUsers := w.bannedUsersFile.getD [] } (messageText event)
      = resolveCommand w (messageText event) := rfl
  unfold handleMessage
  rw [if_neg (not_ignored_of_body_or_attachments event hbody)]
  simp only [loadBannedUsers, hreply, Option.isSome_none, hres, hcmd, hname, hban, ite_self,
    if_neg hrole, hdis]
  simp

/-- C3: when `handleMessage` resolves a command for a sender without a ban
entry and the command requires a role greater than `getUserRole(sender)`, it
sends exactly one message, the fixed moderators-only text; no entry point is
called and the cooldown table is left as it was. -/
theorem handleMessage_role_denied (beh : Behaviour) (w : World) (event : Event) (now : Nat)
    (c : Command)
    (hbody : (truthyString event.body).isSome ∨ event.attachments.isSome)
    (hreply : event.messageReply.bind (fun mr => tableGet w.replies mr.messageID) = none)
    (hcmd : (resolveCommand w (messageText event)).command = some c)
    (hban : tableGet (w.bannedUsersFile.getD []) (jsString event.senderID) = none)
    (hrole : (getUserRole (some w.config) event.senderID : Int) < commandRole c) :
    (handleMessage beh w event now).effects
        = [Effect.apiSendMessage moderatorsOnlyText event.threadID (some event.messageID)]
      ∧ (∀ e c' a p, Effect.invoke e c' a p ∉ (handleMessage beh w event now).effects)
      ∧ (handleMessage beh w event now).world.userCooldowns = w.userCooldowns
      ∧ (handleMessage beh w event now).error = none := by
  have hres : resolveCommand { w with bannedUsers := w.bannedUsersFile.getD [] } (messageText event)
      = resolveCommand w (messageText event) := rfl
  have hrun : handleMessage beh w event now
      = ⟨loadBannedUsers w,
          [Effect.apiSendMessage moderatorsOnlyText event.threadID (some event.messageID)],
          none⟩ := by
    unfold handleMessage
    rw [if_neg (not_ignored_of_body_or_attachments event hbody)]
    simp only [loadBannedUsers, hreply, Option.isSome_none, hres, hcmd, hban, ite_self,
      if_pos hrole]
    simp
  rw [hrun]
  refine ⟨rfl, ?_, rfl, rfl⟩
  intro e c' a p h
  simp at h

/-- C3 at a concrete input: user `7`, who is in no role list, sends `/purge`,
which requires role 2. -/
theorem handleMessage_role_denied_witness :
    (handleMessage quietBehaviour sampleGuardedWorld (sampleEvent "/purge") 10000).effects
        = [Effect.apiSendMessage moderatorsOnlyText "t1" (some "m1")]
      ∧ (handleMessage quietBehaviour sampleGuardedWorld (sampleEvent "/purge")
          10000).world.userCooldowns = [] :=
  ⟨(handleMessage_role_denied quietBehaviour sampleGuardedWorld (sampleEvent "/purge") 10000
      samplePurge (Or.inl (by decide)) (by decide) (by decide) (by decide) (by decide)).1,
    (handleMessage_role_denied quietBehaviour sampleGuardedWorld (sampleEvent "/purge") 10000
      samplePurge (Or.inl (by decide)) (by decide) (by decide) (by decide) (by decide)).2.2.1⟩

/-! ### Cooldown tracker -/

theorem ceilSeconds_eq_ceil (d : Int) : ceilSeconds d = ⌈(d : ℚ) / 1000⌉ := by
  have h := Rat.floor_intCast_div_natCast (-d) 1000
  unfold ceilSeconds
  have h' : (-d) / 1000 = ⌊-((d : ℚ) / 1000)⌋ := by
    rw [← neg_div]
    rw [show ((1000 : ℕ) : ℤ) = 1000 from rfl] at h
    rw [← h]
    push_cast
    rfl
  rw [h', Int.floor_neg, neg_neg]

theorem checkCooldown_setCooldown_same (cooldowns : List (String × Int)) (u : JsId)
    (n : String) (cd x : Int) (t0 t : Nat) :
    checkCooldown (setCooldown cooldowns u n cd t0) u n x t =
      if (t0 : Int) + cd * 1000 ≠ 0 ∧ (t : Int) < t0 + cd * 1000 then
        some (waitMessage (ceilSeconds ((t0 : Int) + cd * 1000 - t)) n)
      else none := by
  simp only [checkCooldown, setCooldown, tableGet_tableSet_same]

/-- C4: after `setCooldown(u, c, s)` at time `t0`, for every integer `s` and so
for every positive one, `checkCooldown(u, c, _)` at a time `t` with
`t0 ≤ t < t0 + 1000 s` returns the wait message whose remaining value is
`⌈(t0 + 1000 s - t) / 1000⌉`, a value between 1 and `s`; at a time
`t ≥ t0 + 1000 s` it returns `null`. -/
theorem checkCooldown_after_setCooldown (cooldowns : List (String × Int)) (u : JsId)
    (c : String) (s : Int) (t0 t : Nat) (x : Int) :
    (t0 ≤ t → (t : Int) < t0 + 1000 * s →
        checkCooldown (setCooldown cooldowns u c s t0) u c x t
            = some (waitMessage ⌈((((t0 : Int) + 1000 * s - t : Int) : ℚ)) / 1000⌉ c)
          ∧ 1 ≤ ⌈((((t0 : Int) + 1000 * s - t : Int) : ℚ)) / 1000⌉
          ∧ ⌈((((t0 : Int) + 1000 * s - t : Int) : ℚ)) / 1000⌉ ≤ s)
      ∧ ((t0 : Int) + 1000 * s ≤ t →
        checkCooldown (setCooldown cooldowns u c s t0) u c x t = none) := by
  have ht0 : (0 : Int) ≤ t0 := Int.ofNat_nonneg t0
  refine ⟨fun hle hlt => ⟨?_, ?_, ?_⟩, fun hge => ?_⟩
  · have hcomm : (t0 : Int) + s * 1000 - t = (t0 : Int) + 1000 * s - t := by ring
    rw [checkCooldown_setCooldown_same, if_pos ⟨by omega, by omega⟩, ceilSeconds_eq_ceil, hcomm]
  · have : (0 : ℚ) < ((((t0 : Int) + 1000 * s - t : Int) : ℚ)) / 1000 := by
      apply div_pos _ (by norm_num)
      exact_mod_cast (by omega : (0 : Int) < (t0 : Int) + 1000 * s - t)
    exact Int.one_le_ceil_iff.mpr this
  · rw [Int.ceil_le, div_le_iff₀ (by norm_num)]
    have hle' : (t0 : Int) ≤ t := by exact_mod_cast hle
    exact_mod_cast (by omega : (t0 : Int) + 1000 * s - t ≤ s * 1000)
  · rw [checkCooldown_setCooldown_same, if_neg]
    rintro ⟨-, hlt⟩
    omega

/-- C4 at a concrete input: a 5 second cooldown started at 10 000 ms. -/
theorem checkCooldown_after_setCooldown_witness :
    checkCooldown (setCooldown [] (JsId.str "42") "help" 5 10000) (JsId.str "42") "help" 5 12500
        = some "Please wait 3 second(s) before using \x27help\x27 again." ∧
      checkCooldown (setCooldown [] (JsId.str "42") "help" 5 10000) (JsId.str "42") "help" 5 15000
        = none :=
  ⟨by decide,
    (checkCooldown_after_setCooldown [] (JsId.str "42") "help" 5 10000 15000 5).2 (by decide)⟩

theorem cooldownKey_injective (u : JsId) (a n : String)
    (h : cooldownKey u a = cooldownKey u n) : a = n := by
  unfold cooldownKey at h
  have hd := congrArg String.data h
  simp only [String.data_append, List.append_assoc] at hd
  exact String.ext (List.append_cancel_left (List.append_cancel_left hd))

theorem checkCooldown_setCooldown_other (cooldowns : List (String × Int)) (u : JsId)
    (a n : String) (hne : a ≠ n) (cd x : Int) (t0 t : Nat) :
    checkCooldown (setCooldown cooldowns u n cd t0) u a x t = checkCooldown cooldowns u a x t := by
  have hk : cooldownKey u a ≠ cooldownKey u n := fun h => hne (cooldownKey_injective u a n h)
  simp only [checkCooldown, setCooldown, tableGet_tableSet_other _ _ _ _ hk]

theorem dropWhile_append_singleton_ne_nil (p : Char → Bool) (l : List Char) (c : Char)
    (hc : p c = false) : (l ++ [c]).dropWhile p ≠ [] := by
  induction l with
  | nil => simp [List.dropWhile, hc]
  | cons d l ih =>
    by_cases hd : p d = true
    · simpa [List.dropWhile, hd] using ih
    · simp [List.dropWhile, hd]

theorem trim_ne_empty (c : Char) (cs : List Char) (hc : isTrimChar c = false) :
    trim ⟨c :: cs⟩ ≠ "" := by
  intro h
  have hd := congrArg String.data h
  simp only [trim, List.dropWhile, hc, List.reverse_cons] at hd
  have hne := dropWhile_append_singleton_ne_nil isTrimChar cs.reverse c hc
  apply hne
  simpa using hd

theorem waitMessage_data (remaining : Int) (n : String) :
    ∃ cs, waitMessage remaining n = ⟨Char.ofNat 80 :: cs⟩ := by
  refine ⟨("lease wait " ++ toString remaining ++ " second(s) before using \x27" ++ n
    ++ "\x27 again.").data, ?_⟩
  apply String.ext
  simp only [waitMessage, String.data_append, List.append_assoc]
  rfl

theorem sendMessage_waitMessage (threadID : String) (hthread : threadID ≠ "") (remaining : Int)
    (n : String) (messageID : Option String) :
    sendMessage ⟨threadID, waitMessage remaining n, messageID⟩
      = .ok [Effect.apiSendMessage (waitMessage remaining n) threadID (truthyString messageID)] := by
  obtain ⟨cs, hcs⟩ := waitMessage_data remaining n
  have h1 : waitMessage remaining n ≠ "" := by
    rw [hcs]
    intro h
    exact absurd (congrArg String.data h) (by simp)
  have h2 : trim (waitMessage remaining n) ≠ "" := by
    rw [hcs]
    exact trim_ne_empty _ _ (by decide)
  simp [sendMessage, hthread, h1, h2]

theorem invokeCommand_userCooldowns (beh : Behaviour) (w : World) (event : Event) (c : Command)
    (n : String) (args : List String) :
    (invokeCommand beh w event c n args).world.userCooldowns = w.userCooldowns := by
  unfold invokeCommand
  simp only
  split <;> split <;> rfl

theorem invokeCommand_effects_head (beh : Behaviour) (w : World) (event : Event) (c : Command)
    (n : String) (args : List String) (h : c.execute = true ∨ c.run = true) :
    ∃ entry rest,
      (invokeCommand beh w event c n args).effects
        = Effect.invoke entry c args w.config.Prefix.head? :: rest := by
  have hentry : ∃ entry, (if c.execute = true then some EntryPoint.execute
      else if c.run = true then some EntryPoint.run else none) = some entry := by
    by_cases he : c.execute = true
    · exact ⟨_, if_pos he⟩
    · rcases h with h | h
      · exact absurd h he
      · exact ⟨EntryPoint.run, by rw [if_neg he, if_pos h]⟩
  obtain ⟨entry, hentry⟩ := hentry
  unfold invokeCommand
  simp only [hentry]
  refine ⟨entry, ?_⟩
  split <;> split <;> (try split_ifs) <;> simp

/-- The cooldown table after a call that passed every gate: the entry of the
sender and the invoked name is set, nothing else is touched. -/
theorem handleMessage_accepted_userCooldowns (beh : Behaviour) (w : World) (event : Event)
    (now : Nat) (c : Command) (n : String) (h : reachesCooldownGate w event c n)
    (hready : checkCooldown w.userCooldowns event.senderID n (effectiveCooldown c) now = none) :
    (handleMessage beh w event now).world.userCooldowns
      = setCooldown w.userCooldowns event.senderID n (effectiveCooldown c) now := by
  rw [handleMessage_at_cooldownGate beh w event now c n h, hready]
  simp only [invokeCommand_userCooldowns]

/-- A call that arrives at the cooldown check while the entry set at `t0` for
`cd` seconds is live is rejected with the wait message. -/
theorem handleMessage_rejected_of_live_entry (beh : Behaviour) (w2 : World) (e2 : Event)
    (c2 : Command) (n : String) (cooldowns : List (String × Int)) (cd : Int) (t0 t : Nat)
    (hworld : w2.userCooldowns = setCooldown cooldowns e2.senderID n cd t0)
    (hsecond : reachesCooldownGate w2 e2 c2 n) (hthread : e2.threadID ≠ "")
    (ht : (t : Int) < t0 + cd * 1000) :
    handleMessage beh w2 e2 t
      = cooldownRejection w2 e2 n (ceilSeconds ((t0 : Int) + cd * 1000 - t)) := by
  have htn : (0 : Int) ≤ t := Int.ofNat_nonneg t
  rw [handleMessage_at_cooldownGate beh w2 e2 t c2 n hsecond, hworld,
    checkCooldown_setCooldown_same, if_pos ⟨by omega, ht⟩]
  simp only [sendMessage_waitMessage _ hthread]
  rfl

/-- A call that arrives at the cooldown check after the entry set at `t0` for
`cd` seconds has expired goes on to the entry point. -/
theorem handleMessage_accepted_of_expired_entry (beh : Behaviour) (w2 : World) (e2 : Event)
    (c2 : Command) (n : String) (cooldowns : List (String × Int)) (cd : Int) (t0 t : Nat)
    (hworld : w2.userCooldowns = setCooldown cooldowns e2.senderID n cd t0)
    (hsecond : reachesCooldownGate w2 e2 c2 n)
    (ht : (t0 : Int) + cd * 1000 ≤ t) :
    handleMessage beh w2 e2 t
      = invokeCommand beh
          { loadBannedUsers w2 with
            userCooldowns := setCooldown w2.userCooldowns e2.senderID n (effectiveCooldown c2) t }
          e2 c2 n (resolveCommand w2 (messageText e2)).args := by
  have hcheck : checkCooldown w2.userCooldowns e2.senderID n (effectiveCooldown c2) t = none := by
    rw [hworld, checkCooldown_setCooldown_same, if_neg]
    rintro ⟨-, hlt⟩
    omega
  rw [handleMessage_at_cooldownGate beh w2 e2 t c2 n hsecond, hcheck]

/-- C5: when a command's cooldown is 0 or not declared and a first call by a
user passes every gate at time `t0`, a second call by the same user under the
same invoked name that arrives at the cooldown check at a time earlier than
`t0 + 3000` is rejected: the only call made is the wait message, so the entry
point is not called a second time. -/
theorem handleMessage_second_call_default_cooldown (beh : Behaviour) (w : World) (e1 : Event)
    (t0 : Nat) (c : Command) (n : String)
    (hfirst : reachesCooldownGate w e1 c n)
    (hready : checkCooldown w.userCooldowns e1.senderID n (effectiveCooldown c) t0 = none)
    (hzero : commandCooldown c = 0)
    (w2 : World) (e2 : Event) (c2 : Command) (t : Nat)
    (hworld : w2.userCooldowns = (handleMessage beh w e1 t0).world.userCooldowns)
    (hsender : e2.senderID = e1.senderID)
    (hsecond : reachesCooldownGate w2 e2 c2 n)
    (hthread : e2.threadID ≠ "")
    (ht : t < t0 + 3000) :
    handleMessage beh w2 e2 t = cooldownRejection w2 e2 n (ceilSeconds ((t0 : Int) + 3000 - t))
      ∧ (∀ e c' a p, Effect.invoke e c' a p ∉ (handleMessage beh w2 e2 t).effects)
      ∧ (handleMessage beh w2 e2 t).world.userCooldowns = w2.userCooldowns := by
  have heff : effectiveCooldown c = 3 := by simp [effectiveCooldown, hzero]
  rw [handleMessage_accepted_userCooldowns beh w e1 t0 c n hfirst hready, heff, ← hsender]
    at hworld
  have hrun := handleMessage_rejected_of_live_entry beh w2 e2 c2 n w.userCooldowns 3 t0 t hworld
    hsecond hthread (by omega)
  rw [hrun]
  refine ⟨rfl, ?_, rfl⟩
  intro e c' a p h
  simp [cooldownRejection] at h

/-- C5 at a concrete input: `/help` at 10 000 ms and again at 11 000 ms. -/
theorem handleMessage_second_call_default_cooldown_witness :
    handleMessage quietBehaviour (handleMessage quietBehaviour sampleWorld (sampleEvent "/help")
        10000).world (sampleEvent "/help") 11000
      = cooldownRejection (handleMessage quietBehaviour sampleWorld (sampleEvent "/help")
          10000).world (sampleEvent "/help") "help" 2 :=
  (handleMessage_second_call_default_cooldown quietBehaviour sampleWorld (sampleEvent "/help")
    10000 sampleHelp "help" (by decide) (by decide) (by decide)
    (handleMessage quietBehaviour sampleWorld (sampleEvent "/help") 10000).world
    (sampleEvent "/help") sampleHelp 11000 rfl rfl (by decide) (by decide) (by decide)).1

/-- C6 fails as stated: `quick` declares a cooldown of 1 second; after `/quick`
is accepted at 10 000 ms, the same user's `/quick` at 11 500 ms, less than
3 seconds later, passes the cooldown gate and the entry point runs again. -/
theorem cooldown_floor_counterexample :
    commandCooldown sampleQuick = 1
      ∧ (handleMessage quietBehaviour sampleWorld (sampleEvent "/quick") 10000).effects
          = [Effect.invoke EntryPoint.run sampleQuick [] (some "/")]
      ∧ 11500 < 10000 + 3000
      ∧ (handleMessage quietBehaviour
            (handleMessage quietBehaviour sampleWorld (sampleEvent "/quick") 10000).world
            (sampleEvent "/quick") 11500).effects
          = [Effect.invoke EntryPoint.run sampleQuick [] (some "/")] := by
  decide

/-- C6, as the code has it: the 3 seconds are the default of a cooldown that is
0 or not declared, not a floor. After a call that passed every gate at time
`t0`, a second call by the same user under the same invoked name that arrives
at the cooldown check is rejected at every time before `t0` plus the declared
cooldown (3 seconds when it is 0 or not declared) and goes on to the entry
point at every later time; so a second call less than 3 seconds later is
rejected when the declared cooldown is 0, not declared, or at least 3. -/
theorem handleMessage_second_call_window (beh : Behaviour) (w : World) (e1 : Event)
    (t0 : Nat) (c : Command) (n : String)
    (hfirst : reachesCooldownGate w e1 c n)
    (hready : checkCooldown w.userCooldowns e1.senderID n (effectiveCooldown c) t0 = none)
    (w2 : World) (e2 : Event) (c2 : Command)
    (hworld : w2.userCooldowns = (handleMessage beh w e1 t0).world.userCooldowns)
    (hsender : e2.senderID = e1.senderID)
    (hsecond : reachesCooldownGate w2 e2 c2 n)
    (hthread : e2.threadID ≠ "") :
    (∀ t : Nat,
        (t : Int) < t0 + 1000 * (if commandCooldown c = 0 then 3 else commandCooldown c) →
        handleMessage beh w2 e2 t
          = cooldownRejection w2 e2 n
              (ceilSeconds ((t0 : Int)
                + 1000 * (if commandCooldown c = 0 then 3 else commandCooldown c) - t)))
      ∧ (∀ t : Nat,
        (t0 : Int) + 1000 * (if commandCooldown c = 0 then 3 else commandCooldown c) ≤ t →
        handleMessage beh w2 e2 t
          = invokeCommand beh
              { loadBannedUsers w2 with
                userCooldowns :=
                  setCooldown w2.userCooldowns e2.senderID n (effectiveCooldown c2) t }
              e2 c2 n (resolveCommand w2 (messageText e2)).args)
      ∧ (commandCooldown c = 0 ∨ 3 ≤ commandCooldown c →
        ∀ t : Nat, t < t0 + 3000 →
          (handleMessage beh w2 e2 t).effects
            = [Effect.apiSendMessage
                (waitMessage (ceilSeconds ((t0 : Int) + 1000 * effectiveCooldown c - t)) n)
                e2.threadID (truthyString (some e2.messageID))]) := by
  rw [handleMessage_accepted_userCooldowns beh w e1 t0 c n hfirst hready, ← hsender] at hworld
  have heff : (if commandCooldown c = 0 then 3 else commandCooldown c) = effectiveCooldown c := rfl
  rw [heff]
  have hcomm : ∀ t : Nat, (t0 : Int) + effectiveCooldown c * 1000 - t
      = (t0 : Int) + 1000 * effectiveCooldown c - t := fun t => by ring
  refine ⟨fun t ht => ?_, fun t ht => ?_, fun hfloor t ht => ?_⟩
  · rw [← hcomm]
    exact handleMessage_rejected_of_live_entry beh w2 e2 c2 n w.userCooldowns _ t0 t hworld
      hsecond hthread (by omega)
  · exact handleMessage_accepted_of_expired_entry beh w2 e2 c2 n w.userCooldowns _ t0 t hworld
      hsecond (by omega)
  · have h3 : 3 ≤ effectiveCooldown c := by
      unfold effectiveCooldown
      split_ifs <;> omega
    rw [← hcomm, handleMessage_rejected_of_live_entry beh w2 e2 c2 n w.userCooldowns _ t0 t hworld
      hsecond hthread (by omega)]
    rfl

/-- C6 at a concrete input: for `quick`, accepted at 10 000 ms, a second call at
10 400 ms is rejected with one second left. -/
theorem handleMessage_second_call_window_witness :
    handleMessage quietBehaviour
        (handleMessage quietBehaviour sampleWorld (sampleEvent "/quick") 10000).world
        (sampleEvent "/quick") 10400
      = cooldownRejection
          (handleMessage quietBehaviour sampleWorld (sampleEvent "/quick") 10000).world
          (sampleEvent "/quick") "quick" 1 :=
  (handleMessage_second_call_window quietBehaviour sampleWorld (sampleEvent "/quick") 10000
    sampleQuick "quick" (by decide) (by decide)
    (handleMessage quietBehaviour sampleWorld (sampleEvent "/quick") 10000).world
    (sampleEvent "/quick") sampleQuick rfl rfl (by decide) (by decide)).1 10400 (by decide)

/-- C7: the cooldown is keyed by sender and invoked name. Let a command be
reached under the name `n` and under a different name `a` (both names resolve
to the same command object `c`). After a call as `n` by a user passed every
gate at `t0`, a call as `a` by the same user whose own entry is not live goes
on to the entry point of `c`, which runs again, whereas a call as `n` before
the end of the cooldown window is rejected with the wait message. -/
theorem cooldown_keyed_by_invoked_name (beh : Behaviour) (w : World) (e1 : Event) (t0 : Nat)
    (c : Command) (n a : String) (hne : a ≠ n)
    (hfirst : reachesCooldownGate w e1 c n)
    (hready : checkCooldown w.userCooldowns e1.senderID n (effectiveCooldown c) t0 = none)
    (w2 : World)
    (hworld : w2.userCooldowns = (handleMessage beh w e1 t0).world.userCooldowns)
    (e2 : Event) (t : Nat) (hsender2 : e2.senderID = e1.senderID)
    (halias : reachesCooldownGate w2 e2 c a)
    (haliasReady : checkCooldown w.userCooldowns e1.senderID a (effectiveCooldown c) t = none)
    (e3 : Event) (t' : Nat) (hsender3 : e3.senderID = e1.senderID)
    (hsame : reachesCooldownGate w2 e3 c n) (hthread : e3.threadID ≠ "")
    (hwindow : (t' : Int) < t0 + 1000 * effectiveCooldown c) :
    (resolveCommand w (messageText e1)).command = (resolveCommand w2 (messageText e2)).command
      ∧ handleMessage beh w2 e2 t
          = invokeCommand beh
              { loadBannedUsers w2 with
                userCooldowns := setCooldown w2.userCooldowns e2.senderID a (effectiveCooldown c) t }
              e2 c a (resolveCommand w2 (messageText e2)).args
      ∧ (c.execute = true ∨ c.run = true →
          ∃ entry rest, (handleMessage beh w2 e2 t).effects
            = Effect.invoke entry c (resolveCommand w2 (messageText e2)).args
                w2.config.Prefix.head? :: rest)
      ∧ handleMessage beh w2 e3 t'
          = cooldownRejection w2 e3 n
              (ceilSeconds ((t0 : Int) + 1000 * effectiveCooldown c - t')) := by
  rw [handleMessage_accepted_userCooldowns beh w e1 t0 c n hfirst hready] at hworld
  have hcheck : checkCooldown w2.userCooldowns e2.senderID a (effectiveCooldown c) t = none := by
    rw [hworld, hsender2, checkCooldown_setCooldown_other _ _ _ _ hne]
    exact haliasReady
  have hrun : handleMessage beh w2 e2 t
      = invokeCommand beh
          { loadBannedUsers w2 with
            userCooldowns := setCooldown w2.userCooldowns e2.senderID a (effectiveCooldown c) t }
          e2 c a (resolveCommand w2 (messageText e2)).args := by
    rw [handleMessage_at_cooldownGate beh w2 e2 t c a halias, hcheck]
  have hcomm : (t0 : Int) + effectiveCooldown c * 1000 - t'
      = (t0 : Int) + 1000 * effectiveCooldown c - t' := by ring
  refine ⟨?_, hrun, fun hentry => ?_, ?_⟩
  · rw [hfirst.2.2.1, halias.2.2.1]
  · rw [hrun]
    exact invokeCommand_effects_head beh _ e2 c a _ hentry
  · rw [← hsender3] at hworld
    rw [← hcomm]
    exact handleMessage_rejected_of_live_entry beh w2 e3 c n w.userCooldowns _ t0 t' hworld
      hsame hthread (by omega)

/-- C7 at a concrete input: `/help` at 10 000 ms, then `/h` and `/help` at
10 500 ms by the same user. -/
theorem cooldown_keyed_by_invoked_name_witness :
    (handleMessage quietBehaviour
          (handleMessage quietBehaviour sampleWorld (sampleEvent "/help") 10000).world
          (sampleEvent "/h") 10500).effects
        = [Effect.invoke EntryPoint.run sampleHelp [] (some "/")]
      ∧ handleMessage quietBehaviour
          (handleMessage quietBehaviour sampleWorld (sampleEvent "/help") 10000).world
          (sampleEvent "/help") 10500
        = cooldownRejection
            (handleMessage quietBehaviour sampleWorld (sampleEvent "/help") 10000).world
            (sampleEvent "/help") "help" 3 :=
  ⟨by decide,
    (cooldown_keyed_by_invoked_name quietBehaviour sampleWorld (sampleEvent "/help") 10000
      sampleHelp "help" "h" (by decide) (by decide) (by decide)
      (handleMessage quietBehaviour sampleWorld (sampleEvent "/help") 10000).world rfl
      (sampleEvent "/h") 10500 rfl (by decide) (by decide)
      (sampleEvent "/help") 10500 rfl (by decide) (by decide) (by decide)).2.2.2⟩

/-! ### Command registry -/

theorem foldl_tableSet_get (c : Command) (keys : List String) (t : List (String × Command))
    (k : String) :
    tableGet (keys.foldl (fun m a => tableSet m (toLowerCase a) c) t) k
      = if k ∈ keys.map toLowerCase then some c else tableGet t k := by
  induction keys generalizing t with
  | nil => simp
  | cons a keys ih =>
    rw [List.foldl_cons, ih]
    by_cases h1 : k ∈ keys.map toLowerCase
    · simp [h1]
    · by_cases h2 : k = toLowerCase a
      · subst h2
        simp [tableGet_tableSet_same]
      · simp [h1, h2, tableGet_tableSet_other _ _ _ _ h2]

theorem registerAs_get (w : World) (c : Command) (name : String) (aliases : Option (List String))
    (nonPrefix : Bool) (k : String) :
    tableGet (registerAs w c name aliases nonPrefix).commands k
      = if k ∈ toLowerCase name :: (aliases.getD []).map toLowerCase then some c
        else tableGet w.commands k := by
  unfold registerAs
  cases aliases with
  | none =>
    by_cases h : k = toLowerCase name
    · subst h
      simp [tableGet_tableSet_same]
    · simp [h, tableGet_tableSet_other _ _ _ _ h]
  | some al =>
    simp only [foldl_tableSet_get, Option.getD_some, List.mem_cons]
    by_cases h1 : k ∈ al.map toLowerCase
    · simp [h1]
    · by_cases h : k = toLowerCase name
      · subst h
        simp [tableGet_tableSet_same]
      · simp [h, h1, tableGet_tableSet_other _ _ _ _ h]

theorem loadModule_get (w : World) (c : Command) (k : String) :
    tableGet (loadModule w c).commands k
      = if k ∈ registeredKeys c then some c else tableGet w.commands k := by
  unfold loadModule registeredKeys
  cases hreg : registration c with
  | none =>
    simp only
    split <;> simp
  | some r =>
    obtain ⟨name, aliases, nonPrefix⟩ := r
    simp only
    split <;> simp [registerAs_get]

/-- Loading further files leaves a key alone when none of them registers it. -/
theorem loadCommands_foldl_get (post : List CommandFile) (w : World) (k : String)
    (hlater : ∀ g ∈ post, ∀ c', g.module = some c' → k ∉ registeredKeys c') :
    tableGet
        (post.foldl
          (fun w f =>
            match f.module with
            | some command => loadModule w command
            | none => w) w).commands k
      = tableGet w.commands k := by
  induction post generalizing w with
  | nil => rfl
  | cons g post ih =>
    rw [List.foldl_cons, ih _ (fun g' hg' c' hc' => hlater g' (List.mem_cons_of_mem _ hg') c' hc')]
    cases hmod : g.module with
    | none => rfl
    | some c' =>
      simp only
      rw [loadModule_get, if_neg (hlater g (List.mem_cons_self _ _) c' hmod)]

set_option maxRecDepth 100000 in
/-- The lower-case mapping at letters outside ASCII: accented Latin capitals, a
capital sigma at the end of a word and inside it, and the dotted capital I. -/
theorem toLowerCase_samples :
    toLowerCase "ÉLAN" = "élan"
      ∧ toLowerCase "ΟΔΟΣ ΣΟΦΟΣ" = "οδος σοφος"
      ∧ toLowerCase "İ" = "i\u0307"
      ∧ toLowerCase "Help-42" = "help-42" := by
  decide

/-- C8 fails as stated: `a.js` exports the command `a` with the alias `b`, and
`b.js`, which the directory lists after it, exports the command `b`. After
loading, the command `a` is registered and found under its name, but the lookup
of its alias `b` returns the object of `b.js`. -/
theorem loadCommands_alias_counterexample :
    listedByName [⟨"a.js", some sampleA⟩, ⟨"b.js", some sampleB⟩] = true
      ∧ registration sampleA = some ("a", some ["b"], false)
      ∧ tableGet
          (loadCommands emptyWorld
            [⟨"a.js", some sampleA⟩, ⟨"b.js", some sampleB⟩]).commands (toLowerCase "a")
        = some sampleA
      ∧ tableGet
          (loadCommands emptyWorld
            [⟨"a.js", some sampleA⟩, ⟨"b.js", some sampleB⟩]).commands (toLowerCase "b")
        = some sampleB
      ∧ sampleB ≠ sampleA := by
  decide

/-- C8, as the code has it: after `loadCommands`, for a module that is
registered, the lookup of its canonical name or of any of its declared aliases,
in any letter case and lower-cased as the dispatcher does, returns that
module's command object, provided that no module loaded after it registers the
same lower-cased name or alias. -/
theorem loadCommands_resolves_name_and_aliases (w : World) (pre post : List CommandFile)
    (f : CommandFile) (c : Command) (name : String) (aliases : Option (List String))
    (nonPrefix : Bool)
    (hfile : isCommandFile f = true) (hmod : f.module = some c)
    (hreg : registration c = some (name, aliases, nonPrefix))
    (invoked : String)
    (hinvoked : toLowerCase invoked = toLowerCase name
      ∨ ∃ a ∈ aliases.getD [], toLowerCase invoked = toLowerCase a)
    (hlater : ∀ g ∈ post, ∀ c', isCommandFile g = true → g.module = some c' →
      toLowerCase invoked ∉ registeredKeys c') :
    tableGet (loadCommands w (pre ++ f :: post)).commands (toLowerCase invoked) = some c := by
  have hkey : toLowerCase invoked ∈ registeredKeys c := by
    unfold registeredKeys
    rw [hreg]
    rcases hinvoked with h | ⟨a, ha, h⟩
    · rw [h]
      exact List.mem_cons_self _ _
    · rw [h]
      exact List.mem_cons_of_mem _ (List.mem_map_of_mem _ ha)
  unfold loadCommands
  simp only [List.filter_append, List.filter_cons, hfile, if_true, List.foldl_append,
    List.foldl_cons, hmod]
  rw [loadCommands_foldl_get, loadModule_get, if_pos hkey]
  intro g hg c' hc'
  rw [List.mem_filter] at hg
  exact hlater g hg.1 c' hg.2 hc'

set_option maxRecDepth 100000 in
/-- C8 at a concrete input: `HELP` and `H` after loading `help.js` and
`quick.ts`, and `ÉLAN` after loading `élan.js`. -/
theorem loadCommands_resolves_name_and_aliases_witness :
    tableGet sampleWorld.commands (toLowerCase "HELP") = some sampleHelp
      ∧ tableGet sampleWorld.commands (toLowerCase "H") = some sampleHelp
      ∧ tableGet (loadCommands emptyWorld [⟨"élan.js", some sampleElan⟩]).commands
          (toLowerCase "ÉLAN")
        = some sampleElan :=
  ⟨loadCommands_resolves_name_and_aliases emptyWorld [] [⟨"quick.ts", some sampleQuick⟩]
      ⟨"help.js", some sampleHelp⟩ sampleHelp "help" (some ["h"]) false (by decide) rfl
      (by decide) "HELP" (Or.inl (by decide))
      (by
        intro g hg c' _ hc'
        rw [List.mem_singleton] at hg
        subst hg
        have hq : c' = sampleQuick := (Option.some.inj hc').symm
        subst hq
        decide),
    by decide,
    loadCommands_resolves_name_and_aliases emptyWorld [] [] ⟨"élan.js", some sampleElan⟩
      sampleElan "élan" none false (by decide) rfl (by decide) "ÉLAN" (Or.inl (by decide))
      (fun g hg => absurd hg (List.not_mem_nil g))⟩

/-- C9 on the code: a flat module with a name and no `run` or `execute` is
registered, and a call of it passes every gate, starts a cooldown and calls
nothing; a `config` module with a name and `execute` but no `run` is not
registered. A module that fails to load is skipped and the next one is
registered. -/
theorem loadCommands_entry_point_evaluation :
    (sampleGhost.run = false ∧ sampleGhost.execute = false)
      ∧ tableGet (loadCommands emptyWorld [⟨"ghost.js", some sampleGhost⟩]).commands "ghost"
        = some sampleGhost
      ∧ handleMessage quietBehaviour (loadCommands emptyWorld [⟨"ghost.js", some sampleGhost⟩])
          (sampleEvent "/ghost") 10000
        = ⟨{ loadCommands emptyWorld [⟨"ghost.js", some sampleGhost⟩] with
              userCooldowns := [("7:ghost", 13000)] }, [], none⟩
      ∧ sampleExecOnly.execute = true
      ∧ (loadCommands emptyWorld [⟨"exec.js", some sampleExecOnly⟩]).commands = []
      ∧ loadCommands emptyWorld [⟨"broken.js", none⟩, ⟨"help.js", some sampleHelp⟩]
        = loadCommands emptyWorld [⟨"help.js", some sampleHelp⟩] := by
  decide

/-! ### Reply correlation -/

/-- C10 fails as stated: message `m0` has a correlation registered for user `7`;
a reply to it by user `8` makes `handleReply` send a message. -/
theorem handleReply_other_sender_counterexample :
    tableGet sampleReplyWorld.replies "m0" = some ⟨"onReply", some (JsId.str "7")⟩
      ∧ (sampleReplyEvent (JsId.str "8") "hello").senderID ≠ JsId.str "7"
      ∧ (handleReply quietBehaviour sampleReplyWorld (sampleReplyEvent (JsId.str "8") "hello")).effects
        = [Effect.apiSendMessage "Only the original sender can reply to this message." "t1"
            (some "m2")] := by
  decide

/-- C10, as the code has it: for a reply correlation registered with a specific
(truthy) author `a`, a reply to that message by a sender different from `a`
makes `handleReply` send exactly one message, the fixed notice that only the
original sender can reply; the continuation is not called, no error is raised
and the state is unchanged. -/
theorem handleReply_other_sender (beh : Behaviour) (w : World) (event : Event) (m : String)
    (data : ReplyData) (a : JsId)
    (hreply : event.messageReply = some ⟨m⟩)
    (hdata : tableGet w.replies m = some data)
    (hauthor : data.author = some a) (htruthy : a.truthy = true)
    (hsender : event.senderID ≠ a) :
    handleReply beh w event
      = ⟨w, [Effect.apiSendMessage onlyOriginalSenderText event.threadID (some event.messageID)],
          none⟩ := by
  unfold handleReply
  simp only [hreply, hdata, hauthor]
  rw [if_pos]
  refine ⟨by simp [htruthy], ?_⟩
  intro h
  exact hsender (Option.some.inj h)

/-- C10 at a concrete input: user `8` replies to the message registered for user `7`. -/
theorem handleReply_other_sender_witness :
    handleReply quietBehaviour sampleReplyWorld (sampleReplyEvent (JsId.str "8") "hello")
      = ⟨sampleReplyWorld,
          [Effect.apiSendMessage onlyOriginalSenderText "t1" (some "m2")], none⟩ :=
  handleReply_other_sender quietBehaviour sampleReplyWorld
    (sampleReplyEvent (JsId.str "8") "hello") "m0" ⟨"onReply", some (JsId.str "7")⟩
    (JsId.str "7") rfl (by decide) rfl (by decide) (by decide)

theorem tableGet_tableDelete_same {κ α : Type} [DecidableEq κ] (t : List (κ × α)) (k : κ) :
    tableGet (tableDelete t k) k = none := by
  induction t with
  | nil => rfl
  | cons e rest ih =>
    obtain ⟨k', v'⟩ := e
    by_cases h : k' = k
    · simpa [tableDelete, List.filter_cons, h] using ih
    · simpa [tableDelete, List.filter_cons, h, tableGet] using ih

theorem tableGet_foldl_tableSet_isSome {α : Type} (entries : List (String × α))
    (t : List (String × α)) (k : String) (h : (tableGet t k).isSome) :
    (tableGet (entries.foldl (fun t e => tableSet t e.1 e.2) t) k).isSome := by
  induction entries generalizing t with
  | nil => exact h
  | cons e entries ih =>
    rw [List.foldl_cons]
    apply ih
    by_cases hk : k = e.1
    · rw [hk, tableGet_tableSet_same]
      rfl
    · rw [tableGet_tableSet_other _ _ _ _ hk]
      exact h

theorem tableGet_foldl_tableSet_other {α : Type} (entries : List (String × α))
    (t : List (String × α)) (k : String) (h : ∀ e ∈ entries, e.1 ≠ k) :
    tableGet (entries.foldl (fun t e => tableSet t e.1 e.2) t) k = tableGet t k := by
  induction entries generalizing t with
  | nil => rfl
  | cons e entries ih =>
    rw [List.foldl_cons, ih _ (fun e' he' => h e' (List.mem_cons_of_mem _ he'))]
    exact tableGet_tableSet_other _ _ _ _ (Ne.symm (h e (List.mem_cons_self _ _)))

/-- What `handleReply` does for a reply that passes the author check of line 81. -/
theorem handleReply_authorized (beh : Behaviour) (w : World) (event : Event) (m : String)
    (data : ReplyData) (hreply : event.messageReply = some ⟨m⟩)
    (hdata : tableGet w.replies m = some data)
    (hauth : ¬((data.author.map JsId.truthy).getD false = true
      ∧ some event.senderID ≠ data.author)) :
    (handleReply beh w event).world = applyHandler w (beh.reply w data event)
      ∧ ∃ rest, (handleReply beh w event).effects = Effect.replyCallback m data :: rest := by
  unfold handleReply
  simp only [hreply, hdata]
  rw [if_neg hauth]
  exact ⟨rfl, _, rfl⟩

/-- C11 fails as stated: user `7` replies to message `m0`, whose correlation is
registered for user `7`; the continuation runs, the entry for `m0` is still in
the reply table afterwards, and a second reply runs the continuation again. -/
theorem handleReply_entry_kept_counterexample :
    (handleReply quietBehaviour sampleReplyWorld (sampleReplyEvent (JsId.str "7") "yes")).effects
        = [Effect.replyCallback "m0" ⟨"onReply", some (JsId.str "7")⟩]
      ∧ tableGet
          (handleReply quietBehaviour sampleReplyWorld
            (sampleReplyEvent (JsId.str "7") "yes")).world.replies "m0"
        = some ⟨"onReply", some (JsId.str "7")⟩
      ∧ (handleReply quietBehaviour
          (handleReply quietBehaviour sampleReplyWorld
            (sampleReplyEvent (JsId.str "7") "yes")).world
          (sampleReplyEvent (JsId.str "7") "again")).effects
        = [Effect.replyCallback "m0" ⟨"onReply", some (JsId.str "7")⟩] := by
  decide

/-- C11, as the code has it: a reply correlation is not consumed by a trigger.
After `handleReply` has run the continuation for message id `m`, an entry for
`m` is still in the reply table; when the continuation did not register `m`
anew, the entry is the same and a second reply runs the continuation again.
The entry goes only when the timer set at registration fires, after which a
reply to `m` finds nothing and does nothing. -/
theorem handleReply_entry_not_consumed (beh : Behaviour) (w : World) (event : Event)
    (m : String) (data : ReplyData) (hreply : event.messageReply = some ⟨m⟩)
    (hdata : tableGet w.replies m = some data)
    (hauth : ¬((data.author.map JsId.truthy).getD false = true
      ∧ some event.senderID ≠ data.author)) :
    (∃ rest, (handleReply beh w event).effects = Effect.replyCallback m data :: rest)
      ∧ (tableGet (handleReply beh w event).world.replies m).isSome
      ∧ ((∀ e ∈ (beh.reply w data event).registered, e.1 ≠ m) →
          tableGet (handleReply beh w event).world.replies m = some data
            ∧ ∃ rest, (handleReply beh (handleReply beh w event).world event).effects
                = Effect.replyCallback m data :: rest)
      ∧ handleReply beh (replyTimeout (handleReply beh w event).world m) event
          = ⟨replyTimeout (handleReply beh w event).world m, [], none⟩ := by
  obtain ⟨hworld, hrun⟩ := handleReply_authorized beh w event m data hreply hdata hauth
  refine ⟨hrun, ?_, fun hkeep => ?_, ?_⟩
  · rw [hworld]
    exact tableGet_foldl_tableSet_isSome _ _ _ (by rw [hdata]; rfl)
  · have hsame : tableGet (handleReply beh w event).world.replies m = some data := by
      rw [hworld]
      exact (tableGet_foldl_tableSet_other _ _ _ hkeep).trans hdata
    exact ⟨hsame, (handleReply_authorized beh _ event m data hreply hsame hauth).2⟩
  · unfold handleReply
    simp only [hreply]
    have hgone : tableGet (replyTimeout (handleReply beh w event).world m).replies m = none :=
      tableGet_tableDelete_same _ _
    unfold handleReply at hgone
    simp only [hreply] at hgone
    rw [hgone]

/-- C11 at a concrete input: user `7` replies twice to message `m0`. -/
theorem handleReply_entry_not_consumed_witness :
    (tableGet
        (handleReply quietBehaviour sampleReplyWorld
          (sampleReplyEvent (JsId.str "7") "yes")).world.replies "m0").isSome :=
  (handleReply_entry_not_consumed quietBehaviour sampleReplyWorld
    (sampleReplyEvent (JsId.str "7") "yes") "m0" ⟨"onReply", some (JsId.str "7")⟩ rfl
    (by decide) (by decide)).2.1

/-- C12: for a reply correlation registered through `sendMessage` with a
specific author `a`, a reply by another sender does not call the continuation
and leaves the state, and so the entry, as it was; a later reply by `a` calls
the continuation. -/
theorem handleReply_other_sender_keeps_entry (beh : Behaviour) (w0 : World) (m handler : String)
    (a : JsId) (htruthy : a.truthy = true) (e1 e2 : Event)
    (hreply1 : e1.messageReply = some ⟨m⟩) (hsender1 : e1.senderID ≠ a)
    (hreply2 : e2.messageReply = some ⟨m⟩) (hsender2 : e2.senderID = a) :
    (∀ d, Effect.replyCallback m d
        ∉ (handleReply beh (registerReplyHandler w0 m handler (some a)) e1).effects)
      ∧ (handleReply beh (registerReplyHandler w0 m handler (some a)) e1).world
          = registerReplyHandler w0 m handler (some a)
      ∧ tableGet (handleReply beh (registerReplyHandler w0 m handler (some a)) e1).world.replies m
          = some ⟨handler, some a⟩
      ∧ ∃ rest,
          (handleReply beh (handleReply beh (registerReplyHandler w0 m handler (some a)) e1).world
            e2).effects
            = Effect.replyCallback m ⟨handler, some a⟩ :: rest := by
  have hentry : tableGet (registerReplyHandler w0 m handler (some a)).replies m
      = some ⟨handler, some a⟩ := tableGet_tableSet_same _ _ _
  have hfirst : handleReply beh (registerReplyHandler w0 m handler (some a)) e1
      = ⟨registerReplyHandler w0 m handler (some a),
          [Effect.apiSendMessage onlyOriginalSenderText e1.threadID (some e1.messageID)],
          none⟩ := by
    unfold handleReply
    simp only [hreply1, hentry]
    rw [if_pos]
    refine ⟨by simp [htruthy], ?_⟩
    intro h
    exact hsender1 (Option.some.inj h)
  rw [hfirst]
  refine ⟨?_, rfl, hentry, ?_⟩
  · intro d h
    simp at h
  · refine (handleReply_authorized beh _ e2 m ⟨handler, some a⟩ hreply2 hentry ?_).2
    rintro ⟨-, hne⟩
    exact hne (by rw [hsender2])

/-- C12 at a concrete input: user `8`, then user `7`, reply to the message
registered for user `7`. -/
theorem handleReply_other_sender_keeps_entry_witness :
    ∃ rest,
      (handleReply quietBehaviour
        (handleReply quietBehaviour (registerReplyHandler emptyWorld "m0" "onReply"
          (some (JsId.str "7"))) (sampleReplyEvent (JsId.str "8") "hello")).world
        (sampleReplyEvent (JsId.str "7") "yes")).effects
        = Effect.replyCallback "m0" ⟨"onReply", some (JsId.str "7")⟩ :: rest :=
  (handleReply_other_sender_keeps_entry quietBehaviour emptyWorld "m0" "onReply" (JsId.str "7")
    (by decide) (sampleReplyEvent (JsId.str "8") "hello") (sampleReplyEvent (JsId.str "7") "yes")
    rfl (by decide) rfl rfl).2.2.2

/-! ### Reaction correlation -/

/-- C13 fails as stated: message `r1` has a reaction correlation registered for
user `7`; a reaction by user `8` runs the continuation and removes the entry. -/
theorem handleReaction_other_user_counterexample :
    tableGet sampleListenerState.reactionData "r1" = some ⟨"onReact", some (JsId.str "7")⟩
      ∧ (sampleReaction (JsId.str "8")).event.senderID ≠ JsId.str "7"
      ∧ (handleReaction quietListener sampleListenerState (sampleReaction (JsId.str "8"))).effects
        = [ListenerEffect.reactionCallback "r1" ⟨"onReact", some (JsId.str "7")⟩ []]
      ∧ tableGet
          (handleReaction quietListener sampleListenerState
            (sampleReaction (JsId.str "8"))).state.reactionData "r1"
        = none := by
  decide

/-- C13, as the code has it: `handleReaction` makes no author check. For a
reaction correlation on a message, whatever author it was registered with, a
`message_reaction` event on that message from any user calls the continuation,
and when the continuation returns the entry is removed. -/
theorem handleReaction_any_user (lb : ListenerBehaviour) (s : ListenerState) (ev : ListenerEvent)
    (info : ReactionInfo)
    (hentry : tableGet s.reactionData ev.event.messageID = some info)
    (hreturns : (lb.reaction s.world info ev).thrown = none) :
    handleReaction lb s ev
        = ⟨{ s with
              world := applyHandler s.world (lb.reaction s.world info ev)
              reactionData := tableDelete s.reactionData ev.event.messageID },
            [ListenerEffect.reactionCallback ev.event.messageID info
              (lb.reaction s.world info ev).effects],
            .next⟩
      ∧ tableGet (handleReaction lb s ev).state.reactionData ev.event.messageID = none := by
  have hrun : handleReaction lb s ev
      = ⟨{ s with
            world := applyHandler s.world (lb.reaction s.world info ev)
            reactionData := tableDelete s.reactionData ev.event.messageID },
          [ListenerEffect.reactionCallback ev.event.messageID info
            (lb.reaction s.world info ev).effects],
          .next⟩ := by
    unfold handleReaction
    simp only [hentry, hreturns]
  refine ⟨hrun, ?_⟩
  rw [hrun]
  exact tableGet_tableDelete_same _ _

/-- C13 at a concrete input: user `8` reacts on message `r1`, registered for user `7`. -/
theorem handleReaction_any_user_witness :
    tableGet
        (handleReaction quietListener sampleListenerState
          (sampleReaction (JsId.str "8"))).state.reactionData
        (sampleReaction (JsId.str "8")).event.messageID
      = none :=
  (handleReaction_any_user quietListener sampleListenerState (sampleReaction (JsId.str "8"))
    ⟨"onReact", some (JsId.str "7")⟩ (by decide) (by decide)).2

/-- C14 on the code: when the continuation of the reaction correlation on
message `r1` throws, `handleReaction` ends with that error before the `delete`
of line 280: the entry for `r1` is still in the reaction table and the next
reaction on `r1` calls the continuation a second time. When the continuation
returns, the entry is removed and the next reaction calls nothing. -/
theorem handleReaction_failure_evaluation :
    (handleReaction failingListener sampleListenerState (sampleReaction (JsId.str "7"))).completion
        = Completion.threw "boom"
      ∧ tableGet
          (handleReaction failingListener sampleListenerState
            (sampleReaction (JsId.str "7"))).state.reactionData "r1"
        = some ⟨"onReact", some (JsId.str "7")⟩
      ∧ (handleReaction failingListener
          (handleReaction failingListener sampleListenerState
            (sampleReaction (JsId.str "7"))).state (sampleReaction (JsId.str "7"))).effects
        = [ListenerEffect.reactionCallback "r1" ⟨"onReact", some (JsId.str "7")⟩ []]
      ∧ (handleReaction quietListener
          (handleReaction quietListener sampleListenerState
            (sampleReaction (JsId.str "7"))).state (sampleReaction (JsId.str "7"))).effects
        = [] := by
  decide

/-! ### Thread lifecycle -/

theorem recordThread_count_apiSendMessage (lb : ListenerBehaviour) (threadID body t : String) :
    (recordThread lb threadID).count (ListenerEffect.apiSendMessage body t) = 0 := by
  unfold recordThread
  split <;> simp

/-- C15: for a `log:subscribe` event whose added participants contain the
bot's own id, when the thread has no active, approved or pending record the
thread is pending and not approved afterwards and the greeting with the thread
id is sent exactly once; when the thread has a pending or approved record the
state is unchanged and no message is sent. Whether the nickname change fails
makes no difference to the outcome. -/
theorem membershipStep_bot_added (lb : ListenerBehaviour) (s : ListenerState) (ev : ListenerEvent)
    (data : LogMessageData)
    (htype : ev.event.type = "event") (hlog : ev.logMessageType = some "log:subscribe")
    (hdata : ev.logMessageData = some data)
    (hbot : s.currentUserID ∈ data.addedParticipants.getD []) :
    (keyHas s.threadState.active ev.event.threadID = false →
      keyHas s.threadState.approved ev.event.threadID = false →
      keyHas s.threadState.pending ev.event.threadID = false →
        keyHas (membershipStep lb s ev).state.threadState.pending ev.event.threadID = true
          ∧ keyHas (membershipStep lb s ev).state.threadState.approved ev.event.threadID = false
          ∧ (membershipStep lb s ev).effects
              = (if s.world.db then recordThread lb ev.event.threadID else [])
                ++ [ListenerEffect.apiSendMessage (greetingText ev.event.threadID)
                      ev.event.threadID,
                    ListenerEffect.changeNickname s.botName ev.event.threadID s.currentUserID]
          ∧ (membershipStep lb s ev).effects.count
              (ListenerEffect.apiSendMessage (greetingText ev.event.threadID) ev.event.threadID)
              = 1)
      ∧ (keyHas s.threadState.pending ev.event.threadID = true
          ∨ keyHas s.threadState.approved ev.event.threadID = true →
        (membershipStep lb s ev).state = s
          ∧ ∀ body t, ListenerEffect.apiSendMessage body t ∉ (membershipStep lb s ev).effects)
      ∧ (∀ f, membershipStep { lb with changeNickname := f } s ev = membershipStep lb s ev) := by
  have hany : (data.addedParticipants.getD []).any (fun userFbId => userFbId = s.currentUserID)
      = true := by
    rw [List.any_eq_true]
    exact ⟨_, hbot, by simp⟩
  have key : ∀ lb' : ListenerBehaviour, membershipStep lb' s ev
      = if !keyHas s.threadState.active ev.event.threadID
            ∧ !keyHas s.threadState.approved ev.event.threadID
            ∧ !keyHas s.threadState.pending ev.event.threadID then
          ⟨{ s with
              threadState :=
                { s.threadState with pending := keySet s.threadState.pending ev.event.threadID } },
            (if s.world.db then recordThread lb' ev.event.threadID else [])
              ++ [ListenerEffect.apiSendMessage (greetingText ev.event.threadID)
                    ev.event.threadID,
                  ListenerEffect.changeNickname s.botName ev.event.threadID s.currentUserID],
            .next⟩
        else ⟨s, if s.world.db then recordThread lb' ev.event.threadID else [], .next⟩ := by
    intro lb'
    unfold membershipStep
    simp only [htype, hlog, hdata, hany, and_self, if_true]
    split
    · split <;> rfl
    · rfl
  refine ⟨fun hactive happroved hpending => ?_, fun hrecord => ?_, fun f => ?_⟩
  · rw [key, if_pos (by simp [hactive, happroved, hpending])]
    refine ⟨?_, happroved, rfl, ?_⟩
    · have hnot : ev.event.threadID ∉ s.threadState.pending := by
        simpa [keyHas] using hpending
      simp [keyHas, keySet, hnot]
    · simp only [List.count_append]
      split
      · rw [recordThread_count_apiSendMessage]
        simp
      · simp
  · rw [key, if_neg]
    · refine ⟨rfl, fun body t hmem => ?_⟩
      have hcount := List.count_pos_iff.mpr hmem
      simp only at hcount
      split at hcount
      · rw [recordThread_count_apiSendMessage] at hcount
        exact absurd hcount (by decide)
      · simp at hcount
    · rintro ⟨-, h2, h3⟩
      rcases hrecord with h | h
      · simp [h] at h3
      · simp [h] at h2
  · rw [key, key]
    rfl

/-- C15 at a concrete input: the bot, user `999`, is added to thread `777`, which
has no record, while the nickname change fails. -/
theorem membershipStep_bot_added_witness :
    keyHas (membershipStep failingListener sampleListenerState
        (sampleSubscribe "777" [JsId.str "5", JsId.str "999"])).state.threadState.pending "777"
      = true :=
  ((membershipStep_bot_added failingListener sampleListenerState
    (sampleSubscribe "777" [JsId.str "5", JsId.str "999"]) ⟨some [JsId.str "5", JsId.str "999"]⟩
    rfl rfl rfl (by decide)).1 (by decide) (by decide) (by decide)).1

theorem dropWhile_eq_self (q : Char → Bool) (l : List Char) (h : ∀ c ∈ l, q c = false) :
    l.dropWhile q = l := by
  cases l with
  | nil => rfl
  | cons c cs => simp [List.dropWhile, h c (List.mem_cons_self _ _)]

theorem trim_eq_self (t : String) (h : ∀ c ∈ t.data, isTrimChar c = false) : trim t = t := by
  apply String.ext
  simp only [trim]
  rw [dropWhile_eq_self _ _ h, dropWhile_eq_self _ _ (fun c hc => h c (List.mem_reverse.mp hc)),
    List.reverse_reverse]

theorem threadId_chars (t : String) (h : matchesSignedDigits t = true) :
    t.data ≠ [] ∧ ∀ c ∈ t.data, c.toNat = 45 ∨ (48 ≤ c.toNat ∧ c.toNat ≤ 57) := by
  obtain ⟨l⟩ := t
  cases l with
  | nil => simp [matchesSignedDigits, matchesDigits] at h
  | cons c cs =>
    refine ⟨by simp, ?_⟩
    simp only [matchesSignedDigits, matchesDigits, List.isEmpty_cons, Bool.not_false,
      Bool.true_and, List.head?_cons, List.tail_cons, Bool.or_eq_true, Bool.and_eq_true,
      List.all_eq_true, decide_eq_true_eq, beq_iff_eq, Option.some.injEq] at h
    intro d hd
    rcases h with h | ⟨hc, -, h⟩
    · exact Or.inr (h d hd)
    · rcases List.mem_cons.mp hd with hd | hd
      · left
        rw [hd, hc]
        rfl
      · exact Or.inr (h d hd)

theorem isTrimChar_threadId_char (c : Char) (h : c.toNat = 45 ∨ (48 ≤ c.toNat ∧ c.toNat ≤ 57)) :
    isTrimChar c = false := by
  have hlist : ([0x09, 0x0A, 0x0B, 0x0C, 0x0D, 0x20, 0xA0, 0x1680, 0x2028, 0x2029, 0x202F,
      0x205F, 0x3000, 0xFEFF] : List Nat).contains c.toNat = false := by
    simp only [List.contains_eq_any_beq, List.any_cons, List.any_nil, Bool.or_false,
      Bool.or_eq_false_iff, beq_eq_false_iff_ne, ne_eq]
    omega
  unfold isTrimChar
  rw [hlist]
  simp only [Bool.false_or, Bool.and_eq_false_iff, decide_eq_false_iff_not]
  omega

/-- A thread id in digits is its own trimmed form and is not the word `pending`. -/
theorem threadId_target (t : String) (h : matchesSignedDigits t = true) :
    trim t = t ∧ ¬(t ≠ "" ∧ toLowerCase t = "pending") := by
  obtain ⟨hne, hchars⟩ := threadId_chars t h
  refine ⟨trim_eq_self t (fun c hc => isTrimChar_threadId_char c (hchars c hc)), ?_⟩
  rintro ⟨-, hlow⟩
  obtain ⟨l⟩ := t
  cases l with
  | nil => exact hne rfl
  | cons c cs =>
    have hc := hchars c (List.mem_cons_self _ _)
    have hlt : c.toNat < 0x80 := by omega
    have hd := congrArg String.data hlow
    simp only [toLowerCase] at hd
    rw [toLowerCaseAux, if_pos hlt, List.singleton_append] at hd
    have hhead : Char.toLower c = Char.ofNat 112 := (List.cons.inj hd).1
    have hnat := congrArg Char.toNat hhead
    unfold Char.toLower at hnat
    simp only at hnat
    split at hnat
    · omega
    · rw [show (Char.ofNat 112).toNat = 112 from rfl] at hnat
      omega

theorem keyHas_keyDelete (m : List String) (k : String) : keyHas (keyDelete m k) k = false := by
  simp [keyHas, keyDelete]

theorem keyHas_keySet (m : List String) (k : String) : keyHas (keySet m k) k = true := by
  unfold keyHas keySet
  split
  · assumption
  · simp

/-- What the `approve` block does for an admin whose message names a thread id
in digits. -/
theorem approveStep_target (s : ListenerState) (ev : ListenerEvent) (body p w0 t : String)
    (rest : List String) (admins : List JsId)
    (htype : ev.event.type = "message") (hbody : truthyString ev.event.body = some body)
    (hpfx : s.world.config.Prefix.head? = some p) (hstarts : startsWith body p = true)
    (hwords : splitSpaces (trim body) = w0 :: t :: rest)
    (hname : toLowerCase (sliceFrom w0 p) = "approve")
    (hadmins : s.world.config.admins = some admins)
    (hadmin : admins.contains ev.event.senderID = true)
    (hid : matchesSignedDigits t = true) :
    approveStep s ev
      = if keyHas s.threadState.pending t then
          ⟨{ s with
              threadState :=
                { s.threadState with
                  pending := keyDelete s.threadState.pending t
                  approved := keySet s.threadState.approved t } },
            [ListenerEffect.apiSendMessage (approvedText t) ev.event.threadID], .next⟩
        else if !keyHas s.threadState.approved t then
          ⟨{ s with
              threadState :=
                { s.threadState with approved := keySet s.threadState.approved t } },
            [ListenerEffect.apiSendMessage (approvedText t) ev.event.threadID], .next⟩
        else ⟨s, [], .next⟩ := by
  obtain ⟨htrim, hword⟩ := threadId_target t hid
  unfold approveStep
  simp only [hbody, htype, hpfx, hstarts, hwords, List.headD_cons, hname, hadmins, hadmin,
    List.drop_succ_cons, List.drop_zero, List.head?_cons, if_true, if_neg hword, htrim, hid,
    Bool.or_true]

/-- C16 fails as stated: user `100` is a moderator (role 2) and not in the
admins list; the message `/approve 123` for the pending thread `123` changes no
thread state and sends nothing. -/
theorem approveStep_moderator_counterexample :
    getUserRole (some sampleListenerState.world.config) (JsId.str "100") = 2
      ∧ keyHas sampleListenerState.threadState.pending "123" = true
      ∧ approveStep sampleListenerState (sampleMessage "t1" (JsId.str "100") "/approve 123")
        = ⟨sampleListenerState, [], .next⟩ := by
  decide

/-- C16, as the code has it: the `approve` block is open to the users whose id
is an element of `config.admins` (compared as it is, without conversion to a
string), not to every role of at least admin. For such a user and a pending
thread id `t` written in digits, the message whose first word is the first
configured prefix followed by `approve` and whose second word is `t` moves `t`
from pending to approved and reports the approval to the thread of the
message. -/
theorem approveStep_admin_pending (s : ListenerState) (ev : ListenerEvent) (body p w0 t : String)
    (rest : List String) (admins : List JsId)
    (htype : ev.event.type = "message") (hbody : truthyString ev.event.body = some body)
    (hpfx : s.world.config.Prefix.head? = some p) (hstarts : startsWith body p = true)
    (hwords : splitSpaces (trim body) = w0 :: t :: rest)
    (hname : toLowerCase (sliceFrom w0 p) = "approve")
    (hadmins : s.world.config.admins = some admins)
    (hadmin : admins.contains ev.event.senderID = true)
    (hid : matchesSignedDigits t = true)
    (hpending : keyHas s.threadState.pending t = true) :
    keyHas (approveStep s ev).state.threadState.pending t = false
      ∧ keyHas (approveStep s ev).state.threadState.approved t = true
      ∧ (approveStep s ev).effects
          = [ListenerEffect.apiSendMessage (approvedText t) ev.event.threadID]
      ∧ (approveStep s ev).state.world = s.world := by
  rw [approveStep_target s ev body p w0 t rest admins htype hbody hpfx hstarts hwords hname
    hadmins hadmin hid, if_pos hpending]
  exact ⟨keyHas_keyDelete _ _, keyHas_keySet _ _, rfl, rfl⟩

/-- C16 at a concrete input: admin `1` sends `/approve 123` for the pending
thread `123`. -/
theorem approveStep_admin_pending_witness :
    keyHas (approveStep sampleListenerState
        (sampleMessage "t1" (JsId.str "1") "/approve 123")).state.threadState.approved "123"
      = true :=
  (approveStep_admin_pending sampleListenerState (sampleMessage "t1" (JsId.str "1") "/approve 123")
    "/approve 123" "/" "/approve" "123" [] [JsId.str "1"] rfl (by decide) (by decide)
    (by decide) (by decide) (by decide) (by decide) (by decide) (by decide) (by decide)).2.1

/-- C18 fails as stated: thread `456` is approved; the message `/approve 456` of
admin `1` leaves the maps unchanged and sends no report. -/
theorem approveStep_approved_counterexample :
    keyHas sampleListenerState.threadState.approved "456" = true
      ∧ (sampleListenerState.world.config.admins.getD []).contains (JsId.str "1") = true
      ∧ approveStep sampleListenerState (sampleMessage "t1" (JsId.str "1") "/approve 456")
        = ⟨sampleListenerState, [], .next⟩ := by
  decide

/-- C18, as the code has it: approving a thread that is already approved (and
not pending) is a no-op without a report: the `approve` message of an admin
leaves the pending and approved maps unchanged and sends nothing. -/
theorem approveStep_already_approved (s : ListenerState) (ev : ListenerEvent)
    (body p w0 t : String) (rest : List String) (admins : List JsId)
    (htype : ev.event.type = "message") (hbody : truthyString ev.event.body = some body)
    (hpfx : s.world.config.Prefix.head? = some p) (hstarts : startsWith body p = true)
    (hwords : splitSpaces (trim body) = w0 :: t :: rest)
    (hname : toLowerCase (sliceFrom w0 p) = "approve")
    (hadmins : s.world.config.admins = some admins)
    (hadmin : admins.contains ev.event.senderID = true)
    (hid : matchesSignedDigits t = true)
    (hpending : keyHas s.threadState.pending t = false)
    (happroved : keyHas s.threadState.approved t = true) :
    approveStep s ev = ⟨s, [], .next⟩ := by
  rw [approveStep_target s ev body p w0 t rest admins htype hbody hpfx hstarts hwords hname
    hadmins hadmin hid]
  simp [hpending, happroved]

/-- C18 at a concrete input: admin `1` sends `/approve 456` for the approved
thread `456`. -/
theorem approveStep_already_approved_witness :
    approveStep sampleListenerState (sampleMessage "t1" (JsId.str "1") "/approve 456")
      = ⟨sampleListenerState, [], .next⟩ :=
  approveStep_already_approved sampleListenerState
    (sampleMessage "t1" (JsId.str "1") "/approve 456") "/approve 456" "/" "/approve" "456" []
    [JsId.str "1"] rfl (by decide) (by decide) (by decide) (by decide) (by decide) (by decide)
    (by decide) (by decide) (by decide) (by decide)

/-- C19 fails as stated: thread `123` is pending; the message `/approve` of
admin `1`, sent in thread `123` without an argument, changes no thread state:
the thread is still pending and not approved. -/
theorem approveStep_no_argument_counterexample :
    keyHas sampleListenerState.threadState.pending "123" = true
      ∧ (sampleListenerState.world.config.admins.getD []).contains (JsId.str "1") = true
      ∧ approveStep sampleListenerState (sampleMessage "123" (JsId.str "1") "/approve")
        = ⟨sampleListenerState, [], .next⟩ := by
  decide

/-- C19, as the code has it: the `approve` block acts only on a thread id given
as an argument. A message without a second word, and a message whose second
word is `pending` in any letter case, change no state and send nothing. -/
theorem approveStep_without_target (s : ListenerState) (ev : ListenerEvent)
    (h : ∀ body, truthyString ev.event.body = some body →
      (splitSpaces (trim body)).drop 1 = []
        ∨ ∃ arg, (List.head? ((splitSpaces (trim body)).drop 1)) = some arg
            ∧ toLowerCase arg = "pending") :
    (approveStep s ev).state = s ∧ (approveStep s ev).effects = [] := by
  unfold approveStep
  cases hbody : truthyString ev.event.body with
  | none => exact ⟨rfl, rfl⟩
  | some body =>
    simp only
    rcases h body hbody with hnone | ⟨arg, harg, hlow⟩
    · rw [hnone]
      simp only [List.head?_nil]
      repeat' split
      all_goals exact ⟨rfl, rfl⟩
    · have hne : arg ≠ "" := by
        intro he
        rw [he] at hlow
        exact absurd hlow (by decide)
      rw [harg]
      simp only [hlow, hne, ne_eq, not_false_eq_true, and_self, if_true]
      repeat' split
      all_goals exact ⟨rfl, rfl⟩

/-- C19 at a concrete input: admin `1` sends `/approve PENDING`. -/
theorem approveStep_without_target_witness :
    (approveStep sampleListenerState (sampleMessage "123" (JsId.str "1") "/approve PENDING")).state
      = sampleListenerState :=
  (approveStep_without_target sampleListenerState
    (sampleMessage "123" (JsId.str "1") "/approve PENDING")
    (fun body hbody =>
      Or.inr ⟨"PENDING", by
        have hb : body = "/approve PENDING" := (Option.some.inj hbody).symm
        subst hb
        decide, by decide⟩)).1

/-! ### The listener -/

theorem handleEvent_frame (lb : ListenerBehaviour) (s : ListenerState) (ev : ListenerEvent) :
    sameOutsideHandlers s (handleEvent lb s ev).1 := by
  unfold handleEvent
  have step : ∀ (commands : List Command) (acc : ListenerState × List ListenerEffect),
      sameOutsideHandlers s acc.1 →
      sameOutsideHandlers s
        (commands.foldl
          (fun acc command =>
            if command.handleEvent then
              let r := lb.handleEvent acc.1.world command ev
              ({ acc.1 with world := applyHandler acc.1.world r },
                acc.2 ++ [ListenerEffect.subscriber command r.effects])
            else acc) acc).1 := by
    intro commands
    induction commands with
    | nil => exact fun _ h => h
    | cons c commands ih =>
      intro acc h
      rw [List.foldl_cons]
      apply ih
      split
      · exact h
      · exact h
  exact step _ _ ⟨rfl, rfl, rfl, rfl, rfl, rfl⟩

theorem replyStep_threadState (lb : ListenerBehaviour) (s : ListenerState) (ev : ListenerEvent) :
    (replyStep lb s ev).state.threadState = s.threadState := by
  unfold replyStep
  repeat' (first | split | dsimp only)

theorem messageStep_threadState (lb : ListenerBehaviour) (now : Nat) (s : ListenerState)
    (ev : ListenerEvent) : (messageStep lb now s ev).state.threadState = s.threadState := by
  unfold messageStep
  repeat' (first | split | dsimp only)

theorem reactionStep_threadState (lb : ListenerBehaviour) (s : ListenerState)
    (ev : ListenerEvent) : (reactionStep lb s ev).state.threadState = s.threadState := by
  unfold reactionStep handleReaction
  repeat' (first | split | dsimp only)

theorem keyHas_keySet_iff (m : List String) (k t : String) :
    keyHas (keySet m k) t = true ↔ keyHas m t = true ∨ t = k := by
  unfold keyHas keySet
  split
  · rename_i hk
    constructor
    · exact Or.inl
    · rintro (h | h)
      · exact h
      · rw [h]
        exact hk
  · simp

theorem keyHas_keyDelete_iff (m : List String) (k t : String) :
    keyHas (keyDelete m k) t = true ↔ keyHas m t = true ∧ t ≠ k := by
  simp [keyHas, keyDelete]

theorem membershipStep_exclusive (lb : ListenerBehaviour) (s : ListenerState)
    (ev : ListenerEvent) (h : pendingApprovedExclusive s.threadState) :
    pendingApprovedExclusive (membershipStep lb s ev).state.threadState := by
  unfold membershipStep
  repeat' (first | split | dsimp only)
  all_goals first
    | exact h
    | (have hfree : (!keyHas s.threadState.active ev.event.threadID) = true
           ∧ (!keyHas s.threadState.approved ev.event.threadID) = true
           ∧ (!keyHas s.threadState.pending ev.event.threadID) = true := by assumption
       intro t ht
       simp only [keyHas_keySet_iff] at ht
       rcases ht.1 with hp | hp
       · exact h t ⟨hp, ht.2⟩
       · rw [hp] at ht
         have hnot := hfree.2.1
         simp [ht.2] at hnot)

theorem approveStep_exclusive (s : ListenerState) (ev : ListenerEvent)
    (h : pendingApprovedExclusive s.threadState) :
    pendingApprovedExclusive (approveStep s ev).state.threadState := by
  unfold approveStep
  repeat' (first | split | dsimp only)
  all_goals first
    | exact h
    | (intro t ht
       simp only [keyHas_keySet_iff, keyHas_keyDelete_iff] at ht
       rcases ht.2 with hp | hp
       · exact h t ⟨ht.1.1, hp⟩
       · exact ht.1.2 hp)
    | (rename_i hnot _
       intro t ht
       simp only [keyHas_keySet_iff] at ht
       rcases ht.2 with hp | hp
       · exact h t ⟨ht.1, hp⟩
       · rw [hp] at ht
         exact hnot ht.1)

theorem andThen_exclusive (o : StepOutcome) (f : ListenerState → StepOutcome)
    (ho : pendingApprovedExclusive o.state.threadState)
    (hf : ∀ s, pendingApprovedExclusive s.threadState →
      pendingApprovedExclusive (f s).state.threadState) :
    pendingApprovedExclusive (o.andThen f).state.threadState := by
  unfold StepOutcome.andThen
  split
  · exact hf _ ho
  · exact ho

/-- C17: the pending and approved thread maps stay mutually exclusive: from a
state in which no thread id is in both maps, the listener reaches, for any
event, a state in which no thread id is in both maps. -/
theorem startListeningForMessages_pending_approved_exclusive (lb : ListenerBehaviour)
    (s : ListenerState) (ev : ListenerEvent) (now : Nat)
    (h : ∀ t, ¬(keyHas s.threadState.pending t = true ∧ keyHas s.threadState.approved t = true)) :
    ∀ t, ¬(keyHas (startListeningForMessages lb s ev now).state.threadState.pending t = true
      ∧ keyHas (startListeningForMessages lb s ev now).state.threadState.approved t = true) := by
  have keep : ∀ (s s' : ListenerState), s'.threadState = s.threadState →
      pendingApprovedExclusive s.threadState → pendingApprovedExclusive s'.threadState := by
    intro s s' heq hs
    rw [heq]
    exact hs
  change pendingApprovedExclusive _
  unfold startListeningForMessages
  refine andThen_exclusive _ _ (andThen_exclusive _ _ (andThen_exclusive _ _
    (andThen_exclusive _ _ (andThen_exclusive _ _ (andThen_exclusive _ _ ?_ ?_) ?_) ?_) ?_) ?_) ?_
  · repeat' split
    all_goals exact h
  · exact fun s hs => keep s _ (handleEvent_frame lb s ev).1 hs
  · exact fun s hs => keep s _ (replyStep_threadState lb s ev) hs
  · exact fun s hs => keep s _ (messageStep_threadState lb now s ev) hs
  · exact fun s hs => keep s _ (reactionStep_threadState lb s ev) hs
  · exact fun s hs => membershipStep_exclusive lb s ev hs
  · exact fun s hs => approveStep_exclusive s ev hs

/-- C17 at a concrete input: admin `1` approves the pending thread `123`. -/
theorem startListeningForMessages_pending_approved_exclusive_witness :
    ¬(keyHas (startListeningForMessages quietListener sampleListenerState
          (sampleMessage "t1" (JsId.str "1") "/approve 123") 10000).state.threadState.pending
          "123" = true
      ∧ keyHas (startListeningForMessages quietListener sampleListenerState
          (sampleMessage "t1" (JsId.str "1") "/approve 123") 10000).state.threadState.approved
          "123" = true) :=
  startListeningForMessages_pending_approved_exclusive quietListener sampleListenerState
    (sampleMessage "t1" (JsId.str "1") "/approve 123") 10000
    (by
      intro t
      have hp : sampleListenerState.threadState.pending = ["123"] := rfl
      have ha : sampleListenerState.threadState.approved = ["456"] := rfl
      rw [hp, ha]
      simp only [keyHas, List.contains_cons, List.contains_nil, Bool.or_false, beq_iff_eq]
      rintro ⟨h1, h2⟩
      rw [h1] at h2
      exact absurd h2 (by decide))
    "123"

theorem invalidCommandText_data (w : World) :
    ∃ cs, invalidCommandText w = ⟨Char.ofNat 73 :: cs⟩ := by
  refine ⟨("nvalid Command!, Use " ++ w.config.Prefix.head?.getD "undefined"
    ++ "help for available commands.").data, ?_⟩
  apply String.ext
  simp only [invalidCommandText, String.data_append, List.append_assoc]
  rfl

theorem sendMessage_invalidCommandText (threadID : String) (hthread : threadID ≠ "") (w : World)
    (messageID : Option String) :
    sendMessage ⟨threadID, invalidCommandText w, messageID⟩
      = .ok [Effect.apiSendMessage (invalidCommandText w) threadID (truthyString messageID)] := by
  obtain ⟨cs, hcs⟩ := invalidCommandText_data w
  have h1 : invalidCommandText w ≠ "" := by
    rw [hcs]
    intro h
    exact absurd (congrArg String.data h) (by simp)
  have h2 : trim (invalidCommandText w) ≠ "" := by
    rw [hcs]
    exact trim_ne_empty _ _ (by decide)
  simp [sendMessage, hthread, h1, h2]

/-- What `handleMessage` does for a command attempt that resolves to no command. -/
theorem handleMessage_unknown_command (beh : Behaviour) (w : World) (event : Event) (now : Nat)
    (hbody : (truthyString event.body).isSome ∨ event.attachments.isSome)
    (hreply : event.messageReply.bind (fun mr => tableGet w.replies mr.messageID) = none)
    (hunknown : (resolveCommand w (messageText event)).command = none)
    (hattempt : (resolveCommand w (messageText event)).isCommandAttempt = true)
    (hban : tableGet (w.bannedUsersFile.getD []) (jsString event.senderID) = none)
    (hthread : event.threadID ≠ "") :
    handleMessage beh w event now
      = ⟨loadBannedUsers w,
          [Effect.apiSendMessage (invalidCommandText w) event.threadID
            (truthyString (some event.messageID))],
          none⟩ := by
  have hres : resolveCommand { w with bannedUsers := w.bannedUsersFile.getD [] } (messageText event)
      = resolveCommand w (messageText event) := rfl
  have htext : invalidCommandText { w with bannedUsers := w.bannedUsersFile.getD [] }
      = invalidCommandText w := rfl
  unfold handleMessage
  rw [if_neg (not_ignored_of_body_or_attachments event hbody)]
  simp only [loadBannedUsers, hreply, Option.isSome_none, hres, hunknown, hattempt, hban, htext,
    if_true, sendMessage_invalidCommandText _ hthread]
  simp

theorem replyStep_of_message (lb : ListenerBehaviour) (s : ListenerState) (ev : ListenerEvent)
    (htype : ev.event.type = "message") : replyStep lb s ev = ⟨s, [], .next⟩ := by
  unfold replyStep
  rw [if_neg]
  rw [htype]
  decide

theorem reactionStep_of_message (lb : ListenerBehaviour) (s : ListenerState) (ev : ListenerEvent)
    (htype : ev.event.type = "message") : reactionStep lb s ev = ⟨s, [], .next⟩ := by
  unfold reactionStep
  rw [if_neg]
  rw [htype]
  decide

theorem membershipStep_of_message (lb : ListenerBehaviour) (s : ListenerState)
    (ev : ListenerEvent) (htype : ev.event.type = "message") :
    membershipStep lb s ev = ⟨s, [], .next⟩ := by
  unfold membershipStep
  rw [if_neg]
  rw [htype]
  rintro ⟨h, -⟩
  exact absurd h (by decide)

/-- What lines 330–334 do for a message that is a command attempt resolving to
no command, when `handleAuroraCommand` returns. -/
theorem messageStep_unknown_command (lb : ListenerBehaviour) (now : Nat) (s : ListenerState)
    (ev : ListenerEvent)
    (haurora : ∀ w e, (lb.aurora w e).thrown = none)
    (htype : ev.event.type = "message") (hnoreply : ev.event.messageReply = none)
    (hunknown : (resolveCommand s.world (messageText ev.event)).command = none)
    (hattempt : (resolveCommand s.world (messageText ev.event)).isCommandAttempt = true)
    (hban : tableGet (s.world.bannedUsersFile.getD []) (jsString ev.event.senderID) = none)
    (hthread : ev.event.threadID ≠ "") :
    messageStep lb now s ev
      = ⟨{ s with
            world := applyHandler (loadBannedUsers s.world)
              (lb.aurora (loadBannedUsers s.world)
                { ev.event with attachments := some (ev.event.attachments.getD []) }) },
          [ListenerEffect.dispatch
              (Effect.apiSendMessage (invalidCommandText s.world) ev.event.threadID
                (truthyString (some ev.event.messageID))),
            ListenerEffect.auroraCommand
              (lb.aurora (loadBannedUsers s.world)
                { ev.event with attachments := some (ev.event.attachments.getD []) }).effects],
          .next⟩ := by
  have hm := handleMessage_unknown_command lb.core s.world
    { ev.event with attachments := some (ev.event.attachments.getD []) } now
    (Or.inr rfl) (by simp [hnoreply]) hunknown hattempt hban hthread
  unfold messageStep
  rw [if_pos (Or.inl htype)]
  simp only [hm, haurora, List.map_cons, List.map_nil, List.singleton_append]

/-- C20 fails as stated: no command named `approve` is registered and thread
`123` is pending; for the message `/approve 123` of admin `1` the listener
first runs `handleMessage`, which sends the unknown-command notice, and then
the `approve` block, which reports the approval. -/
theorem startListeningForMessages_approve_counterexample :
    tableGet sampleListenerState.world.commands "approve" = none
      ∧ (startListeningForMessages quietListener sampleListenerState
          (sampleMessage "t1" (JsId.str "1") "/approve 123") 10000).effects
        = [ListenerEffect.dispatch
              (Effect.apiSendMessage "Invalid Command!, Use /help for available commands." "t1"
                (some "m1")),
            ListenerEffect.auroraCommand [],
            ListenerEffect.apiSendMessage "Thread 123 has been approved." "t1"] := by
  decide

/-- C20, as the code has it: an `approve` message does not bypass command
resolution. For a message of an admin that names a pending thread id `t`, in a
thread that is not banned, the listener first runs `handleMessage`; when the
invoked name resolves to no command and the sender has no ban entry,
`handleMessage` sends the unknown-command notice and starts no cooldown. After
`handleAuroraCommand` has returned, the `approve` block moves `t` from pending
to approved and reports the approval. -/
theorem startListeningForMessages_approve_unknown_command (lb : ListenerBehaviour)
    (s : ListenerState) (ev : ListenerEvent) (now : Nat) (body p w0 t : String)
    (rest : List String) (admins : List JsId)
    (hgate : s.world.db = false ∨ lb.findBannedThread ev.event.threadID = .ok false)
    (haurora : ∀ w e, (lb.aurora w e).thrown = none)
    (htype : ev.event.type = "message") (hnoreply : ev.event.messageReply = none)
    (hbody : truthyString ev.event.body = some body)
    (hpfx : s.world.config.Prefix.head? = some p) (hstarts : startsWith body p = true)
    (hwords : splitSpaces (trim body) = w0 :: t :: rest)
    (hname : toLowerCase (sliceFrom w0 p) = "approve")
    (hadmins : s.world.config.admins = some admins)
    (hadmin : admins.contains ev.event.senderID = true)
    (hid : matchesSignedDigits t = true)
    (hpending : keyHas s.threadState.pending t = true)
    (hunknown : (resolveCommand s.world (messageText ev.event)).command = none)
    (hattempt : (resolveCommand s.world (messageText ev.event)).isCommandAttempt = true)
    (hban : tableGet (s.world.bannedUsersFile.getD []) (jsString ev.event.senderID) = none)
    (hthread : ev.event.threadID ≠ "") :
    (∃ aurora,
        (startListeningForMessages lb s ev now).effects
          = (if s.world.db then [ListenerEffect.findBannedThread ev.event.threadID] else [])
            ++ (handleEvent lb s ev).2
            ++ [ListenerEffect.dispatch
                  (Effect.apiSendMessage (invalidCommandText s.world) ev.event.threadID
                    (truthyString (some ev.event.messageID))),
                ListenerEffect.auroraCommand aurora,
                ListenerEffect.apiSendMessage (approvedText t) ev.event.threadID])
      ∧ (startListeningForMessages lb s ev now).state.world.userCooldowns = s.world.userCooldowns
      ∧ keyHas (startListeningForMessages lb s ev now).state.threadState.pending t = false
      ∧ keyHas (startListeningForMessages lb s ev now).state.threadState.approved t = true := by
  obtain ⟨hts, hcfg, hcmds, hnp, hfile, hcd⟩ := handleEvent_frame lb s ev
  have hres1 : resolveCommand (handleEvent lb s ev).1.world (messageText ev.event)
      = resolveCommand s.world (messageText ev.event) := by
    unfold resolveCommand
    rw [hcfg, hcmds, hnp]
  have htext1 : invalidCommandText (handleEvent lb s ev).1.world = invalidCommandText s.world := by
    unfold invalidCommandText
    rw [hcfg]
  have hmsg := messageStep_unknown_command lb now (handleEvent lb s ev).1 ev haurora htype
    hnoreply (by rw [hres1]; exact hunknown) (by rw [hres1]; exact hattempt)
    (by rw [hfile]; exact hban) hthread
  rw [htext1] at hmsg
  have happ := approveStep_target
    { (handleEvent lb s ev).1 with
      world := applyHandler (loadBannedUsers (handleEvent lb s ev).1.world)
        (lb.aurora (loadBannedUsers (handleEvent lb s ev).1.world)
          { ev.event with attachments := some (ev.event.attachments.getD []) }) }
    ev body p w0 t rest admins htype hbody
    (by
      show (handleEvent lb s ev).1.world.config.Prefix.head? = some p
      rw [hcfg]
      exact hpfx)
    hstarts hwords hname
    (by
      show (handleEvent lb s ev).1.world.config.admins = some admins
      rw [hcfg]
      exact hadmins)
    hadmin hid
  rw [if_pos (by
    show keyHas (handleEvent lb s ev).1.threadState.pending t = true
    rw [hts]
    exact hpending)] at happ
  have hgate' : (if s.world.db = true then
        match lb.findBannedThread ev.event.threadID with
        | .ok true => (⟨s, [ListenerEffect.findBannedThread ev.event.threadID], .returned⟩ :
            StepOutcome)
        | .ok false => ⟨s, [ListenerEffect.findBannedThread ev.event.threadID], .next⟩
        | .error m => ⟨s, [ListenerEffect.findBannedThread ev.event.threadID], .threw m⟩
      else ⟨s, [], .next⟩)
      = ⟨s, if s.world.db then [ListenerEffect.findBannedThread ev.event.threadID] else [],
          .next⟩ := by
    cases hdb : s.world.db with
    | false => rfl
    | true =>
      rcases hgate with h | h
      · rw [hdb] at h
        exact absurd h (by decide)
      · simp only [h, if_true]
  have hrun : startListeningForMessages lb s ev now
      = ⟨{ (handleEvent lb s ev).1 with
            world := applyHandler (loadBannedUsers (handleEvent lb s ev).1.world)
              (lb.aurora (loadBannedUsers (handleEvent lb s ev).1.world)
                { ev.event with attachments := some (ev.event.attachments.getD []) })
            threadState :=
              { (handleEvent lb s ev).1.threadState with
                pending := keyDelete (handleEvent lb s ev).1.threadState.pending t
                approved := keySet (handleEvent lb s ev).1.threadState.approved t } },
          (if s.world.db then [ListenerEffect.findBannedThread ev.event.threadID] else [])
            ++ (handleEvent lb s ev).2
            ++ [ListenerEffect.dispatch
                  (Effect.apiSendMessage (invalidCommandText s.world) ev.event.threadID
                    (truthyString (some ev.event.messageID))),
                ListenerEffect.auroraCommand
                  (lb.aurora (loadBannedUsers (handleEvent lb s ev).1.world)
                    { ev.event with attachments := some (ev.event.attachments.getD []) }).effects,
                ListenerEffect.apiSendMessage (approvedText t) ev.event.threadID],
          .next⟩ := by
    unfold startListeningForMessages
    simp only [hgate', StepOutcome.andThen, replyStep_of_message lb _ ev htype, hmsg,
      reactionStep_of_message lb _ ev htype, membershipStep_of_message lb _ ev htype, happ,
      List.append_nil, List.append_assoc, List.cons_append, List.nil_append]
  rw [hrun]
  refine ⟨⟨_, rfl⟩, ?_, ?_, ?_⟩
  · show (handleEvent lb s ev).1.world.userCooldowns = s.world.userCooldowns
    exact hcd
  · exact keyHas_keyDelete _ _
  · exact keyHas_keySet _ _

/-- C20 at a concrete input: admin `1` sends `/approve 123` while no command is
registered. -/
theorem startListeningForMessages_approve_unknown_command_witness :
    keyHas (startListeningForMessages quietListener sampleListenerState
        (sampleMessage "t1" (JsId.str "1") "/approve 123") 10000).state.threadState.approved "123"
      = true :=
  (startListeningForMessages_approve_unknown_command quietListener sampleListenerState
    (sampleMessage "t1" (JsId.str "1") "/approve 123") 10000 "/approve 123" "/" "/approve" "123"
    [] [JsId.str "1"] (Or.inl rfl) (fun _ _ => rfl) rfl rfl (by decide) (by decide) (by decide)
    (by decide) (by decide) (by decide) (by decide) (by decide) (by decide) (by decide)
    (by decide) (by decide) (by decide)).2.2.2

/-! ### Parsing of the invoked command -/

theorem splitSpacesAux_no_space (cs cur : List Char) (inRun : Bool)
    (hcur : ∀ c ∈ cur, c ≠ space) :
    ∀ piece ∈ splitSpacesAux cs cur inRun, ∀ c ∈ piece.data, c ≠ space := by
  induction cs generalizing cur inRun with
  | nil =>
    intro piece hpiece c hc
    simp only [splitSpacesAux, List.mem_singleton] at hpiece
    rw [hpiece] at hc
    exact hcur c (List.mem_reverse.mp hc)
  | cons d cs ih =>
    intro piece hpiece
    unfold splitSpacesAux at hpiece
    split at hpiece
    · split at hpiece
      · exact ih cur true hcur piece hpiece
      · rcases List.mem_cons.mp hpiece with h | h
        · intro c hc
          rw [h] at hc
          exact hcur c (List.mem_reverse.mp hc)
        · exact ih [] true (fun c hc => absurd hc (List.not_mem_nil c)) piece h
    · rename_i hd
      refine ih (d :: cur) false ?_ piece hpiece
      intro c hc
      rcases List.mem_cons.mp hc with h | h
      · rw [h]
        exact hd
      · exact hcur c h

theorem getLast?_tail_ne_space (d : Char) (cs : List Char)
    (h : (d :: cs).getLast? ≠ some space) (hcs : cs ≠ []) : cs.getLast? ≠ some space := by
  cases cs with
  | nil => exact absurd rfl hcs
  | cons e cs => rwa [List.getLast?_cons_cons] at h

theorem splitSpacesAux_nonempty (cs cur : List Char) (inRun : Bool)
    (hend : cs.getLast? ≠ some space) (hstart : cur ≠ [] ∨ (inRun = true ∧ cs ≠ [])) :
    ∀ piece ∈ splitSpacesAux cs cur inRun, piece ≠ "" := by
  induction cs generalizing cur inRun with
  | nil =>
    intro piece hpiece hempty
    simp only [splitSpacesAux, List.mem_singleton] at hpiece
    rcases hstart with h | ⟨-, h⟩
    · rw [hpiece] at hempty
      have hd := congrArg String.data hempty
      simp only [List.reverse_eq_nil_iff] at hd
      exact h hd
    · exact h rfl
  | cons d cs ih =>
    intro piece hpiece
    unfold splitSpacesAux at hpiece
    split at hpiece
    · rename_i hd
      have hcs : cs ≠ [] := by
        intro hnil
        rw [hnil, hd] at hend
        exact hend rfl
      have hend' := getLast?_tail_ne_space d cs hend hcs
      split at hpiece
      · exact ih cur true hend' (Or.inr ⟨rfl, hcs⟩) piece hpiece
      · rename_i hrun
        rcases List.mem_cons.mp hpiece with h | h
        · rcases hstart with hc | ⟨hr, -⟩
          · intro hempty
            rw [h] at hempty
            have hdata := congrArg String.data hempty
            simp only [List.reverse_eq_nil_iff] at hdata
            exact hc hdata
          · exact absurd hr hrun
        · exact ih [] true hend' (Or.inr ⟨rfl, hcs⟩) piece h
    · have hend' : cs.getLast? ≠ some space := by
        by_cases hcs : cs = []
        · rw [hcs]
          simp
        · exact getLast?_tail_ne_space d cs hend hcs
      exact ih (d :: cur) false hend' (Or.inl (List.cons_ne_nil _ _)) piece hpiece

theorem splitSpacesAux_tail_nonempty (cs cur : List Char) (inRun : Bool)
    (hend : cs.getLast? ≠ some space) :
    ∀ piece ∈ (splitSpacesAux cs cur inRun).drop 1, piece ≠ "" := by
  induction cs generalizing cur inRun with
  | nil =>
    intro piece hpiece
    simp [splitSpacesAux] at hpiece
  | cons d cs ih =>
    intro piece hpiece
    unfold splitSpacesAux at hpiece
    split at hpiece
    · rename_i hd
      have hcs : cs ≠ [] := by
        intro hnil
        rw [hnil, hd] at hend
        exact hend rfl
      have hend' := getLast?_tail_ne_space d cs hend hcs
      split at hpiece
      · exact ih cur true hend' piece hpiece
      · simp only [List.drop_succ_cons, List.drop_zero] at hpiece
        exact splitSpacesAux_nonempty cs [] true hend' (Or.inr ⟨rfl, hcs⟩) piece hpiece
    · have hend' : cs.getLast? ≠ some space := by
        by_cases hcs : cs = []
        · rw [hcs]
          simp
        · exact getLast?_tail_ne_space d cs hend hcs
      exact ih (d :: cur) false hend' piece hpiece

theorem trim_getLast? (s : String) : (trim s).data.getLast? ≠ some space := by
  simp only [trim, List.getLast?_reverse]
  have h := List.head?_dropWhile_not isTrimChar (s.data.dropWhile isTrimChar).reverse
  intro hlast
  rw [hlast] at h
  simp only at h
  exact absurd h (by decide)

theorem messageText_getLast? (event : Event) :
    (messageText event).data.getLast? ≠ some space := by
  unfold messageText
  split
  · exact trim_getLast? _
  · simp

theorem splitOn_space_cons (d : Char) (cs : List Char) :
    (d :: cs).splitOn space
      = if d = space then [] :: cs.splitOn space
        else (cs.splitOn space).modifyHead (List.cons d) := by
  simp only [List.splitOn, List.splitOnP_cons, beq_iff_eq]

theorem splitOn_space_ne_nil (cs : List Char) : cs.splitOn space ≠ [] := by
  simp only [List.splitOn]
  exact List.splitOnP_ne_nil _ _

theorem splitSpacesAux_eq_splitOn (cs : List Char) (hend : cs.getLast? ≠ some space) :
    (∀ cur, splitSpacesAux cs cur false
        = ⟨cur.reverse ++ (cs.splitOn space).headD []⟩
          :: (((cs.splitOn space).tail.filter (fun piece => piece ≠ [])).map String.mk))
      ∧ (cs ≠ [] → splitSpacesAux cs [] true
        = ((cs.splitOn space).filter (fun piece => piece ≠ [])).map String.mk) := by
  induction cs with
  | nil =>
    refine ⟨fun cur => ?_, fun h => absurd rfl h⟩
    simp [splitSpacesAux, List.splitOn, List.splitOnP_nil]
  | cons d cs ih =>
    obtain ⟨first, more, hS⟩ : ∃ first more, cs.splitOn space = first :: more := by
      cases hc : cs.splitOn space with
      | nil => exact absurd hc (splitOn_space_ne_nil cs)
      | cons first more => exact ⟨first, more, rfl⟩
    by_cases hd : d = space
    · have hcs : cs ≠ [] := by
        intro hnil
        rw [hnil, hd] at hend
        exact hend rfl
      obtain ⟨-, ihB⟩ := ih (getLast?_tail_ne_space d cs hend hcs)
      refine ⟨fun cur => ?_, fun _ => ?_⟩
      · rw [splitOn_space_cons, if_pos hd]
        simp [splitSpacesAux, hd, ihB hcs]
      · rw [splitOn_space_cons, if_pos hd]
        simp [splitSpacesAux, hd, ihB hcs]
    · have hend' : cs.getLast? ≠ some space := by
        by_cases hcs : cs = []
        · rw [hcs]
          simp
        · exact getLast?_tail_ne_space d cs hend hcs
      obtain ⟨ihA, -⟩ := ih hend'
      refine ⟨fun cur => ?_, fun _ => ?_⟩
      · rw [splitOn_space_cons, if_neg hd, hS]
        simp [splitSpacesAux, hd, ihA, hS]
      · rw [splitOn_space_cons, if_neg hd, hS]
        simp [splitSpacesAux, hd, ihA, hS]

theorem splitSpaces_eq_tokensBetweenSpaces (s : String)
    (hend : s.data.getLast? ≠ some space) : splitSpaces s = tokensBetweenSpaces s := by
  unfold splitSpaces tokensBetweenSpaces
  rw [(splitSpacesAux_eq_splitOn s.data hend).1 []]
  cases hS : s.data.splitOn space with
  | nil => exact absurd hS (splitOn_space_ne_nil _)
  | cons first more => simp

theorem splitSpacesAux_covers (cs cur : List Char) (inRun : Bool) (c : Char)
    (hc : c ∈ cur ∨ c ∈ cs) (hne : c ≠ space) :
    ∃ piece ∈ splitSpacesAux cs cur inRun, c ∈ piece.data := by
  induction cs generalizing cur inRun with
  | nil =>
    rcases hc with h | h
    · exact ⟨⟨cur.reverse⟩, by simp [splitSpacesAux], by simpa using h⟩
    · exact absurd h (List.not_mem_nil c)
  | cons d cs ih =>
    unfold splitSpacesAux
    by_cases hd : d = space
    · rw [if_pos hd]
      have hcs : c ∈ cur ∨ c ∈ cs := by
        rcases hc with h | h
        · exact Or.inl h
        · rcases List.mem_cons.mp h with h | h
          · exact absurd (h.trans hd) hne
          · exact Or.inr h
      split
      · exact ih cur true hcs
      · rcases hcs with h | h
        · exact ⟨⟨cur.reverse⟩, List.mem_cons_self _ _, by simpa using h⟩
        · obtain ⟨piece, hp, hcp⟩ := ih [] true (Or.inr h)
          exact ⟨piece, List.mem_cons_of_mem _ hp, hcp⟩
    · rw [if_neg hd]
      refine ih (d :: cur) false ?_
      rcases hc with h | h
      · exact Or.inl (List.mem_cons_of_mem _ h)
      · rcases List.mem_cons.mp h with h | h
        · exact Or.inl (h ▸ List.mem_cons_self _ _)
        · exact Or.inr h

/-- C21 fails as stated: the dispatcher splits on spaces only. In `/say one`,
a tab, `two` the tab does not separate: the single argument contains
whitespace; in `/help`, a tab, `me now` the invoked name contains the tab. -/
theorem resolveCommand_tab_counterexample :
    startsWith "/say one\ttwo" "/" = true
      ∧ (resolveCommand sampleWorld "/say one\ttwo").args = ["one\ttwo"]
      ∧ isTrimChar (Char.ofNat 9) = true
      ∧ Char.ofNat 9 ∈ ("one\ttwo" : String).data
      ∧ (resolveCommand sampleWorld "/help\tme now").commandName = "help\tme"
      ∧ (resolveCommand sampleWorld "/help\tme now").args = ["now"] := by
  decide

/-- C21, as the code has it: for a message that starts with a configured
prefix, the dispatcher takes the first prefix of the configuration, in its
order, that the message starts with, strips it, and splits the rest at the runs
of spaces (U+0020) only: the pieces are those of the reference
`tokensBetweenSpaces`, and every character of the rest other than a space, a
tab or a newline included, stays inside a piece. The invoked name is the
lower-cased first piece, `args` is the list of the remaining pieces, no piece
contains a space and no argument is empty. -/
theorem resolveCommand_prefixed (w : World) (event : Event)
    (h : ∃ p ∈ w.config.Prefix, startsWith (messageText event) p = true) :
    ∃ p earlier later,
      w.config.Prefix = earlier ++ p :: later
        ∧ (∀ q ∈ earlier, startsWith (messageText event) q = false)
        ∧ startsWith (messageText event) p = true
        ∧ splitSpaces (sliceFrom (messageText event) p)
          = tokensBetweenSpaces (sliceFrom (messageText event) p)
        ∧ (resolveCommand w (messageText event)).commandName
          = toLowerCase ((tokensBetweenSpaces (sliceFrom (messageText event) p)).headD "")
        ∧ (resolveCommand w (messageText event)).args
          = (tokensBetweenSpaces (sliceFrom (messageText event) p)).drop 1
        ∧ (∀ token ∈ tokensBetweenSpaces (sliceFrom (messageText event) p),
            ∀ c ∈ token.data, c ≠ space)
        ∧ (∀ c ∈ (sliceFrom (messageText event) p).data, c ≠ space →
            ∃ token ∈ tokensBetweenSpaces (sliceFrom (messageText event) p), c ∈ token.data)
        ∧ (∀ a ∈ (resolveCommand w (messageText event)).args, a ≠ "") := by
  obtain ⟨q, hq, hsq⟩ := h
  cases hfind : w.config.Prefix.find? (fun p => startsWith (messageText event) p) with
  | none =>
    rw [List.find?_eq_none] at hfind
    exact absurd hsq (hfind q hq)
  | some p =>
    have hname : (resolveCommand w (messageText event)).commandName
        = toLowerCase ((splitSpaces (sliceFrom (messageText event) p)).headD "") := by
      unfold resolveCommand
      simp only [hfind]
      split
      · rfl
      · split <;> rfl
    have hargs : (resolveCommand w (messageText event)).args
        = (splitSpaces (sliceFrom (messageText event) p)).drop 1 := by
      unfold resolveCommand
      simp only [hfind]
      split
      · rfl
      · split <;> rfl
    have hend : (sliceFrom (messageText event) p).data.getLast? ≠ some space := by
      simp only [sliceFrom, List.getLast?_drop]
      split
      · simp
      · exact messageText_getLast? event
    have hsplit := splitSpaces_eq_tokensBetweenSpaces _ hend
    obtain ⟨hp, earlier, later, hlist, hearlier⟩ := List.find?_eq_some.mp hfind
    refine ⟨p, earlier, later, hlist, ?_, hp, hsplit, ?_, ?_, ?_, ?_, ?_⟩
    · intro r hr
      simpa using hearlier r hr
    · rw [hname, hsplit]
    · rw [hargs, hsplit]
    · rw [← hsplit]
      exact splitSpacesAux_no_space _ [] false (fun c hc => absurd hc (List.not_mem_nil c))
    · intro c hc hne
      rw [← hsplit]
      exact splitSpacesAux_covers _ [] false c (Or.inr hc) hne
    · rw [hargs]
      exact splitSpacesAux_tail_nonempty _ [] false hend

/-- C21 at a concrete input: the message `/SAY one`, a tab, `two  three` in the
sample state, where the tab stays inside the first argument. -/
theorem resolveCommand_prefixed_witness :
    (resolveCommand sampleWorld (messageText (sampleEvent "/SAY one\ttwo  three"))).commandName
        = "say"
      ∧ (resolveCommand sampleWorld (messageText (sampleEvent "/SAY one\ttwo  three"))).args
        = ["one\ttwo", "three"]
      ∧ ∃ p earlier later,
        sampleWorld.config.Prefix = earlier ++ p :: later
          ∧ (∀ q ∈ earlier, startsWith (messageText (sampleEvent "/SAY one\ttwo  three")) q = false)
          ∧ startsWith (messageText (sampleEvent "/SAY one\ttwo  three")) p = true
          ∧ splitSpaces (sliceFrom (messageText (sampleEvent "/SAY one\ttwo  three")) p)
            = tokensBetweenSpaces (sliceFrom (messageText (sampleEvent "/SAY one\ttwo  three")) p)
          ∧ (resolveCommand sampleWorld
              (messageText (sampleEvent "/SAY one\ttwo  three"))).commandName
            = toLowerCase ((tokensBetweenSpaces
                (sliceFrom (messageText (sampleEvent "/SAY one\ttwo  three")) p)).headD "")
          ∧ (resolveCommand sampleWorld (messageText (sampleEvent "/SAY one\ttwo  three"))).args
            = (tokensBetweenSpaces
                (sliceFrom (messageText (sampleEvent "/SAY one\ttwo  three")) p)).drop 1
          ∧ (∀ token ∈ tokensBetweenSpaces
                (sliceFrom (messageText (sampleEvent "/SAY one\ttwo  three")) p),
              ∀ c ∈ token.data, c ≠ space)
          ∧ (∀ c ∈ (sliceFrom (messageText (sampleEvent "/SAY one\ttwo  three")) p).data,
              c ≠ space →
              ∃ token ∈ tokensBetweenSpaces
                  (sliceFrom (messageText (sampleEvent "/SAY one\ttwo  three")) p),
                c ∈ token.data)
          ∧ (∀ a ∈ (resolveCommand sampleWorld
                (messageText (sampleEvent "/SAY one\ttwo  three"))).args, a ≠ "") :=
  ⟨by decide, by decide,
    resolveCommand_prefixed sampleWorld (sampleEvent "/SAY one\ttwo  three")
      ⟨"/", by decide, by decide⟩⟩

/-! ### The unknown-command notice -/

theorem invalidCommandText_ne_moderatorsOnlyText (w : World) :
    invalidCommandText w ≠ moderatorsOnlyText := by
  obtain ⟨cs, hcs⟩ := invalidCommandText_data w
  rw [hcs]
  intro h
  have hd : some (Char.ofNat 73) = moderatorsOnlyText.data.head? :=
    congrArg (fun t : String => t.data.head?) h
  exact absurd hd (by decide)

theorem invalidCommandText_ne_waitMessage (w : World) (remaining : Int) (n : String) :
    invalidCommandText w ≠ waitMessage remaining n := by
  obtain ⟨cs, hcs⟩ := invalidCommandText_data w
  obtain ⟨ds, hds⟩ := waitMessage_data remaining n
  rw [hcs, hds]
  intro h
  have hd : some (Char.ofNat 73) = some (Char.ofNat 80) :=
    congrArg (fun t : String => t.data.head?) h
  exact absurd hd (by decide)

theorem invalidCommandText_ne_maintenanceText (w : World) (n : String) :
    invalidCommandText w ≠ maintenanceText n := by
  intro h
  have hd := congrArg (fun t : String => t.data.reverse.take 2) h
  simp only [invalidCommandText, maintenanceText, String.data_append, List.reverse_append] at hd
  have h1 : ∀ l : List Char,
      (("help for available commands." : String).data.reverse ++ l).take 2
        = [Char.ofNat 46, Char.ofNat 115] := fun _ => rfl
  have h2 : ∀ l : List Char,
      ((" Command is under maintenance please wait.." : String).data.reverse ++ l).take 2
        = [Char.ofNat 46, Char.ofNat 46] := fun _ => rfl
  rw [h1, h2] at hd
  exact absurd hd (by decide)

theorem checkCooldown_eq_some (cooldowns : List (String × Int)) (u : JsId) (n : String)
    (x : Int) (now : Nat) (msg : String) (h : checkCooldown cooldowns u n x now = some msg) :
    ∃ remaining, msg = waitMessage remaining n := by
  unfold checkCooldown at h
  simp only at h
  split at h
  · split at h
    · exact ⟨_, (Option.some.inj h).symm⟩
    · exact absurd h (by simp)
  · exact absurd h (by simp)

/-- What `handleMessage` does when lines 210–228 resolve a command for a sender
without a ban entry: the role gate, the maintenance gate, the cooldown gate and
the call of the entry point. -/
theorem handleMessage_resolved (beh : Behaviour) (w : World) (event : Event) (now : Nat)
    (c : Command)
    (hbody : (truthyString event.body).isSome ∨ event.attachments.isSome)
    (hreply : event.messageReply.bind (fun mr => tableGet w.replies mr.messageID) = none)
    (hcmd : (resolveCommand w (messageText event)).command = some c)
    (hban : tableGet (w.bannedUsersFile.getD []) (jsString event.senderID) = none) :
    handleMessage beh w event now =
      if (getUserRole (some w.config) event.senderID : Int) < commandRole c then
        ⟨loadBannedUsers w,
          [Effect.apiSendMessage moderatorsOnlyText event.threadID (some event.messageID)], none⟩
      else if (w.disabledCommands.getD []).contains
          (resolveCommand w (messageText event)).commandName then
        ⟨loadBannedUsers w,
          [Effect.apiSendMessage (maintenanceText (resolveCommand w (messageText event)).commandName)
            event.threadID (some event.messageID)], none⟩
      else
        match checkCooldown w.userCooldowns event.senderID
            (resolveCommand w (messageText event)).commandName (effectiveCooldown c) now with
        | some cooldownMessage =>
          match sendMessage ⟨event.threadID, cooldownMessage, some event.messageID⟩ with
          | .ok effs => ⟨loadBannedUsers w, effs, none⟩
          | .error e => ⟨loadBannedUsers w, [], some e⟩
        | none =>
          invokeCommand beh
            { loadBannedUsers w with
              userCooldowns := setCooldown w.userCooldowns event.senderID
                (resolveCommand w (messageText event)).commandName (effectiveCooldown c) now }
            event c (resolveCommand w (messageText event)).commandName
            (resolveCommand w (messageText event)).args := by
  have hres : resolveCommand { w with bannedUsers := w.bannedUsersFile.getD [] } (messageText event)
      = resolveCommand w (messageText event) := rfl
  unfold handleMessage
  rw [if_neg (not_ignored_of_body_or_attachments event hbody)]
  simp only [loadBannedUsers, hreply, Option.isSome_none, hres, hcmd, hban, ite_self]
  simp

/-- What `handleMessage` does for a message that starts with no configured
prefix and whose first word is no registered prefix-free command. -/
theorem handleMessage_no_attempt (beh : Behaviour) (w : World) (event : Event) (now : Nat)
    (hbody : (truthyString event.body).isSome ∨ event.attachments.isSome)
    (hreply : event.messageReply.bind (fun mr => tableGet w.replies mr.messageID) = none)
    (hnone : ∀ p ∈ w.config.Prefix, startsWith (messageText event) p = false)
    (hfree : tableGet w.nonPrefixCommands
      (toLowerCase ((splitSpaces (messageText event)).headD "")) = none) :
    handleMessage beh w event now = ⟨loadBannedUsers w, [], none⟩ := by
  have hfind : w.config.Prefix.find? (fun p => startsWith (messageText event) p) = none := by
    rw [List.find?_eq_none]
    intro p hp
    rw [hnone p hp]
    decide
  have hres : resolveCommand { w with bannedUsers := w.bannedUsersFile.getD [] } (messageText event)
      = ⟨toLowerCase ((splitSpaces (messageText event)).headD ""),
          (splitSpaces (messageText event)).drop 1, none, false⟩ := by
    unfold resolveCommand
    simp only [hfind, hfree]
  unfold handleMessage
  rw [if_neg (not_ignored_of_body_or_attachments event hbody)]
  simp only [loadBannedUsers, hreply, Option.isSome_none, hres]
  simp

/-- C22 fails as stated: message `m0` has a live reply correlation for user `7`,
who has no ban entry. A reply of user `7` to `m0` with the text `/zzz` starts
with the prefix and resolves to no command, yet no unknown-command notice is
sent: the continuation is called. A reply with the plain text `hello` starts
with no prefix and is no prefix-free command, yet the continuation is called. -/
theorem handleMessage_reply_counterexample :
    tableGet (sampleReplyWorld.bannedUsersFile.getD []) "7" = none
      ∧ startsWith (messageText (sampleReplyEvent (JsId.str "7") "/zzz")) "/" = true
      ∧ (resolveCommand sampleReplyWorld
          (messageText (sampleReplyEvent (JsId.str "7") "/zzz"))).command = none
      ∧ (handleMessage quietBehaviour sampleReplyWorld (sampleReplyEvent (JsId.str "7") "/zzz")
          10000).effects
        = [Effect.replyCallback "m0" ⟨"onReply", some (JsId.str "7")⟩]
      ∧ startsWith (messageText (sampleReplyEvent (JsId.str "7") "hello")) "/" = false
      ∧ (handleMessage quietBehaviour sampleReplyWorld (sampleReplyEvent (JsId.str "7") "hello")
          10000).effects
        = [Effect.replyCallback "m0" ⟨"onReply", some (JsId.str "7")⟩] := by
  decide

/-- C22, as the code has it: take an event that carries a body or attachments,
is not a reply to a message with a live reply correlation, and has a thread id.
For a sender without a ban entry: when the message starts with a configured
prefix and resolves to no command, `handleMessage` sends the unknown-command
notice and nothing else; when it resolves to a command, the notice is not among
the calls made, or the call went on to the entry point of that command. When
the message starts with no configured prefix and its first word is no
registered prefix-free command, `handleMessage` makes no call and leaves the
cooldown table as it was, whether or not the sender is banned. -/
theorem handleMessage_unknown_notice (beh : Behaviour) (w : World) (event : Event) (now : Nat)
    (hbody : (truthyString event.body).isSome ∨ event.attachments.isSome)
    (hreply : event.messageReply.bind (fun mr => tableGet w.replies mr.messageID) = none)
    (hthread : event.threadID ≠ "") :
    (tableGet (w.bannedUsersFile.getD []) (jsString event.senderID) = none →
      (∃ p ∈ w.config.Prefix, startsWith (messageText event) p = true) →
      (resolveCommand w (messageText event)).command = none →
        handleMessage beh w event now
          = ⟨loadBannedUsers w,
              [Effect.apiSendMessage (invalidCommandText w) event.threadID
                (truthyString (some event.messageID))],
              none⟩)
      ∧ (tableGet (w.bannedUsersFile.getD []) (jsString event.senderID) = none →
        ∀ c, (resolveCommand w (messageText event)).command = some c →
          (∀ replyTo, Effect.apiSendMessage (invalidCommandText w) event.threadID replyTo
              ∉ (handleMessage beh w event now).effects)
            ∨ handleMessage beh w event now
              = invokeCommand beh
                  { loadBannedUsers w with
                    userCooldowns := setCooldown w.userCooldowns event.senderID
                      (resolveCommand w (messageText event)).commandName (effectiveCooldown c)
                      now }
                  event c (resolveCommand w (messageText event)).commandName
                  (resolveCommand w (messageText event)).args)
      ∧ ((∀ p ∈ w.config.Prefix, startsWith (messageText event) p = false) →
        tableGet w.nonPrefixCommands
            (toLowerCase ((splitSpaces (messageText event)).headD "")) = none →
          handleMessage beh w event now = ⟨loadBannedUsers w, [], none⟩
            ∧ (handleMessage beh w event now).world.userCooldowns = w.userCooldowns) := by
  refine ⟨fun hban hstart hnone => ?_, fun hban c hcmd => ?_, fun hstart hfree => ?_⟩
  · exact handleMessage_unknown_command beh w event now hbody hreply hnone
      ( isCommandAttempt_of_prefix w _ hstart) hban hthread
  · rw [handleMessage_resolved beh w event now c hbody hreply hcmd hban]
    split
    · left
      intro replyTo hmem
      simp only [List.mem_singleton, Effect.apiSendMessage.injEq] at hmem
      exact invalidCommandText_ne_moderatorsOnlyText w hmem.1
    · split
      · left
        intro replyTo hmem
        simp only [List.mem_singleton, Effect.apiSendMessage.injEq] at hmem
        exact invalidCommandText_ne_maintenanceText w _ hmem.1
      · split
        · rename_i msg hmsg
          obtain ⟨remaining, hrem⟩ := checkCooldown_eq_some _ _ _ _ _ _ hmsg
          left
          intro replyTo hmem
          rw [hrem, sendMessage_waitMessage _ hthread] at hmem
          simp only [List.mem_singleton, Effect.apiSendMessage.injEq] at hmem
          exact invalidCommandText_ne_waitMessage w _ _ hmem.1
        · right
          rfl
  · rw [handleMessage_no_attempt beh w event now hbody hreply hstart hfree]
    exact ⟨rfl, rfl⟩

/-- C22 at a concrete input: `/zzz` and `hello` as plain messages of user `7`. -/
theorem handleMessage_unknown_notice_witness :
    handleMessage quietBehaviour sampleWorld (sampleEvent "/zzz") 10000
        = ⟨loadBannedUsers sampleWorld,
            [Effect.apiSendMessage "Invalid Command!, Use /help for available commands." "t1"
              (some "m1")],
            none⟩
      ∧ handleMessage quietBehaviour sampleWorld (sampleEvent "hello") 10000
        = ⟨loadBannedUsers sampleWorld, [], none⟩ :=
  ⟨(handleMessage_unknown_notice quietBehaviour sampleWorld (sampleEvent "/zzz") 10000
      (Or.inl (by decide)) (by decide) (by decide)).1 (by decide)
      ⟨"/", by decide, by decide⟩ (by decide),
    ((handleMessage_unknown_notice quietBehaviour sampleWorld (sampleEvent "hello") 10000
      (Or.inl (by decide)) (by decide) (by decide)).2.2
      (by
        intro p hp
        have hP : sampleWorld.config.Prefix = ["/"] := rfl
        rw [hP, List.mem_singleton] at hp
        subst hp
        decide)
      (by decide)).1⟩

/-! ### The call of the entry point -/

theorem errorNotice_data (n m : String) : ∃ cs, errorNotice n m = ⟨Char.ofNat 69 :: cs⟩ := by
  refine ⟨("rror executing command \x27" ++ n ++ "\x27: " ++ m).data, ?_⟩
  apply String.ext
  simp only [errorNotice, String.data_append, List.append_assoc]
  rfl

theorem sendMessage_errorNotice (threadID : String) (hthread : threadID ≠ "") (n m : String) :
    sendMessage ⟨threadID, errorNotice n m, none⟩
      = .ok [Effect.apiSendMessage (errorNotice n m) threadID none] := by
  obtain ⟨cs, hcs⟩ := errorNotice_data n m
  have h1 : errorNotice n m ≠ "" := by
    rw [hcs]
    intro h
    exact absurd (congrArg String.data h) (by simp)
  have h2 : trim (errorNotice n m) ≠ "" := by
    rw [hcs]
    exact trim_ne_empty _ _ (by decide)
  simp [sendMessage, hthread, h1, h2, truthyString]

/-- C23: when a command's `run` or `execute` throws an error with message `m`
after the call has passed every gate, `handleMessage` completes without an
error of its own, and after the calls the entry point made it sends exactly one
notice, the `Error executing command` text with the invoked name and `m`. -/
theorem handleMessage_handler_throws (beh : Behaviour) (w : World) (event : Event) (now : Nat)
    (c : Command) (n m : String) (entry : EntryPoint)
    (hgate : reachesCooldownGate w event c n)
    (hready : checkCooldown w.userCooldowns event.senderID n (effectiveCooldown c) now = none)
    (hthread : event.threadID ≠ "")
    (hentry : (if c.execute then some EntryPoint.execute
      else if c.run then some EntryPoint.run else none) = some entry)
    (hthrows : (beh.command
        { loadBannedUsers w with
          userCooldowns := setCooldown w.userCooldowns event.senderID n (effectiveCooldown c) now }
        c entry event (resolveCommand w (messageText event)).args).thrown = some m) :
    (handleMessage beh w event now).error = none
      ∧ (handleMessage beh w event now).effects
        = Effect.invoke entry c (resolveCommand w (messageText event)).args w.config.Prefix.head?
            :: ((beh.command
                { loadBannedUsers w with
                  userCooldowns :=
                    setCooldown w.userCooldowns event.senderID n (effectiveCooldown c) now }
                c entry event (resolveCommand w (messageText event)).args).effects
              ++ [Effect.apiSendMessage (errorNotice n m) event.threadID none]) := by
  rw [handleMessage_at_cooldownGate beh w event now c n hgate, hready]
  unfold invokeCommand
  simp only [hentry, hthrows, sendMessage_errorNotice _ hthread]
  constructor <;> trivial

/-- C23 at a concrete input: the handler of `/help` throws `boom`. -/
theorem handleMessage_handler_throws_witness :
    (handleMessage throwingBehaviour sampleWorld (sampleEvent "/help") 10000).effects
      = [Effect.invoke EntryPoint.run sampleHelp [] (some "/"),
          Effect.apiSendMessage "Error executing command \x27help\x27: boom" "t1" none] :=
  (handleMessage_handler_throws throwingBehaviour sampleWorld (sampleEvent "/help") 10000
    sampleHelp "help" "boom" EntryPoint.run (by decide) (by decide) (by decide) (by decide)
    rfl).2

/-- C24 on the code: the handler of `/help` returns, a database is configured
and the upsert of the user record fails with `db down`; `handleMessage` sends
the `Error executing command` notice with that message to the thread. -/
theorem handleMessage_upsert_failure_evaluation :
    (quietBehaviour.command sampleDbWorld sampleHelp EntryPoint.run (sampleEvent "/help")
        []).thrown = none
      ∧ failingUpsertBehaviour.updateOne (JsId.str "7") = some "db down"
      ∧ (handleMessage failingUpsertBehaviour sampleDbWorld (sampleEvent "/help") 10000).effects
        = [Effect.invoke EntryPoint.run sampleHelp [] (some "/"),
            Effect.updateOne (JsId.str "7"),
            Effect.apiSendMessage "Error executing command \x27help\x27: db down" "t1" none]
      ∧ (handleMessage failingUpsertBehaviour sampleDbWorld (sampleEvent "/help") 10000).error
        = none := by
  decide

/-- The thread-ban gate under the reading of `startListeningForMessages`: when
a database is configured and the thread of an inbound event has a record in the
banned threads, the callback makes the lookup and nothing else, and the state
is unchanged. -/
theorem startListeningForMessages_banned_thread (lb : ListenerBehaviour) (s : ListenerState)
    (ev : ListenerEvent) (now : Nat) (hdb : s.world.db = true)
    (hbanned : lb.findBannedThread ev.event.threadID = .ok true) :
    startListeningForMessages lb s ev now
      = ⟨s, [ListenerEffect.findBannedThread ev.event.threadID], .returned⟩ := by
  unfold startListeningForMessages
  simp only [hdb, hbanned, if_true, StepOutcome.andThen]

/-- The two readings of the unclosed block of line 308 at `/help` from user `7`
in the banned thread `t1`: with the block ending on line 390 the event is
dropped after the lookup; with the block ending after line 309 the command is
dispatched, its entry point is called and the cooldown entry is written. -/
theorem startListeningForMessages_banned_thread_readings :
    startListeningForMessages bannedThreadListener sampleDbListenerState
        (sampleMessage "t1" (JsId.str "7") "/help") 10000
      = ⟨sampleDbListenerState, [ListenerEffect.findBannedThread "t1"], .returned⟩
      ∧ (startListeningForMessagesIndented bannedThreadListener sampleDbListenerState
          (sampleMessage "t1" (JsId.str "7") "/help") 10000).effects
        = [ListenerEffect.findBannedThread "t1",
            ListenerEffect.dispatch (Effect.invoke EntryPoint.run sampleHelp [] (some "/")),
            ListenerEffect.dispatch (Effect.updateOne (JsId.str "7")),
            ListenerEffect.auroraCommand []]
      ∧ (startListeningForMessagesIndented bannedThreadListener sampleDbListenerState
          (sampleMessage "t1" (JsId.str "7") "/help") 10000).state.world.userCooldowns
        = [("7:help", 13000)] := by
  decide

/-- C26: a call that passes the ban, role, maintenance and cooldown gates at
time `t0` writes the cooldown entry before the entry point is called: the entry
point runs in the state that holds the entry, and afterwards, whatever the
entry point did and also when it threw, the entry of the sender and the invoked
name is `t0` plus the effective cooldown. A retry by the same sender under the
same name before that time is rejected by the cooldown gate, an immediate one
included when the declared cooldown is not negative. -/
theorem handleMessage_cooldown_written_first (beh : Behaviour) (w : World) (event : Event)
    (t0 : Nat) (c : Command) (n : String)
    (hgate : reachesCooldownGate w event c n)
    (hready : checkCooldown w.userCooldowns event.senderID n (effectiveCooldown c) t0 = none) :
    handleMessage beh w event t0
        = invokeCommand beh
            { loadBannedUsers w with
              userCooldowns := setCooldown w.userCooldowns event.senderID n (effectiveCooldown c)
                t0 }
            event c n (resolveCommand w (messageText event)).args
      ∧ tableGet (handleMessage beh w event t0).world.userCooldowns
          (cooldownKey event.senderID n)
        = some ((t0 : Int) + effectiveCooldown c * 1000)
      ∧ (∀ (retry : Event) (c2 : Command) (t : Nat),
          retry.senderID = event.senderID →
          reachesCooldownGate (handleMessage beh w event t0).world retry c2 n →
          retry.threadID ≠ "" →
          (t : Int) < t0 + effectiveCooldown c * 1000 →
            handleMessage beh (handleMessage beh w event t0).world retry t
              = cooldownRejection (handleMessage beh w event t0).world retry n
                  (ceilSeconds ((t0 : Int) + effectiveCooldown c * 1000 - t)))
      ∧ (0 ≤ commandCooldown c → (t0 : Int) < t0 + effectiveCooldown c * 1000) := by
  have hcd := handleMessage_accepted_userCooldowns beh w event t0 c n hgate hready
  refine ⟨?_, ?_, fun retry c2 t hsender hretry hthread ht => ?_, fun hnonneg => ?_⟩
  · rw [handleMessage_at_cooldownGate beh w event t0 c n hgate, hready]
  · rw [hcd]
    exact tableGet_tableSet_same _ _ _
  · rw [← hsender] at hcd
    exact handleMessage_rejected_of_live_entry beh _ retry c2 n w.userCooldowns _ t0 t hcd hretry
      hthread ht
  · have h1 : 1 ≤ effectiveCooldown c := by
      unfold effectiveCooldown
      split_ifs <;> omega
    omega

/-- C26 at a concrete input: the handler of `/help` throws at 10 000 ms and the
command is sent again at once. -/
theorem handleMessage_cooldown_written_first_witness :
    handleMessage throwingBehaviour
        (handleMessage throwingBehaviour sampleWorld (sampleEvent "/help") 10000).world
        (sampleEvent "/help") 10000
      = cooldownRejection
          (handleMessage throwingBehaviour sampleWorld (sampleEvent "/help") 10000).world
          (sampleEvent "/help") "help" 3 :=
  (handleMessage_cooldown_written_first throwingBehaviour sampleWorld (sampleEvent "/help") 10000
    sampleHelp "help" (by decide) (by decide)).2.2.1 (sampleEvent "/help") sampleHelp 10000 rfl
    (by decide) (by decide) (by decide)

/-! ### The modules `gagstock.ts` and `sendmessage.js` -/

theorem getUserRole_le_three (config : Option Config) (u : JsId) : getUserRole config u ≤ 3 := by
  unfold getUserRole
  repeat' (first | split | dsimp only)
  all_goals omega

/-- C28 on the code: `gagstock` requires role 4 and `getUserRole` never exceeds
3, so the role gate denies every sender; the admin `1` who sends `/gagstock on`
gets the moderators-only text and `run` is not called. -/
theorem gagstock_role_evaluation :
    commandRole gagstockCommand = 4
      ∧ (∀ (config : Option Config) (u : JsId),
          (getUserRole config u : Int) < commandRole gagstockCommand)
      ∧ getUserRole (some sampleModulesWorld.config) (JsId.str "1") = 1
      ∧ (resolveCommand sampleModulesWorld "/gagstock on").command = some gagstockCommand
      ∧ handleMessage quietBehaviour sampleModulesWorld
          (sampleEventFrom (JsId.str "1") "/gagstock on") 10000
        = ⟨loadBannedUsers sampleModulesWorld,
            [Effect.apiSendMessage moderatorsOnlyText "t1" (some "m1")], none⟩ := by
  refine ⟨by decide, fun config u => ?_, by decide, by decide, by decide⟩
  have h := getUserRole_le_three config u
  have h4 : commandRole gagstockCommand = 4 := by decide
  rw [h4]
  omega

/-- C29 on the code: `execute` takes the UID from `args[1]`, the second
argument, where the documented usage puts the first word of the message. The
admin `1` who sends `/sendmessage 123 hello` is told to give a valid UID and
nothing goes to thread `123`; with `/sendmessage 123 456 hi` the text `456 hi`
goes to thread `456`. -/
theorem sendmessage_usage_evaluation :
    (resolveCommand sampleModulesWorld "/sendmessage 123 hello").command
        = some sendmessageCommand
      ∧ (sampleModulesWorld.config.admins.getD []).contains (JsId.str "1") = true
      ∧ (handleMessage sendmessageBehaviour sampleModulesWorld
          (sampleEventFrom (JsId.str "1") "/sendmessage 123 hello") 10000).effects
        = [Effect.invoke EntryPoint.execute sendmessageCommand ["123", "hello"] (some "/"),
            Effect.apiSendMessage "⚠️ | Please provide a valid **User ID (UID)**." "t1" none]
      ∧ (handleMessage sendmessageBehaviour sampleModulesWorld
          (sampleEventFrom (JsId.str "1") "/sendmessage 123 456 hi") 10000).effects
        = [Effect.invoke EntryPoint.execute sendmessageCommand ["123", "456", "hi"] (some "/"),
            Effect.apiSendMessage (anonymousMessage "456 hi") "456" none,
            Effect.apiSendMessage "✅ | Your message has been sent to **456**." "t1" none] := by
  decide

/-- C27 on the code: thread `t1` turns tracking on, its socket closes and a
reconnect is scheduled, and `off` removes the session. When the timer then
fires, `connectWebSocket` makes a second socket and stores a session for `t1`
again, since the callback never looks at the `closed` flag. -/
theorem gagstock_reconnect_after_off_evaluation :
    sampleGagStopped.activeSessions = []
      ∧ sampleGagStopped.reconnectTimers = ["t1"]
      ∧ sampleGagStopped.sockets = [⟨"t1", true, true⟩]
      ∧ sampleGagStopped.sent
        = [("Gagstock tracking started for this thread via WebSocket!", "t1"),
            ("Gagstock tracking stopped for this thread.", "t1")]
      ∧ (gagStep sampleGagStopped (.reconnectTimer "t1")).sockets
        = [⟨"t1", true, true⟩, ⟨"t1", false, false⟩]
      ∧ (gagStep sampleGagStopped (.reconnectTimer "t1")).activeSessions
        = [("t1", ⟨1, false⟩)] := by
  decide

/-! ### The manager of `rpg.js` -/

theorem excessBits_of_lt (fuel n : Nat) (h : n < 2 ^ 53) : excessBits fuel n = 0 := by
  cases fuel with
  | zero => rfl
  | succ k =>
    unfold excessBits
    rw [if_pos h]

theorem roundToDouble_of_safe (x : Int) (h : isSafeInteger x = true) : roundToDouble x = x := by
  have hlt : x.natAbs < 2 ^ 53 := by simpa [isSafeInteger] using h
  simp [roundToDouble, excessBits_of_lt _ _ hlt, Nat.mod_one, Int.sign_mul_abs]

theorem numberOr_zero_isSome (x : Option Int) : numberOr x 0 = some (x.getD 0) := by
  unfold numberOr
  split
  · split <;> simp_all
  · rfl

theorem transferBalance_insufficient (usersData : List (JsId × PlayerData))
    (fromUserId toUserId : JsId) (amount : Int) (hne : fromUserId ≠ toUserId)
    (h : playerBalance usersData fromUserId < amount) :
    (transferBalance usersData fromUserId toUserId amount).2 = .error "Insufficient balance"
      ∧ playerBalance (transferBalance usersData fromUserId toUserId amount).1 fromUserId
        = playerBalance usersData fromUserId
      ∧ playerBalance (transferBalance usersData fromUserId toUserId amount).1 toUserId
        = playerBalance usersData toUserId := by
  have hne' : toUserId ≠ fromUserId := Ne.symm hne
  cases hf : tableGet usersData fromUserId <;> cases ht : tableGet usersData toUserId <;>
    simp [playerBalance, hf] at h <;>
    simp [transferBalance, getPlayer, hf, ht, PlayerRef.read, PlayerRef.assignBalance,
      updatePlayer, spread, spreadField, withDefaults, playerBalance, numberOr_zero_isSome,
      tableGet_tableSet_same, tableGet_tableSet_other _ _ _ _ hne,
      tableGet_tableSet_other _ _ _ _ hne', emptyObject, h]

theorem transferBalance_sufficient (usersData : List (JsId × PlayerData))
    (fromUserId toUserId : JsId) (amount : Int) (hne : fromUserId ≠ toUserId)
    (h : amount ≤ playerBalance usersData fromUserId) :
    (transferBalance usersData fromUserId toUserId amount).2
        = .ok (roundToDouble (playerBalance usersData fromUserId - amount),
            roundToDouble (playerBalance usersData toUserId + amount))
      ∧ playerBalance (transferBalance usersData fromUserId toUserId amount).1 fromUserId
        = roundToDouble (playerBalance usersData fromUserId - amount)
      ∧ playerBalance (transferBalance usersData fromUserId toUserId amount).1 toUserId
        = roundToDouble (playerBalance usersData toUserId + amount) := by
  have hne' : toUserId ≠ fromUserId := Ne.symm hne
  cases hf : tableGet usersData fromUserId <;> cases ht : tableGet usersData toUserId <;>
    simp [playerBalance, hf] at h <;>
    have h' := not_lt.mpr h <;>
    simp [transferBalance, getPlayer, hf, ht, PlayerRef.read, PlayerRef.assignBalance,
      updatePlayer, spread, spreadField, withDefaults, playerBalance, numberOr_zero_isSome,
      tableGet_tableSet_same, tableGet_tableSet_other _ _ _ _ hne,
      tableGet_tableSet_other _ _ _ _ hne', emptyObject, h']

/-- C30 fails as stated: users `1` and `2` hold `2 ^ 53` each and `1` is
transferred. The sender has enough and ends with `2 ^ 53 - 1`, but the sum
`2 ^ 53 + 1` is no Number and rounds to `2 ^ 53`: the balance of the receiver
is as before, and the two balances together are lower by `1`. -/
theorem transferBalance_large_counterexample :
    JsId.str "1" ≠ JsId.str "2"
      ∧ playerBalance sampleLargeUsersData (JsId.str "1") = 2 ^ 53
      ∧ playerBalance sampleLargeUsersData (JsId.str "2") = 2 ^ 53
      ∧ (1 : Int) ≤ playerBalance sampleLargeUsersData (JsId.str "1")
      ∧ (transferBalance sampleLargeUsersData (JsId.str "1") (JsId.str "2") 1).2
        = .ok (2 ^ 53 - 1, 2 ^ 53)
      ∧ playerBalance (transferBalance sampleLargeUsersData (JsId.str "1") (JsId.str "2") 1).1
          (JsId.str "1") = 2 ^ 53 - 1
      ∧ playerBalance (transferBalance sampleLargeUsersData (JsId.str "1") (JsId.str "2") 1).1
          (JsId.str "2") = playerBalance sampleLargeUsersData (JsId.str "2")
      ∧ playerBalance (transferBalance sampleLargeUsersData (JsId.str "1") (JsId.str "2") 1).1
            (JsId.str "1")
          + playerBalance (transferBalance sampleLargeUsersData (JsId.str "1") (JsId.str "2") 1).1
            (JsId.str "2")
        = playerBalance sampleLargeUsersData (JsId.str "1")
          + playerBalance sampleLargeUsersData (JsId.str "2") - 1 := by
  refine ⟨by decide, by decide, by decide, by decide, by rfl, by decide, by decide, by decide⟩

/-- C30, as the code has it: `transferBalance` between two distinct users on a
manager without a database, for whole-valued balances and amount. When the
balance of the sender is at least `amount` and the two new balances, the one
of the sender less `amount` and the one of the receiver plus `amount`, are safe
integers, the call returns them, and afterwards the balance of the sender is
lower by `amount`, that of the receiver higher by `amount`, and their sum is
as before. When the balance of the sender is less than `amount`, the call
throws `Insufficient balance` and both balances are as before. -/
theorem transferBalance_conserves (usersData : List (JsId × PlayerData))
    (fromUserId toUserId : JsId) (amount : Int) (hne : fromUserId ≠ toUserId) :
    (amount ≤ playerBalance usersData fromUserId →
      isSafeInteger (playerBalance usersData fromUserId - amount) = true →
      isSafeInteger (playerBalance usersData toUserId + amount) = true →
        (transferBalance usersData fromUserId toUserId amount).2
            = .ok (playerBalance usersData fromUserId - amount,
                playerBalance usersData toUserId + amount)
          ∧ playerBalance (transferBalance usersData fromUserId toUserId amount).1 fromUserId
            = playerBalance usersData fromUserId - amount
          ∧ playerBalance (transferBalance usersData fromUserId toUserId amount).1 toUserId
            = playerBalance usersData toUserId + amount
          ∧ playerBalance (transferBalance usersData fromUserId toUserId amount).1 fromUserId
              + playerBalance (transferBalance usersData fromUserId toUserId amount).1 toUserId
            = playerBalance usersData fromUserId + playerBalance usersData toUserId)
      ∧ (playerBalance usersData fromUserId < amount →
        (transferBalance usersData fromUserId toUserId amount).2
            = .error "Insufficient balance"
          ∧ playerBalance (transferBalance usersData fromUserId toUserId amount).1 fromUserId
            = playerBalance usersData fromUserId
          ∧ playerBalance (transferBalance usersData fromUserId toUserId amount).1 toUserId
            = playerBalance usersData toUserId) := by
  refine ⟨fun h hfrom hto => ?_, fun h => transferBalance_insufficient usersData _ _ amount hne h⟩
  obtain ⟨hres, hf, ht⟩ := transferBalance_sufficient usersData _ _ amount hne h
  rw [roundToDouble_of_safe _ hfrom, roundToDouble_of_safe _ hto] at hres
  rw [roundToDouble_of_safe _ hfrom] at hf
  rw [roundToDouble_of_safe _ hto] at ht
  refine ⟨hres, hf, ht, ?_⟩
  rw [hf, ht]
  ring

/-- C30 at a concrete input: user `1` holds 50 and user `2` nothing. A transfer
of 20 leaves them with 30 and 20; a transfer of 70 throws and leaves 50. -/
theorem transferBalance_conserves_witness :
    JsId.str "1" ≠ JsId.str "2"
      ∧ (playerBalance sampleUsersData (JsId.str "1") = 50
        ∧ (transferBalance sampleUsersData (JsId.str "1") (JsId.str "2") 20).2
          = .ok (playerBalance sampleUsersData (JsId.str "1") - 20,
              playerBalance sampleUsersData (JsId.str "2") + 20)
        ∧ playerBalance (transferBalance sampleUsersData (JsId.str "1") (JsId.str "2") 20).1
            (JsId.str "1")
          = playerBalance sampleUsersData (JsId.str "1") - 20
        ∧ playerBalance (transferBalance sampleUsersData (JsId.str "1") (JsId.str "2") 20).1
            (JsId.str "2")
          = playerBalance sampleUsersData (JsId.str "2") + 20)
      ∧ (transferBalance sampleUsersData (JsId.str "1") (JsId.str "2") 70).2
          = .error "Insufficient balance"
        ∧ playerBalance (transferBalance sampleUsersData (JsId.str "1") (JsId.str "2") 70).1
            (JsId.str "1")
          = playerBalance sampleUsersData (JsId.str "1") :=
  ⟨by decide,
    ⟨by decide,
      ((transferBalance_conserves sampleUsersData (JsId.str "1") (JsId.str "2") 20
        (by decide)).1 (by decide) (by decide) (by decide)).1,
      ((transferBalance_conserves sampleUsersData (JsId.str "1") (JsId.str "2") 20
        (by decide)).1 (by decide) (by decide) (by decide)).2.1,
      ((transferBalance_conserves sampleUsersData (JsId.str "1") (JsId.str "2") 20
        (by decide)).1 (by decide) (by decide) (by decide)).2.2.1⟩,
    ((transferBalance_conserves sampleUsersData (JsId.str "1") (JsId.str "2") 70
      (by decide)).2 (by decide)).1,
    ((transferBalance_conserves sampleUsersData (JsId.str "1") (JsId.str "2") 70
      (by decide)).2 (by decide)).2.1⟩

end KagenouBot
